import Mathlib

/-!
Verification of the tic-tac-toe game model and minimax search engine of
`src/main.py`.

The board is a 3×3 grid of Python strings: each cell holds `'X'`, `'O'`, or
the box-number string `str(row*3+col+1)` used as a placeholder for an empty
cell.  Cells are modelled by the inductive type `Cell`, where `Cell.E n`
stands for the string `str(n)`, and the board by a list of three rows.

The in-place mutation performed by the search (`board[i][j] = symbol` …
`board[i][j] = str(box)`) is modelled by threading the mutated board through
the loops (`MinimaxBot.minimaxLoop`, `MinimaxBot.moveLoop`), including the
restore writes, so that the undo discipline of the original is visible in
the model.

The game-theoretic facts (self-play ties, the bot never loses) are obtained
by refining the recursive search to a table of minimax values over
Nat-encoded boards (base-3 digits), whose defining equations are checked
exhaustively by `checkRange`.
-/

set_option maxRecDepth 40000

inductive Cell where
  | X : Cell
  | O : Cell
  | E : Nat → Cell
deriving DecidableEq

abbrev Board := List (List Cell)

/-- `board[i][j]` (all accesses in the program are in range). -/
def getCell (b : Board) (i j : Nat) : Cell :=
  (b.getD i []).getD j (Cell.E 0)

/-- `board[i][j] = v` (in-place update, modelled functionally). -/
def setCell (b : Board) (i j : Nat) (v : Cell) : Board :=
  b.set i ((b.getD i []).set j v)

/-- `cell in ['X', 'O']`. -/
def isMark (c : Cell) : Bool :=
  c == Cell.X || c == Cell.O

/-- `Game.get_box_number`: `row * 3 + col + 1`. -/
def Game.get_box_number (row col : Nat) : Nat := row * 3 + col + 1

/-- `Game.get_empty_box_positions`: row-major list of the (i, j) whose cell
is not `'X'` or `'O'`. -/
def Game.get_empty_box_positions (board : Board) : List (Nat × Nat) :=
  (([0, 1, 2] : List Nat).map (fun i =>
    ((([0, 1, 2] : List Nat).filter
      (fun j => !isMark (getCell board i j))).map (fun j => (i, j))))).flatten

structure Game where
  board : Board
  turn : Nat
deriving DecidableEq

/-- `Game.__init__`: all nine cells hold their box-number string, turn 0. -/
def Game.init : Game :=
  { board := (List.range 3).map (fun i =>
      (List.range 3).map (fun j => Cell.E (Game.get_box_number i j)))
    turn := 0 }

/-- `Game.get_winner`: scan row 0, column 0, row 1, column 1, row 2,
column 2, the main diagonal, then the anti-diagonal; return the first
triple of equal cells, else `None`. -/
def Game.get_winner (g : Game) : Option Cell :=
  if getCell g.board 0 0 = getCell g.board 0 1 ∧ getCell g.board 0 1 = getCell g.board 0 2 then
    some (getCell g.board 0 0)
  else if getCell g.board 0 0 = getCell g.board 1 0 ∧ getCell g.board 1 0 = getCell g.board 2 0 then
    some (getCell g.board 0 0)
  else if getCell g.board 1 0 = getCell g.board 1 1 ∧ getCell g.board 1 1 = getCell g.board 1 2 then
    some (getCell g.board 1 0)
  else if getCell g.board 0 1 = getCell g.board 1 1 ∧ getCell g.board 1 1 = getCell g.board 2 1 then
    some (getCell g.board 0 1)
  else if getCell g.board 2 0 = getCell g.board 2 1 ∧ getCell g.board 2 1 = getCell g.board 2 2 then
    some (getCell g.board 2 0)
  else if getCell g.board 0 2 = getCell g.board 1 2 ∧ getCell g.board 1 2 = getCell g.board 2 2 then
    some (getCell g.board 0 2)
  else if getCell g.board 0 0 = getCell g.board 1 1 ∧ getCell g.board 1 1 = getCell g.board 2 2 then
    some (getCell g.board 0 0)
  else if getCell g.board 0 2 = getCell g.board 1 1 ∧ getCell g.board 1 1 = getCell g.board 2 0 then
    some (getCell g.board 0 2)
  else
    none

inductive MoveError where
  | invalidBox : MoveError
  | cellOccupied : MoveError
deriving DecidableEq

inductive Outcome where
  | winner : Cell → Outcome
  | tie : Outcome
deriving DecidableEq

/-- `Game.move(box)`: validate the box number, reject occupied cells, write
the mark given by turn parity, bump the turn, and report the outcome.  The
second component is the state of the game after the call (unchanged when an
error is raised, since the original raises before any mutation). -/
def Game.move (g : Game) (box : Int) : Except MoveError (Option Outcome) × Game :=
  if box < 1 ∨ box > 9 then
    (Except.error MoveError.invalidBox, g)
  else
    let row : Nat := ((box - 1) / 3).toNat
    let col : Nat := ((box - 1) % 3).toNat
    if isMark (getCell g.board row col) then
      (Except.error MoveError.cellOccupied, g)
    else
      let mark := if g.turn % 2 = 0 then Cell.X else Cell.O
      let g' : Game := { board := setCell g.board row col mark, turn := g.turn + 1 }
      match g'.get_winner with
      | some w => (Except.ok (some (Outcome.winner w)), g')
      | none =>
        if g'.turn = 9 then (Except.ok (some Outcome.tie), g')
        else (Except.ok none, g')

/-- `MinimaxBot._evaluate`: same scan as `Game.get_winner`, scored relative
to the bot's own symbol `sym`; `0` on a full board, `None` otherwise. -/
def MinimaxBot.evaluate (sym : Cell) (board : Board) : Option Int :=
  if getCell board 0 0 = getCell board 0 1 ∧ getCell board 0 1 = getCell board 0 2 then
    some (if getCell board 0 0 = sym then 10 else -10)
  else if getCell board 0 0 = getCell board 1 0 ∧ getCell board 1 0 = getCell board 2 0 then
    some (if getCell board 0 0 = sym then 10 else -10)
  else if getCell board 1 0 = getCell board 1 1 ∧ getCell board 1 1 = getCell board 1 2 then
    some (if getCell board 1 0 = sym then 10 else -10)
  else if getCell board 0 1 = getCell board 1 1 ∧ getCell board 1 1 = getCell board 2 1 then
    some (if getCell board 0 1 = sym then 10 else -10)
  else if getCell board 2 0 = getCell board 2 1 ∧ getCell board 2 1 = getCell board 2 2 then
    some (if getCell board 2 0 = sym then 10 else -10)
  else if getCell board 0 2 = getCell board 1 2 ∧ getCell board 1 2 = getCell board 2 2 then
    some (if getCell board 0 2 = sym then 10 else -10)
  else if getCell board 0 0 = getCell board 1 1 ∧ getCell board 1 1 = getCell board 2 2 then
    some (if getCell board 0 0 = sym then 10 else -10)
  else if getCell board 0 2 = getCell board 1 1 ∧ getCell board 1 1 = getCell board 2 0 then
    some (if getCell board 0 2 = sym then 10 else -10)
  else if board.all (fun row => row.all (fun cell => isMark cell)) then
    some 0
  else
    none

/-- `'X' if symbol == 'O' else 'O'`. -/
def oppSym (symbol : Cell) : Cell :=
  if symbol = Cell.O then Cell.X else Cell.O

/-- `max(scores)` (the scores list is never empty when the original takes a
maximum; `0` is a junk value for the impossible empty case). -/
def maxList : List Int → Int
  | [] => 0
  | h :: t => t.foldl max h

/-- `min(scores)` (same remark as `maxList`). -/
def minList : List Int → Int
  | [] => 0
  | h :: t => t.foldl min h

mutual

/-- `MinimaxBot._minimax(board, symbol)` for a bot whose own symbol is
`sym`, with an explicit recursion bound `fuel` (the recursion of the
original terminates because each call has one fewer empty cell; any
`fuel ≥` number of empty cells makes the bound irrelevant, since the
static evaluation is consulted before the bound). -/
def MinimaxBot.minimax (sym : Cell) : Nat → Board → Cell → Int
  | fuel, board, symbol =>
    match MinimaxBot.evaluate sym board with
    | some score => score
    | none =>
      match fuel with
      | 0 => 0
      | fuel + 1 =>
        let empty_boxes := Game.get_empty_box_positions board
        let r := MinimaxBot.minimaxLoop sym fuel symbol empty_boxes board
        if symbol = sym then maxList r.1 else minList r.1

/-- The `for i, j in empty_boxes` loop of `_minimax`: place `symbol` at
(i, j), recurse for the opposite symbol, then restore the cell to its
box-number string, threading the mutated board through the iterations. -/
def MinimaxBot.minimaxLoop (sym : Cell) (fuel : Nat) (symbol : Cell) :
    List (Nat × Nat) → Board → List Int × Board
  | [], board => ([], board)
  | (i, j) :: rest, board =>
    let box := Game.get_box_number i j
    let board1 := setCell board i j symbol
    let s := MinimaxBot.minimax sym fuel board1 (oppSym symbol)
    let board2 := setCell board1 i j (Cell.E box)
    let r := MinimaxBot.minimaxLoop sym fuel symbol rest board2
    (s :: r.1, r.2)

end

/-- The `for i, j in empty_boxes` loop of `MinimaxBot.move`: like
`minimaxLoop` but at the top level, recording `(box, score)` pairs in
insertion order (the Python dict iterates in insertion order). -/
def MinimaxBot.moveLoop (sym : Cell) :
    List (Nat × Nat) → Board → List (Nat × Int) × Board
  | [], board => ([], board)
  | (i, j) :: rest, board =>
    let box := Game.get_box_number i j
    let board1 := setCell board i j sym
    let s := MinimaxBot.minimax sym 9 board1 (oppSym sym)
    let board2 := setCell board1 i j (Cell.E box)
    let r := MinimaxBot.moveLoop sym rest board2
    ((box, s) :: r.1, r.2)

/-- `box = None; max_score = -inf; for key, value in scores: if value >
max_score: box, max_score = key, value`.  `none` plays the role of the
initial `-inf` state (any value beats it). -/
def bestBox (scores : List (Nat × Int)) : Option Nat :=
  (scores.foldl (fun acc kv =>
    match acc with
    | none => some kv
    | some bk => if kv.2 > bk.2 then some kv else acc) none).map Prod.fst

/-- `MinimaxBot.move`: search on a copy of the live board and return the
first box whose score is strictly greater than every earlier score. -/
def MinimaxBot.move (sym : Cell) (g : Game) : Option Nat :=
  let board := g.board.map (fun row => row)
  let empty_boxes := Game.get_empty_box_positions g.board
  let r := MinimaxBot.moveLoop sym empty_boxes board
  bestBox r.1

/-- One game in which both players choose every move with
`MinimaxBot.move`: the mover's symbol is given by turn parity (even → X,
odd → O), each chosen box is applied with `Game.move`, and play continues
until a terminal outcome.  Both assignments of X/O to the two bots give
this same sequence of positions, since both bots run the same algorithm. -/
def selfPlay : Nat → Game → Option Outcome
  | 0, _ => none
  | fuel + 1, g =>
    let mover := if g.turn % 2 = 0 then Cell.X else Cell.O
    match MinimaxBot.move mover g with
    | none => none
    | some box =>
      match Game.move g (box : Int) with
      | (Except.ok (some o), _) => some o
      | (Except.ok none, g') => selfPlay fuel g'
      | (Except.error _, _) => none

/-- A game from `g` in which the minimax bot with symbol `botSym` chooses
its own moves via `MinimaxBot.move` and the opponent plays the successive
entries of `ms`; the result is `none` when the move list is exhausted, an
illegal opponent move is submitted, or the fuel runs out. -/
def runGame (botSym : Cell) : Nat → Game → List Int → Option Outcome
  | 0, _, _ => none
  | fuel + 1, g, ms =>
    let mover := if g.turn % 2 = 0 then Cell.X else Cell.O
    if mover = botSym then
      match MinimaxBot.move botSym g with
      | none => none
      | some box =>
        match Game.move g (box : Int) with
        | (Except.ok (some o), _) => some o
        | (Except.ok none, g') => runGame botSym fuel g' ms
        | (Except.error _, _) => none
    else
      match ms with
      | [] => none
      | m :: rest =>
        match Game.move g m with
        | (Except.ok (some o), _) => some o
        | (Except.ok none, g') => runGame botSym fuel g' rest
        | (Except.error _, _) => none

/-- A cell of a well-formed board: a mark, or the box-number string of its
own position. -/
def validCell (i j : Nat) (c : Cell) : Prop :=
  c = Cell.X ∨ c = Cell.O ∨ c = Cell.E (Game.get_box_number i j)

/-- A well-formed 3×3 board: every cell is `'X'`, `'O'`, or its own
box-number string (as produced by `Game.__init__` and preserved by every
write the program performs). -/
def ValidBoard (b : Board) : Prop :=
  b.length = 3 ∧ (∀ row ∈ b, row.length = 3) ∧
    ∀ i < 3, ∀ j < 3, validCell i j (getCell b i j)

/-- The number of cells holding `'X'` or `'O'`. -/
def countMarks (b : Board) : Nat :=
  (b.map (fun row => row.countP (fun c => isMark c))).sum

/-- Game states reachable from `Game.__init__` by any sequence of
`Game.move` calls; a failing call leaves the state unchanged, so it is
covered by `step` as well. -/
inductive Reachable : Game → Prop where
  | init : Reachable Game.init
  | step (g : Game) (box : Int) : Reachable g → Reachable (Game.move g box).2

/-- The state written by a successful `Game.move` call. -/
def postGame (g : Game) (box : Int) : Game :=
  { board := setCell g.board ((box - 1) / 3).toNat ((box - 1) % 3).toNat
      (if g.turn % 2 = 0 then Cell.X else Cell.O)
    turn := g.turn + 1 }

/-- The outcome reported by a successful `Game.move` call. -/
def postResult (g' : Game) : Option Outcome :=
  match g'.get_winner with
  | some w => some (Outcome.winner w)
  | none => if g'.turn = 9 then some Outcome.tie else none

theorem move_eq_invalid (g : Game) (box : Int) (h : box < 1 ∨ box > 9) :
    Game.move g box = (Except.error MoveError.invalidBox, g) := by
  unfold Game.move
  rw [if_pos h]

theorem move_eq_occupied (g : Game) (box : Int) (h1 : ¬ (box < 1 ∨ box > 9))
    (h2 : isMark (getCell g.board ((box - 1) / 3).toNat ((box - 1) % 3).toNat) = true) :
    Game.move g box = (Except.error MoveError.cellOccupied, g) := by
  unfold Game.move
  rw [if_neg h1]
  simp only [h2, if_true]

theorem move_eq_ok (g : Game) (box : Int) (h1 : ¬ (box < 1 ∨ box > 9))
    (h2 : isMark (getCell g.board ((box - 1) / 3).toNat ((box - 1) % 3).toNat) = false) :
    Game.move g box = (Except.ok (postResult (postGame g box)), postGame g box) := by
  unfold Game.move
  rw [if_neg h1]
  simp only [h2, Bool.false_eq_true, if_false]
  rcases hw : (postGame g box).get_winner with _ | w
  · unfold postGame at hw
    simp only [postResult, postGame, hw]
    by_cases h9 : g.turn + 1 = 9 <;> simp [h9]
  · unfold postGame at hw
    simp only [postResult, postGame, hw]

/-- C4: `Game.move` fails with `InvalidBox` iff the box is outside 1..9,
fails with `CellOccupied` iff the box is in range but the addressed cell
already holds a mark, and succeeds in every other case. -/
theorem move_error_characterization (g : Game) (box : Int) :
    ((Game.move g box).1 = Except.error MoveError.invalidBox ↔ box < 1 ∨ box > 9) ∧
    ((Game.move g box).1 = Except.error MoveError.cellOccupied ↔
      (1 ≤ box ∧ box ≤ 9) ∧
        isMark (getCell g.board ((box - 1) / 3).toNat ((box - 1) % 3).toNat) = true) ∧
    (¬ (box < 1 ∨ box > 9) →
      isMark (getCell g.board ((box - 1) / 3).toNat ((box - 1) % 3).toNat) = false →
      ∃ out, (Game.move g box).1 = Except.ok out) := by
  by_cases hb : box < 1 ∨ box > 9
  · rw [move_eq_invalid g box hb]
    refine ⟨by simpa using hb, ?_, fun h _ => absurd hb h⟩
    constructor
    · intro h
      cases h
    · intro h
      omega
  · by_cases hc : isMark (getCell g.board ((box - 1) / 3).toNat ((box - 1) % 3).toNat) = true
    · rw [move_eq_occupied g box hb hc]
      refine ⟨?_, ?_, ?_⟩
      · constructor
        · intro h
          cases h
        · intro h
          exact absurd h hb
      · constructor
        · intro _
          exact ⟨by omega, hc⟩
        · intro _
          rfl
      · intro _ h
        rw [hc] at h
        cases h
    · rw [Bool.not_eq_true] at hc
      rw [move_eq_ok g box hb hc]
      refine ⟨?_, ?_, fun _ _ => ⟨_, rfl⟩⟩
      · exact ⟨(fun h => nomatch h), (fun h => absurd h hb)⟩
      · exact ⟨(fun h => nomatch h), (fun h => by simp [h.2] at hc)⟩

/-- C10: when `Game.move` raises either error, the game state (board and
turn counter) is exactly what it was before the call. -/
theorem move_atomic_on_failure (g : Game) (box : Int) (e : MoveError)
    (h : (Game.move g box).1 = Except.error e) : (Game.move g box).2 = g := by
  by_cases hb : box < 1 ∨ box > 9
  · rw [move_eq_invalid g box hb]
  · by_cases hc : isMark (getCell g.board ((box - 1) / 3).toNat ((box - 1) % 3).toNat) = true
    · rw [move_eq_occupied g box hb hc]
    · rw [Bool.not_eq_true] at hc
      rw [move_eq_ok g box hb hc] at h
      cases h

/-- Witness for C10 at the concrete inputs box 0 (invalid) and a second
failing call on an occupied cell. -/
theorem move_atomic_on_failure_witness :
    (Game.move Game.init 0).1 = Except.error MoveError.invalidBox ∧
      (Game.move Game.init 0).2 = Game.init :=
  ⟨rfl, move_atomic_on_failure Game.init 0 MoveError.invalidBox rfl⟩

theorem list_len3 {α : Type} (l : List α) (h : l.length = 3) :
    ∃ a b c, l = [a, b, c] := by
  rcases l with _ | ⟨a, _ | ⟨b, _ | ⟨c, _ | ⟨d, t⟩⟩⟩⟩ <;> simp_all

/-- A board of the right shape is a literal 3×3 list of its cells. -/
theorem board_cells (b : Board) (h3 : b.length = 3)
    (hr : ∀ row ∈ b, row.length = 3) :
    ∃ c00 c01 c02 c10 c11 c12 c20 c21 c22,
      b = [[c00, c01, c02], [c10, c11, c12], [c20, c21, c22]] := by
  obtain ⟨r0, r1, r2, rfl⟩ := list_len3 b h3
  obtain ⟨c00, c01, c02, h0⟩ := list_len3 r0 (hr r0 (by simp))
  obtain ⟨c10, c11, c12, h1⟩ := list_len3 r1 (hr r1 (by simp))
  obtain ⟨c20, c21, c22, h2⟩ := list_len3 r2 (hr r2 (by simp))
  subst h0 h1 h2
  exact ⟨c00, c01, c02, c10, c11, c12, c20, c21, c22, rfl⟩

/-- Integer box arithmetic: a box in 1..9 addresses row `k / 3`, column
`k % 3` for `k = box - 1 < 9`. -/
theorem box_rowcol (box : Int) (h1 : 1 ≤ box) (h9 : box ≤ 9) :
    ((box - 1) / 3).toNat < 3 ∧ ((box - 1) % 3).toNat < 3 ∧
      Game.get_box_number ((box - 1) / 3).toNat ((box - 1) % 3).toNat = box.toNat := by
  interval_cases box <;> decide

instance (i j : Nat) (c : Cell) : Decidable (validCell i j c) := by
  unfold validCell
  infer_instance

/-- Indicator of a marked cell. -/
def markInd (c : Cell) : Nat := if isMark c = true then 1 else 0

theorem markInd_le (c : Cell) : markInd c ≤ 1 := by
  unfold markInd
  split <;> omega

theorem countMarks_explicit (a0 a1 a2 b0 b1 b2 d0 d1 d2 : Cell) :
    countMarks [[a0, a1, a2], [b0, b1, b2], [d0, d1, d2]] =
      markInd a0 + markInd a1 + markInd a2 + markInd b0 + markInd b1 + markInd b2 +
        markInd d0 + markInd d1 + markInd d2 := by
  simp only [countMarks, List.map, List.countP_cons, List.countP_nil, List.sum_cons,
    List.sum_nil, markInd]
  omega

theorem markInd_true {c : Cell} (h : isMark c = true) : markInd c = 1 := by
  simp [markInd, h]

theorem markInd_false {c : Cell} (h : isMark c = false) : markInd c = 0 := by
  simp [markInd, h]

/-- The board invariant maintained by every reachable game state. -/
def GameInv (g : Game) : Prop :=
  ValidBoard g.board ∧ countMarks g.board = g.turn ∧ g.turn ≤ 9

theorem inv_init : GameInv Game.init := by
  refine ⟨⟨by decide, by decide, by decide⟩, by decide, by decide⟩

/-- Writing a mark into an empty cell of a well-formed board keeps it
well-formed and raises the mark count by exactly one. -/
theorem setCell_effect (c00 c01 c02 c10 c11 c12 c20 c21 c22 m : Cell) (i j : Nat)
    (hi : i < 3) (hj : j < 3)
    (hc : isMark (getCell [[c00, c01, c02], [c10, c11, c12], [c20, c21, c22]] i j) = false)
    (hm : isMark m = true)
    (hvcm : ∀ a b : Nat, validCell a b m)
    (hval : ∀ a < 3, ∀ b < 3, validCell a b (getCell [[c00, c01, c02], [c10, c11, c12], [c20, c21, c22]] a b)) :
    ValidBoard (setCell [[c00, c01, c02], [c10, c11, c12], [c20, c21, c22]] i j m) ∧
      countMarks (setCell [[c00, c01, c02], [c10, c11, c12], [c20, c21, c22]] i j m) =
        countMarks [[c00, c01, c02], [c10, c11, c12], [c20, c21, c22]] + 1 := by
  have h00 : validCell 0 0 c00 := hval 0 (by omega) 0 (by omega)
  have h01 : validCell 0 1 c01 := hval 0 (by omega) 1 (by omega)
  have h02 : validCell 0 2 c02 := hval 0 (by omega) 2 (by omega)
  have h10 : validCell 1 0 c10 := hval 1 (by omega) 0 (by omega)
  have h11 : validCell 1 1 c11 := hval 1 (by omega) 1 (by omega)
  have h12 : validCell 1 2 c12 := hval 1 (by omega) 2 (by omega)
  have h20 : validCell 2 0 c20 := hval 2 (by omega) 0 (by omega)
  have h21 : validCell 2 1 c21 := hval 2 (by omega) 1 (by omega)
  have h22 : validCell 2 2 c22 := hval 2 (by omega) 2 (by omega)
  interval_cases i <;> interval_cases j
  · have hc0 : isMark c00 = false := hc
    refine ⟨?_, ?_⟩
    · show ValidBoard [[m, c01, c02], [c10, c11, c12], [c20, c21, c22]]
      refine ⟨rfl, ?_, ?_⟩
      · intro row hr
        simp only [List.mem_cons, List.not_mem_nil, or_false] at hr
        rcases hr with rfl | rfl | rfl <;> rfl
      · intro a ha b hb
        interval_cases a <;> interval_cases b <;>
          (first
            | exact hvcm _ _
            | exact h00 | exact h01 | exact h02
            | exact h10 | exact h11 | exact h12
            | exact h20 | exact h21 | exact h22)
    · show countMarks [[m, c01, c02], [c10, c11, c12], [c20, c21, c22]] = countMarks [[c00, c01, c02], [c10, c11, c12], [c20, c21, c22]] + 1
      rw [countMarks_explicit, countMarks_explicit, markInd_true hm, markInd_false hc0]
      try omega
  · have hc0 : isMark c01 = false := hc
    refine ⟨?_, ?_⟩
    · show ValidBoard [[c00, m, c02], [c10, c11, c12], [c20, c21, c22]]
      refine ⟨rfl, ?_, ?_⟩
      · intro row hr
        simp only [List.mem_cons, List.not_mem_nil, or_false] at hr
        rcases hr with rfl | rfl | rfl <;> rfl
      · intro a ha b hb
        interval_cases a <;> interval_cases b <;>
          (first
            | exact hvcm _ _
            | exact h00 | exact h01 | exact h02
            | exact h10 | exact h11 | exact h12
            | exact h20 | exact h21 | exact h22)
    · show countMarks [[c00, m, c02], [c10, c11, c12], [c20, c21, c22]] = countMarks [[c00, c01, c02], [c10, c11, c12], [c20, c21, c22]] + 1
      rw [countMarks_explicit, countMarks_explicit, markInd_true hm, markInd_false hc0]
      try omega
  · have hc0 : isMark c02 = false := hc
    refine ⟨?_, ?_⟩
    · show ValidBoard [[c00, c01, m], [c10, c11, c12], [c20, c21, c22]]
      refine ⟨rfl, ?_, ?_⟩
      · intro row hr
        simp only [List.mem_cons, List.not_mem_nil, or_false] at hr
        rcases hr with rfl | rfl | rfl <;> rfl
      · intro a ha b hb
        interval_cases a <;> interval_cases b <;>
          (first
            | exact hvcm _ _
            | exact h00 | exact h01 | exact h02
            | exact h10 | exact h11 | exact h12
            | exact h20 | exact h21 | exact h22)
    · show countMarks [[c00, c01, m], [c10, c11, c12], [c20, c21, c22]] = countMarks [[c00, c01, c02], [c10, c11, c12], [c20, c21, c22]] + 1
      rw [countMarks_explicit, countMarks_explicit, markInd_true hm, markInd_false hc0]
      try omega
  · have hc0 : isMark c10 = false := hc
    refine ⟨?_, ?_⟩
    · show ValidBoard [[c00, c01, c02], [m, c11, c12], [c20, c21, c22]]
      refine ⟨rfl, ?_, ?_⟩
      · intro row hr
        simp only [List.mem_cons, List.not_mem_nil, or_false] at hr
        rcases hr with rfl | rfl | rfl <;> rfl
      · intro a ha b hb
        interval_cases a <;> interval_cases b <;>
          (first
            | exact hvcm _ _
            | exact h00 | exact h01 | exact h02
            | exact h10 | exact h11 | exact h12
            | exact h20 | exact h21 | exact h22)
    · show countMarks [[c00, c01, c02], [m, c11, c12], [c20, c21, c22]] = countMarks [[c00, c01, c02], [c10, c11, c12], [c20, c21, c22]] + 1
      rw [countMarks_explicit, countMarks_explicit, markInd_true hm, markInd_false hc0]
      try omega
  · have hc0 : isMark c11 = false := hc
    refine ⟨?_, ?_⟩
    · show ValidBoard [[c00, c01, c02], [c10, m, c12], [c20, c21, c22]]
      refine ⟨rfl, ?_, ?_⟩
      · intro row hr
        simp only [List.mem_cons, List.not_mem_nil, or_false] at hr
        rcases hr with rfl | rfl | rfl <;> rfl
      · intro a ha b hb
        interval_cases a <;> interval_cases b <;>
          (first
            | exact hvcm _ _
            | exact h00 | exact h01 | exact h02
            | exact h10 | exact h11 | exact h12
            | exact h20 | exact h21 | exact h22)
    · show countMarks [[c00, c01, c02], [c10, m, c12], [c20, c21, c22]] = countMarks [[c00, c01, c02], [c10, c11, c12], [c20, c21, c22]] + 1
      rw [countMarks_explicit, countMarks_explicit, markInd_true hm, markInd_false hc0]
      try omega
  · have hc0 : isMark c12 = false := hc
    refine ⟨?_, ?_⟩
    · show ValidBoard [[c00, c01, c02], [c10, c11, m], [c20, c21, c22]]
      refine ⟨rfl, ?_, ?_⟩
      · intro row hr
        simp only [List.mem_cons, List.not_mem_nil, or_false] at hr
        rcases hr with rfl | rfl | rfl <;> rfl
      · intro a ha b hb
        interval_cases a <;> interval_cases b <;>
          (first
            | exact hvcm _ _
            | exact h00 | exact h01 | exact h02
            | exact h10 | exact h11 | exact h12
            | exact h20 | exact h21 | exact h22)
    · show countMarks [[c00, c01, c02], [c10, c11, m], [c20, c21, c22]] = countMarks [[c00, c01, c02], [c10, c11, c12], [c20, c21, c22]] + 1
      rw [countMarks_explicit, countMarks_explicit, markInd_true hm, markInd_false hc0]
      try omega
  · have hc0 : isMark c20 = false := hc
    refine ⟨?_, ?_⟩
    · show ValidBoard [[c00, c01, c02], [c10, c11, c12], [m, c21, c22]]
      refine ⟨rfl, ?_, ?_⟩
      · intro row hr
        simp only [List.mem_cons, List.not_mem_nil, or_false] at hr
        rcases hr with rfl | rfl | rfl <;> rfl
      · intro a ha b hb
        interval_cases a <;> interval_cases b <;>
          (first
            | exact hvcm _ _
            | exact h00 | exact h01 | exact h02
            | exact h10 | exact h11 | exact h12
            | exact h20 | exact h21 | exact h22)
    · show countMarks [[c00, c01, c02], [c10, c11, c12], [m, c21, c22]] = countMarks [[c00, c01, c02], [c10, c11, c12], [c20, c21, c22]] + 1
      rw [countMarks_explicit, countMarks_explicit, markInd_true hm, markInd_false hc0]
      try omega
  · have hc0 : isMark c21 = false := hc
    refine ⟨?_, ?_⟩
    · show ValidBoard [[c00, c01, c02], [c10, c11, c12], [c20, m, c22]]
      refine ⟨rfl, ?_, ?_⟩
      · intro row hr
        simp only [List.mem_cons, List.not_mem_nil, or_false] at hr
        rcases hr with rfl | rfl | rfl <;> rfl
      · intro a ha b hb
        interval_cases a <;> interval_cases b <;>
          (first
            | exact hvcm _ _
            | exact h00 | exact h01 | exact h02
            | exact h10 | exact h11 | exact h12
            | exact h20 | exact h21 | exact h22)
    · show countMarks [[c00, c01, c02], [c10, c11, c12], [c20, m, c22]] = countMarks [[c00, c01, c02], [c10, c11, c12], [c20, c21, c22]] + 1
      rw [countMarks_explicit, countMarks_explicit, markInd_true hm, markInd_false hc0]
      try omega
  · have hc0 : isMark c22 = false := hc
    refine ⟨?_, ?_⟩
    · show ValidBoard [[c00, c01, c02], [c10, c11, c12], [c20, c21, m]]
      refine ⟨rfl, ?_, ?_⟩
      · intro row hr
        simp only [List.mem_cons, List.not_mem_nil, or_false] at hr
        rcases hr with rfl | rfl | rfl <;> rfl
      · intro a ha b hb
        interval_cases a <;> interval_cases b <;>
          (first
            | exact hvcm _ _
            | exact h00 | exact h01 | exact h02
            | exact h10 | exact h11 | exact h12
            | exact h20 | exact h21 | exact h22)
    · show countMarks [[c00, c01, c02], [c10, c11, c12], [c20, c21, m]] = countMarks [[c00, c01, c02], [c10, c11, c12], [c20, c21, c22]] + 1
      rw [countMarks_explicit, countMarks_explicit, markInd_true hm, markInd_false hc0]
      try omega

/-- A well-formed board has at most nine marks. -/
theorem countMarks_le_nine (b : Board) (h3 : b.length = 3)
    (hr : ∀ row ∈ b, row.length = 3) : countMarks b ≤ 9 := by
  obtain ⟨c00, c01, c02, c10, c11, c12, c20, c21, c22, rfl⟩ := board_cells b h3 hr
  rw [countMarks_explicit]
  have := markInd_le c00
  have := markInd_le c01
  have := markInd_le c02
  have := markInd_le c10
  have := markInd_le c11
  have := markInd_le c12
  have := markInd_le c20
  have := markInd_le c21
  have := markInd_le c22
  omega

theorem inv_preserved (g : Game) (box : Int) (h : GameInv g) :
    GameInv (Game.move g box).2 ∧ (∀ out, (Game.move g box).1 = Except.ok out →
      (Game.move g box).2.turn = g.turn + 1 ∧
      countMarks (Game.move g box).2.board = countMarks g.board + 1) ∧
    (∀ e, (Game.move g box).1 = Except.error e → (Game.move g box).2 = g) := by
  by_cases hb : box < 1 ∨ box > 9
  · rw [move_eq_invalid g box hb]
    exact ⟨h, fun out hout => by simp at hout, fun e _ => rfl⟩
  · by_cases hc : isMark (getCell g.board ((box - 1) / 3).toNat ((box - 1) % 3).toNat) = true
    · rw [move_eq_occupied g box hb hc]
      exact ⟨h, fun out hout => by simp at hout, fun e _ => rfl⟩
    · rw [Bool.not_eq_true] at hc
      rw [move_eq_ok g box hb hc]
      obtain ⟨hv, hcount, hturn⟩ := h
      obtain ⟨hiv, hjv, hbox⟩ := box_rowcol box (by omega) (by omega)
      obtain ⟨m, hm, hmark, hvcm⟩ :
          ∃ m, (if g.turn % 2 = 0 then Cell.X else Cell.O) = m ∧ isMark m = true ∧
            ∀ a b : Nat, validCell a b m := by
        by_cases hp : g.turn % 2 = 0
        · exact ⟨Cell.X, by simp [hp], rfl, fun a b => Or.inl rfl⟩
        · exact ⟨Cell.O, by simp [hp], rfl, fun a b => Or.inr (Or.inl rfl)⟩
      have hpost : (postGame g box).board =
          setCell g.board ((box - 1) / 3).toNat ((box - 1) % 3).toNat m := by
        rw [postGame, hm]
      have hpostt : (postGame g box).turn = g.turn + 1 := rfl
      obtain ⟨c00, c01, c02, c10, c11, c12, c20, c21, c22, hbeq⟩ :=
        board_cells g.board hv.1 hv.2.1
      have hall := hv.2.2
      rw [hbeq] at hall hc hpost hcount
      have key := setCell_effect c00 c01 c02 c10 c11 c12 c20 c21 c22 m
        ((box - 1) / 3).toNat ((box - 1) % 3).toNat hiv hjv hc hmark hvcm hall
      rw [← hpost] at key
      have hle : countMarks (postGame g box).board ≤ 9 :=
        countMarks_le_nine _ key.1.1 key.1.2.1
      refine ⟨⟨key.1, ?_, ?_⟩, ?_, fun e he => by simp at he⟩
      · rw [key.2, hpostt, hcount]
      · rw [hpostt]
        omega
      · intro out hout
        refine ⟨hpostt, ?_⟩
        rw [key.2, hbeq]

theorem reachable_inv (g : Game) (h : Reachable g) : GameInv g := by
  induction h with
  | init => exact inv_init
  | step g0 box hr ih => exact (inv_preserved g0 box ih).1

/-- C6: the turn counter starts at 0, counts exactly the marked cells in
every reachable state, rises by exactly one on every successful move, and
is unchanged by every failing move. -/
theorem turn_counts_marks :
    Game.init.turn = 0 ∧
    (∀ g : Game, Reachable g → countMarks g.board = g.turn) ∧
    (∀ (g : Game) (box : Int) (out : Option Outcome),
      (Game.move g box).1 = Except.ok out → (Game.move g box).2.turn = g.turn + 1) ∧
    (∀ (g : Game) (box : Int) (e : MoveError),
      (Game.move g box).1 = Except.error e → (Game.move g box).2.turn = g.turn) := by
  refine ⟨rfl, fun g h => (reachable_inv g h).2.1, ?_, ?_⟩
  · intro g box out h
    by_cases hb : box < 1 ∨ box > 9
    · rw [move_eq_invalid g box hb] at h
      simp at h
    · by_cases hc : isMark (getCell g.board ((box - 1) / 3).toNat ((box - 1) % 3).toNat) = true
      · rw [move_eq_occupied g box hb hc] at h
        simp at h
      · rw [Bool.not_eq_true] at hc
        rw [move_eq_ok g box hb hc]
        rfl
  · intro g box e h
    rw [move_atomic_on_failure g box e h]

/-- Witness for C6: after the successful move 5 from the fresh game the
mark count equals the turn counter, and the turn counter rose by one. -/
theorem turn_counts_marks_witness :
    countMarks (Game.move Game.init 5).2.board = (Game.move Game.init 5).2.turn ∧
      (Game.move Game.init 5).2.turn = Game.init.turn + 1 :=
  ⟨turn_counts_marks.2.1 (Game.move Game.init 5).2 (Reachable.step Game.init 5 Reachable.init),
   turn_counts_marks.2.2.1 Game.init 5 none rfl⟩


/-- The eight lines of the board in the fixed scan order of the spec:
row 0, column 0, row 1, column 1, row 2, column 2, main diagonal,
anti-diagonal. -/
def scanLines : List ((Nat × Nat) × (Nat × Nat) × (Nat × Nat)) :=
  [((0, 0), (0, 1), (0, 2)), ((0, 0), (1, 0), (2, 0)),
   ((1, 0), (1, 1), (1, 2)), ((0, 1), (1, 1), (2, 1)),
   ((2, 0), (2, 1), (2, 2)), ((0, 2), (1, 2), (2, 2)),
   ((0, 0), (1, 1), (2, 2)), ((0, 2), (1, 1), (2, 0))]

/-- Three equal non-empty marks on a line. -/
def lineComplete (b : Board) (l : (Nat × Nat) × (Nat × Nat) × (Nat × Nat)) : Bool :=
  (getCell b l.1.1 l.1.2 == getCell b l.2.1.1 l.2.1.2) &&
    (getCell b l.2.1.1 l.2.1.2 == getCell b l.2.2.1 l.2.2.2) &&
    isMark (getCell b l.1.1 l.1.2)

/-- Modelled from the spec: the winner is the symbol of the first complete
line in scan order, if any. -/
def specWinner (b : Board) : Option Cell :=
  (scanLines.find? (fun l => lineComplete b l)).map (fun l => getCell b l.1.1 l.1.2)

/-- On a well-formed board, two equal cells at positions with different box
numbers must be marks. -/
theorem validCell_triple (a1 b1 a2 b2 : Nat) (p q : Cell)
    (hp : validCell a1 b1 p) (hq : validCell a2 b2 q)
    (h12 : Game.get_box_number a1 b1 ≠ Game.get_box_number a2 b2)
    (heq : p = q) : isMark p = true := by
  rcases hp with rfl | rfl | rfl
  · rfl
  · rfl
  · exfalso
    rcases hq with rfl | rfl | rfl
    · exact Cell.noConfusion heq
    · exact Cell.noConfusion heq
    · injection heq with hn
      exact h12 hn
/-- C3: on every well-formed board (reachable or synthetic),
`Game.get_winner` returns exactly the symbol of the first complete line in
the fixed scan order (row 0, column 0, row 1, column 1, row 2, column 2,
main diagonal, anti-diagonal); it returns a mark whenever it returns
something, and it returns `None` exactly when no line holds three equal
non-empty marks. -/
theorem get_winner_spec (g : Game) (hv : ValidBoard g.board) :
    Game.get_winner g = specWinner g.board ∧
    (∀ w, Game.get_winner g = some w → isMark w = true) ∧
    (Game.get_winner g = none ↔ ∀ l ∈ scanLines, lineComplete g.board l = false) := by
  have hall := hv.2.2
  have hiff1 : lineComplete g.board ((0, 0), (0, 1), (0, 2)) = true ↔ (getCell g.board 0 0 = getCell g.board 0 1 ∧ getCell g.board 0 1 = getCell g.board 0 2) := by
    constructor
    · intro hcmp
      simp only [lineComplete, Bool.and_eq_true, beq_iff_eq] at hcmp
      exact ⟨hcmp.1.1, hcmp.1.2⟩
    · intro hcond
      simp only [lineComplete, Bool.and_eq_true, beq_iff_eq]
      exact ⟨⟨hcond.1, hcond.2⟩, validCell_triple 0 0 0 1 _ _
        (hall 0 (by omega) 0 (by omega)) (hall 0 (by omega) 1 (by omega))
        (by decide) hcond.1⟩
  have hiff2 : lineComplete g.board ((0, 0), (1, 0), (2, 0)) = true ↔ (getCell g.board 0 0 = getCell g.board 1 0 ∧ getCell g.board 1 0 = getCell g.board 2 0) := by
    constructor
    · intro hcmp
      simp only [lineComplete, Bool.and_eq_true, beq_iff_eq] at hcmp
      exact ⟨hcmp.1.1, hcmp.1.2⟩
    · intro hcond
      simp only [lineComplete, Bool.and_eq_true, beq_iff_eq]
      exact ⟨⟨hcond.1, hcond.2⟩, validCell_triple 0 0 1 0 _ _
        (hall 0 (by omega) 0 (by omega)) (hall 1 (by omega) 0 (by omega))
        (by decide) hcond.1⟩
  have hiff3 : lineComplete g.board ((1, 0), (1, 1), (1, 2)) = true ↔ (getCell g.board 1 0 = getCell g.board 1 1 ∧ getCell g.board 1 1 = getCell g.board 1 2) := by
    constructor
    · intro hcmp
      simp only [lineComplete, Bool.and_eq_true, beq_iff_eq] at hcmp
      exact ⟨hcmp.1.1, hcmp.1.2⟩
    · intro hcond
      simp only [lineComplete, Bool.and_eq_true, beq_iff_eq]
      exact ⟨⟨hcond.1, hcond.2⟩, validCell_triple 1 0 1 1 _ _
        (hall 1 (by omega) 0 (by omega)) (hall 1 (by omega) 1 (by omega))
        (by decide) hcond.1⟩
  have hiff4 : lineComplete g.board ((0, 1), (1, 1), (2, 1)) = true ↔ (getCell g.board 0 1 = getCell g.board 1 1 ∧ getCell g.board 1 1 = getCell g.board 2 1) := by
    constructor
    · intro hcmp
      simp only [lineComplete, Bool.and_eq_true, beq_iff_eq] at hcmp
      exact ⟨hcmp.1.1, hcmp.1.2⟩
    · intro hcond
      simp only [lineComplete, Bool.and_eq_true, beq_iff_eq]
      exact ⟨⟨hcond.1, hcond.2⟩, validCell_triple 0 1 1 1 _ _
        (hall 0 (by omega) 1 (by omega)) (hall 1 (by omega) 1 (by omega))
        (by decide) hcond.1⟩
  have hiff5 : lineComplete g.board ((2, 0), (2, 1), (2, 2)) = true ↔ (getCell g.board 2 0 = getCell g.board 2 1 ∧ getCell g.board 2 1 = getCell g.board 2 2) := by
    constructor
    · intro hcmp
      simp only [lineComplete, Bool.and_eq_true, beq_iff_eq] at hcmp
      exact ⟨hcmp.1.1, hcmp.1.2⟩
    · intro hcond
      simp only [lineComplete, Bool.and_eq_true, beq_iff_eq]
      exact ⟨⟨hcond.1, hcond.2⟩, validCell_triple 2 0 2 1 _ _
        (hall 2 (by omega) 0 (by omega)) (hall 2 (by omega) 1 (by omega))
        (by decide) hcond.1⟩
  have hiff6 : lineComplete g.board ((0, 2), (1, 2), (2, 2)) = true ↔ (getCell g.board 0 2 = getCell g.board 1 2 ∧ getCell g.board 1 2 = getCell g.board 2 2) := by
    constructor
    · intro hcmp
      simp only [lineComplete, Bool.and_eq_true, beq_iff_eq] at hcmp
      exact ⟨hcmp.1.1, hcmp.1.2⟩
    · intro hcond
      simp only [lineComplete, Bool.and_eq_true, beq_iff_eq]
      exact ⟨⟨hcond.1, hcond.2⟩, validCell_triple 0 2 1 2 _ _
        (hall 0 (by omega) 2 (by omega)) (hall 1 (by omega) 2 (by omega))
        (by decide) hcond.1⟩
  have hiff7 : lineComplete g.board ((0, 0), (1, 1), (2, 2)) = true ↔ (getCell g.board 0 0 = getCell g.board 1 1 ∧ getCell g.board 1 1 = getCell g.board 2 2) := by
    constructor
    · intro hcmp
      simp only [lineComplete, Bool.and_eq_true, beq_iff_eq] at hcmp
      exact ⟨hcmp.1.1, hcmp.1.2⟩
    · intro hcond
      simp only [lineComplete, Bool.and_eq_true, beq_iff_eq]
      exact ⟨⟨hcond.1, hcond.2⟩, validCell_triple 0 0 1 1 _ _
        (hall 0 (by omega) 0 (by omega)) (hall 1 (by omega) 1 (by omega))
        (by decide) hcond.1⟩
  have hiff8 : lineComplete g.board ((0, 2), (1, 1), (2, 0)) = true ↔ (getCell g.board 0 2 = getCell g.board 1 1 ∧ getCell g.board 1 1 = getCell g.board 2 0) := by
    constructor
    · intro hcmp
      simp only [lineComplete, Bool.and_eq_true, beq_iff_eq] at hcmp
      exact ⟨hcmp.1.1, hcmp.1.2⟩
    · intro hcond
      simp only [lineComplete, Bool.and_eq_true, beq_iff_eq]
      exact ⟨⟨hcond.1, hcond.2⟩, validCell_triple 0 2 1 1 _ _
        (hall 0 (by omega) 2 (by omega)) (hall 1 (by omega) 1 (by omega))
        (by decide) hcond.1⟩
  have hmk1 : (getCell g.board 0 0 = getCell g.board 0 1 ∧ getCell g.board 0 1 = getCell g.board 0 2) → isMark (getCell g.board 0 0) = true :=
    fun hcond => validCell_triple 0 0 0 1 _ _
      (hall 0 (by omega) 0 (by omega)) (hall 0 (by omega) 1 (by omega))
      (by decide) hcond.1
  have hmk2 : (getCell g.board 0 0 = getCell g.board 1 0 ∧ getCell g.board 1 0 = getCell g.board 2 0) → isMark (getCell g.board 0 0) = true :=
    fun hcond => validCell_triple 0 0 1 0 _ _
      (hall 0 (by omega) 0 (by omega)) (hall 1 (by omega) 0 (by omega))
      (by decide) hcond.1
  have hmk3 : (getCell g.board 1 0 = getCell g.board 1 1 ∧ getCell g.board 1 1 = getCell g.board 1 2) → isMark (getCell g.board 1 0) = true :=
    fun hcond => validCell_triple 1 0 1 1 _ _
      (hall 1 (by omega) 0 (by omega)) (hall 1 (by omega) 1 (by omega))
      (by decide) hcond.1
  have hmk4 : (getCell g.board 0 1 = getCell g.board 1 1 ∧ getCell g.board 1 1 = getCell g.board 2 1) → isMark (getCell g.board 0 1) = true :=
    fun hcond => validCell_triple 0 1 1 1 _ _
      (hall 0 (by omega) 1 (by omega)) (hall 1 (by omega) 1 (by omega))
      (by decide) hcond.1
  have hmk5 : (getCell g.board 2 0 = getCell g.board 2 1 ∧ getCell g.board 2 1 = getCell g.board 2 2) → isMark (getCell g.board 2 0) = true :=
    fun hcond => validCell_triple 2 0 2 1 _ _
      (hall 2 (by omega) 0 (by omega)) (hall 2 (by omega) 1 (by omega))
      (by decide) hcond.1
  have hmk6 : (getCell g.board 0 2 = getCell g.board 1 2 ∧ getCell g.board 1 2 = getCell g.board 2 2) → isMark (getCell g.board 0 2) = true :=
    fun hcond => validCell_triple 0 2 1 2 _ _
      (hall 0 (by omega) 2 (by omega)) (hall 1 (by omega) 2 (by omega))
      (by decide) hcond.1
  have hmk7 : (getCell g.board 0 0 = getCell g.board 1 1 ∧ getCell g.board 1 1 = getCell g.board 2 2) → isMark (getCell g.board 0 0) = true :=
    fun hcond => validCell_triple 0 0 1 1 _ _
      (hall 0 (by omega) 0 (by omega)) (hall 1 (by omega) 1 (by omega))
      (by decide) hcond.1
  have hmk8 : (getCell g.board 0 2 = getCell g.board 1 1 ∧ getCell g.board 1 1 = getCell g.board 2 0) → isMark (getCell g.board 0 2) = true :=
    fun hcond => validCell_triple 0 2 1 1 _ _
      (hall 0 (by omega) 2 (by omega)) (hall 1 (by omega) 1 (by omega))
      (by decide) hcond.1
  unfold Game.get_winner specWinner scanLines
  by_cases h1 : getCell g.board 0 0 = getCell g.board 0 1 ∧ getCell g.board 0 1 = getCell g.board 0 2
  · have ht : lineComplete g.board ((0, 0), (0, 1), (0, 2)) = true := hiff1.mpr h1
    rw [if_pos h1]
    rw [List.find?_cons_of_pos _ ht]
    refine ⟨rfl, ?_, ?_⟩
    · intro w hw
      injection hw with hw
      rw [← hw]
      exact hmk1 h1
    · constructor
      · intro hnone
        cases hnone
      · intro hforall
        have hx := hforall ((0, 0), (0, 1), (0, 2)) (by simp)
        rw [ht] at hx
        cases hx
  rw [if_neg h1]
  have hf1 : lineComplete g.board ((0, 0), (0, 1), (0, 2)) = false :=
    Bool.eq_false_iff.mpr (fun t => h1 (hiff1.mp t))
  by_cases h2 : getCell g.board 0 0 = getCell g.board 1 0 ∧ getCell g.board 1 0 = getCell g.board 2 0
  · have ht : lineComplete g.board ((0, 0), (1, 0), (2, 0)) = true := hiff2.mpr h2
    rw [if_pos h2]
    rw [List.find?_cons_of_neg _ (by rw [hf1]; exact Bool.false_ne_true)]
    rw [List.find?_cons_of_pos _ ht]
    refine ⟨rfl, ?_, ?_⟩
    · intro w hw
      injection hw with hw
      rw [← hw]
      exact hmk2 h2
    · constructor
      · intro hnone
        cases hnone
      · intro hforall
        have hx := hforall ((0, 0), (1, 0), (2, 0)) (by simp)
        rw [ht] at hx
        cases hx
  rw [if_neg h2]
  have hf2 : lineComplete g.board ((0, 0), (1, 0), (2, 0)) = false :=
    Bool.eq_false_iff.mpr (fun t => h2 (hiff2.mp t))
  by_cases h3 : getCell g.board 1 0 = getCell g.board 1 1 ∧ getCell g.board 1 1 = getCell g.board 1 2
  · have ht : lineComplete g.board ((1, 0), (1, 1), (1, 2)) = true := hiff3.mpr h3
    rw [if_pos h3]
    rw [List.find?_cons_of_neg _ (by rw [hf1]; exact Bool.false_ne_true)]
    rw [List.find?_cons_of_neg _ (by rw [hf2]; exact Bool.false_ne_true)]
    rw [List.find?_cons_of_pos _ ht]
    refine ⟨rfl, ?_, ?_⟩
    · intro w hw
      injection hw with hw
      rw [← hw]
      exact hmk3 h3
    · constructor
      · intro hnone
        cases hnone
      · intro hforall
        have hx := hforall ((1, 0), (1, 1), (1, 2)) (by simp)
        rw [ht] at hx
        cases hx
  rw [if_neg h3]
  have hf3 : lineComplete g.board ((1, 0), (1, 1), (1, 2)) = false :=
    Bool.eq_false_iff.mpr (fun t => h3 (hiff3.mp t))
  by_cases h4 : getCell g.board 0 1 = getCell g.board 1 1 ∧ getCell g.board 1 1 = getCell g.board 2 1
  · have ht : lineComplete g.board ((0, 1), (1, 1), (2, 1)) = true := hiff4.mpr h4
    rw [if_pos h4]
    rw [List.find?_cons_of_neg _ (by rw [hf1]; exact Bool.false_ne_true)]
    rw [List.find?_cons_of_neg _ (by rw [hf2]; exact Bool.false_ne_true)]
    rw [List.find?_cons_of_neg _ (by rw [hf3]; exact Bool.false_ne_true)]
    rw [List.find?_cons_of_pos _ ht]
    refine ⟨rfl, ?_, ?_⟩
    · intro w hw
      injection hw with hw
      rw [← hw]
      exact hmk4 h4
    · constructor
      · intro hnone
        cases hnone
      · intro hforall
        have hx := hforall ((0, 1), (1, 1), (2, 1)) (by simp)
        rw [ht] at hx
        cases hx
  rw [if_neg h4]
  have hf4 : lineComplete g.board ((0, 1), (1, 1), (2, 1)) = false :=
    Bool.eq_false_iff.mpr (fun t => h4 (hiff4.mp t))
  by_cases h5 : getCell g.board 2 0 = getCell g.board 2 1 ∧ getCell g.board 2 1 = getCell g.board 2 2
  · have ht : lineComplete g.board ((2, 0), (2, 1), (2, 2)) = true := hiff5.mpr h5
    rw [if_pos h5]
    rw [List.find?_cons_of_neg _ (by rw [hf1]; exact Bool.false_ne_true)]
    rw [List.find?_cons_of_neg _ (by rw [hf2]; exact Bool.false_ne_true)]
    rw [List.find?_cons_of_neg _ (by rw [hf3]; exact Bool.false_ne_true)]
    rw [List.find?_cons_of_neg _ (by rw [hf4]; exact Bool.false_ne_true)]
    rw [List.find?_cons_of_pos _ ht]
    refine ⟨rfl, ?_, ?_⟩
    · intro w hw
      injection hw with hw
      rw [← hw]
      exact hmk5 h5
    · constructor
      · intro hnone
        cases hnone
      · intro hforall
        have hx := hforall ((2, 0), (2, 1), (2, 2)) (by simp)
        rw [ht] at hx
        cases hx
  rw [if_neg h5]
  have hf5 : lineComplete g.board ((2, 0), (2, 1), (2, 2)) = false :=
    Bool.eq_false_iff.mpr (fun t => h5 (hiff5.mp t))
  by_cases h6 : getCell g.board 0 2 = getCell g.board 1 2 ∧ getCell g.board 1 2 = getCell g.board 2 2
  · have ht : lineComplete g.board ((0, 2), (1, 2), (2, 2)) = true := hiff6.mpr h6
    rw [if_pos h6]
    rw [List.find?_cons_of_neg _ (by rw [hf1]; exact Bool.false_ne_true)]
    rw [List.find?_cons_of_neg _ (by rw [hf2]; exact Bool.false_ne_true)]
    rw [List.find?_cons_of_neg _ (by rw [hf3]; exact Bool.false_ne_true)]
    rw [List.find?_cons_of_neg _ (by rw [hf4]; exact Bool.false_ne_true)]
    rw [List.find?_cons_of_neg _ (by rw [hf5]; exact Bool.false_ne_true)]
    rw [List.find?_cons_of_pos _ ht]
    refine ⟨rfl, ?_, ?_⟩
    · intro w hw
      injection hw with hw
      rw [← hw]
      exact hmk6 h6
    · constructor
      · intro hnone
        cases hnone
      · intro hforall
        have hx := hforall ((0, 2), (1, 2), (2, 2)) (by simp)
        rw [ht] at hx
        cases hx
  rw [if_neg h6]
  have hf6 : lineComplete g.board ((0, 2), (1, 2), (2, 2)) = false :=
    Bool.eq_false_iff.mpr (fun t => h6 (hiff6.mp t))
  by_cases h7 : getCell g.board 0 0 = getCell g.board 1 1 ∧ getCell g.board 1 1 = getCell g.board 2 2
  · have ht : lineComplete g.board ((0, 0), (1, 1), (2, 2)) = true := hiff7.mpr h7
    rw [if_pos h7]
    rw [List.find?_cons_of_neg _ (by rw [hf1]; exact Bool.false_ne_true)]
    rw [List.find?_cons_of_neg _ (by rw [hf2]; exact Bool.false_ne_true)]
    rw [List.find?_cons_of_neg _ (by rw [hf3]; exact Bool.false_ne_true)]
    rw [List.find?_cons_of_neg _ (by rw [hf4]; exact Bool.false_ne_true)]
    rw [List.find?_cons_of_neg _ (by rw [hf5]; exact Bool.false_ne_true)]
    rw [List.find?_cons_of_neg _ (by rw [hf6]; exact Bool.false_ne_true)]
    rw [List.find?_cons_of_pos _ ht]
    refine ⟨rfl, ?_, ?_⟩
    · intro w hw
      injection hw with hw
      rw [← hw]
      exact hmk7 h7
    · constructor
      · intro hnone
        cases hnone
      · intro hforall
        have hx := hforall ((0, 0), (1, 1), (2, 2)) (by simp)
        rw [ht] at hx
        cases hx
  rw [if_neg h7]
  have hf7 : lineComplete g.board ((0, 0), (1, 1), (2, 2)) = false :=
    Bool.eq_false_iff.mpr (fun t => h7 (hiff7.mp t))
  by_cases h8 : getCell g.board 0 2 = getCell g.board 1 1 ∧ getCell g.board 1 1 = getCell g.board 2 0
  · have ht : lineComplete g.board ((0, 2), (1, 1), (2, 0)) = true := hiff8.mpr h8
    rw [if_pos h8]
    rw [List.find?_cons_of_neg _ (by rw [hf1]; exact Bool.false_ne_true)]
    rw [List.find?_cons_of_neg _ (by rw [hf2]; exact Bool.false_ne_true)]
    rw [List.find?_cons_of_neg _ (by rw [hf3]; exact Bool.false_ne_true)]
    rw [List.find?_cons_of_neg _ (by rw [hf4]; exact Bool.false_ne_true)]
    rw [List.find?_cons_of_neg _ (by rw [hf5]; exact Bool.false_ne_true)]
    rw [List.find?_cons_of_neg _ (by rw [hf6]; exact Bool.false_ne_true)]
    rw [List.find?_cons_of_neg _ (by rw [hf7]; exact Bool.false_ne_true)]
    rw [List.find?_cons_of_pos _ ht]
    refine ⟨rfl, ?_, ?_⟩
    · intro w hw
      injection hw with hw
      rw [← hw]
      exact hmk8 h8
    · constructor
      · intro hnone
        cases hnone
      · intro hforall
        have hx := hforall ((0, 2), (1, 1), (2, 0)) (by simp)
        rw [ht] at hx
        cases hx
  rw [if_neg h8]
  have hf8 : lineComplete g.board ((0, 2), (1, 1), (2, 0)) = false :=
    Bool.eq_false_iff.mpr (fun t => h8 (hiff8.mp t))
  rw [List.find?_cons_of_neg _ (by rw [hf1]; exact Bool.false_ne_true)]
  rw [List.find?_cons_of_neg _ (by rw [hf2]; exact Bool.false_ne_true)]
  rw [List.find?_cons_of_neg _ (by rw [hf3]; exact Bool.false_ne_true)]
  rw [List.find?_cons_of_neg _ (by rw [hf4]; exact Bool.false_ne_true)]
  rw [List.find?_cons_of_neg _ (by rw [hf5]; exact Bool.false_ne_true)]
  rw [List.find?_cons_of_neg _ (by rw [hf6]; exact Bool.false_ne_true)]
  rw [List.find?_cons_of_neg _ (by rw [hf7]; exact Bool.false_ne_true)]
  rw [List.find?_cons_of_neg _ (by rw [hf8]; exact Bool.false_ne_true)]
  refine ⟨rfl, ?_, ?_⟩
  · intro w hw
    cases hw
  · refine ⟨fun _ => ?_, fun _ => rfl⟩
    intro l hl
    simp only [List.mem_cons, List.not_mem_nil, or_false] at hl
    rcases hl with rfl | rfl | rfl | rfl | rfl | rfl | rfl | rfl
    · exact hf1
    · exact hf2
    · exact hf3
    · exact hf4
    · exact hf5
    · exact hf6
    · exact hf7
    · exact hf8

/-- Witness for C3 at a synthetic two-line board: X's row 0 and O's row 2
are both complete, and the scan returns the row-0 symbol X. -/
theorem get_winner_spec_witness :
    Game.get_winner
        { board := [[Cell.X, Cell.X, Cell.X], [Cell.E 4, Cell.E 5, Cell.E 6],
            [Cell.O, Cell.O, Cell.O]], turn := 6 } =
      specWinner [[Cell.X, Cell.X, Cell.X], [Cell.E 4, Cell.E 5, Cell.E 6],
        [Cell.O, Cell.O, Cell.O]] ∧
    specWinner [[Cell.X, Cell.X, Cell.X], [Cell.E 4, Cell.E 5, Cell.E 6],
        [Cell.O, Cell.O, Cell.O]] = some Cell.X :=
  ⟨(get_winner_spec
      { board := [[Cell.X, Cell.X, Cell.X], [Cell.E 4, Cell.E 5, Cell.E 6],
          [Cell.O, Cell.O, Cell.O]], turn := 6 }
      ⟨rfl, (by decide), (by decide)⟩).1,
   (by decide)⟩

/-- C5: a successful `Game.move` writes X on even turns and O on odd turns
into the addressed cell, increments the turn counter by one, and returns
the winning symbol when a line is complete after the write, `Tie` when all
nine cells are filled with no complete line, and `None` (continue)
otherwise. -/
theorem move_success_spec (g : Game) (box : Int) (hr : Reachable g) (out : Option Outcome)
    (h : (Game.move g box).1 = Except.ok out) :
    (Game.move g box).2.board = setCell g.board ((box - 1) / 3).toNat ((box - 1) % 3).toNat
        (if g.turn % 2 = 0 then Cell.X else Cell.O) ∧
    (Game.move g box).2.turn = g.turn + 1 ∧
    (∀ w, out = some (Outcome.winner w) ↔ specWinner (Game.move g box).2.board = some w) ∧
    (out = some Outcome.tie ↔ specWinner (Game.move g box).2.board = none ∧
        countMarks (Game.move g box).2.board = 9) ∧
    (out = none ↔ specWinner (Game.move g box).2.board = none ∧
        countMarks (Game.move g box).2.board < 9) := by
  by_cases hb : box < 1 ∨ box > 9
  · rw [move_eq_invalid g box hb] at h
    simp at h
  · by_cases hc : isMark (getCell g.board ((box - 1) / 3).toNat ((box - 1) % 3).toNat) = true
    · rw [move_eq_occupied g box hb hc] at h
      simp at h
    · rw [Bool.not_eq_true] at hc
      have hmv := move_eq_ok g box hb hc
      have hpost2 : (Game.move g box).2 = postGame g box := by rw [hmv]
      have hinv : GameInv (Game.move g box).2 := (inv_preserved g box (reachable_inv g hr)).1
      have hcnt : countMarks (Game.move g box).2.board = (Game.move g box).2.turn := hinv.2.1
      have hle9 : (Game.move g box).2.turn ≤ 9 := hinv.2.2
      have hwspec := get_winner_spec (Game.move g box).2 hinv.1
      rw [hpost2] at hcnt hle9 hwspec
      have hout : out = postResult (postGame g box) := by
        rw [hmv] at h
        injection h with h
        exact h.symm
      subst hout
      rw [hpost2]
      refine ⟨rfl, rfl, ?_⟩
      have hturn : (postGame g box).turn = g.turn + 1 := rfl
      rcases hw : (postGame g box).get_winner with _ | w
      · rw [hw] at hwspec
        by_cases h9 : (postGame g box).turn = 9
        · have hpr : postResult (postGame g box) = some Outcome.tie := by
            simp [postResult, hw, h9]
          rw [hpr]
          refine ⟨?_, ?_, ?_⟩
          · intro w0
            constructor
            · intro hx
              injection hx with hx
              cases hx
            · intro hx
              rw [← hwspec.1] at hx
              cases hx
          · constructor
            · intro _
              refine ⟨hwspec.1.symm, ?_⟩
              rw [hcnt]
              exact h9
            · intro _
              rfl
          · constructor
            · intro hx
              cases hx
            · intro hx
              obtain ⟨hx1, hx2⟩ := hx
              rw [hcnt] at hx2
              omega
        · have hpr : postResult (postGame g box) = none := by
            simp [postResult, hw, h9]
          rw [hpr]
          refine ⟨?_, ?_, ?_⟩
          · intro w0
            constructor
            · intro hx
              cases hx
            · intro hx
              rw [← hwspec.1] at hx
              cases hx
          · constructor
            · intro hx
              cases hx
            · intro hx
              rw [hcnt] at hx
              exact absurd hx.2 h9
          · constructor
            · intro _
              refine ⟨hwspec.1.symm, ?_⟩
              rw [hcnt]
              omega
            · intro _
              rfl
      · rw [hw] at hwspec
        have hpr : postResult (postGame g box) = some (Outcome.winner w) := by
          simp [postResult, hw]
        rw [hpr]
        refine ⟨?_, ?_, ?_⟩
        · intro w0
          constructor
          · intro hx
            injection hx with hx
            injection hx with hx
            rw [← hx]
            exact hwspec.1.symm
          · intro hx
            rw [← hwspec.1] at hx
            injection hx with hx
            rw [hx]
        · constructor
          · intro hx
            injection hx with hx
            cases hx
          · intro hx
            rw [← hwspec.1] at hx
            cases hx.1
        · constructor
          · intro hx
            cases hx
          · intro hx
            rw [← hwspec.1] at hx
            cases hx.1

/-- Witness for C5: the successful first move 5 from the fresh game. -/
theorem move_success_spec_witness :
    (Game.move Game.init 5).2.turn = Game.init.turn + 1 :=
  (move_success_spec Game.init 5 Reachable.init none rfl).2.1

theorem setCell_twice (c00 c01 c02 c10 c11 c12 c20 c21 c22 v w : Cell) (i j : Nat)
    (hi : i < 3) (hj : j < 3) :
    setCell (setCell [[c00, c01, c02], [c10, c11, c12], [c20, c21, c22]] i j v) i j w =
      setCell [[c00, c01, c02], [c10, c11, c12], [c20, c21, c22]] i j w := by
  interval_cases i <;> interval_cases j <;> rfl

theorem setCell_id (c00 c01 c02 c10 c11 c12 c20 c21 c22 : Cell) (i j : Nat)
    (hi : i < 3) (hj : j < 3) :
    setCell [[c00, c01, c02], [c10, c11, c12], [c20, c21, c22]] i j
        (getCell [[c00, c01, c02], [c10, c11, c12], [c20, c21, c22]] i j) =
      [[c00, c01, c02], [c10, c11, c12], [c20, c21, c22]] := by
  interval_cases i <;> interval_cases j <;> rfl

/-- Every entry of `get_empty_box_positions` on a well-formed board is an
in-range position whose cell still holds its own box-number string. -/
theorem empties_mem (b : Board) (hv : ValidBoard b) :
    ∀ p ∈ Game.get_empty_box_positions b,
      p.1 < 3 ∧ p.2 < 3 ∧ getCell b p.1 p.2 = Cell.E (Game.get_box_number p.1 p.2) := by
  intro p hp
  unfold Game.get_empty_box_positions at hp
  simp only [List.flatten, List.map, List.mem_cons, List.mem_append, List.not_mem_nil,
    or_false, List.flatten_cons, List.flatten_nil, List.append_nil, List.mem_map,
    List.mem_filter] at hp
  have main : ∀ i j : Nat, i < 3 → j < 3 → (!isMark (getCell b i j)) = true → p = (i, j) →
      p.1 < 3 ∧ p.2 < 3 ∧ getCell b p.1 p.2 = Cell.E (Game.get_box_number p.1 p.2) := by
    intro i j hi hj hm hpe
    subst hpe
    refine ⟨hi, hj, ?_⟩
    have hvc := hv.2.2 i hi j hj
    rcases hvc with hx | hx | hx
    · rw [hx] at hm
      simp [isMark] at hm
    · rw [hx] at hm
      simp [isMark] at hm
    · exact hx
  rcases hp with ⟨j, hj, hpe⟩ | ⟨j, hj, hpe⟩ | ⟨j, hj, hpe⟩
  · have hjm := hj.1
    simp only [List.mem_cons, List.not_mem_nil, or_false] at hjm
    exact main 0 j (by omega) (by rcases hjm with rfl | rfl | rfl <;> omega) hj.2 hpe.symm
  · have hjm := hj.1
    simp only [List.mem_cons, List.not_mem_nil, or_false] at hjm
    exact main 1 j (by omega) (by rcases hjm with rfl | rfl | rfl <;> omega) hj.2 hpe.symm
  · have hjm := hj.1
    simp only [List.mem_cons, List.not_mem_nil, or_false] at hjm
    exact main 2 j (by omega) (by rcases hjm with rfl | rfl | rfl <;> omega) hj.2 hpe.symm

theorem setCell_twice_b (b : Board) (h3 : b.length = 3)
    (hrw : ∀ row ∈ b, row.length = 3) (v w : Cell) (i j : Nat) (hi : i < 3) (hj : j < 3) :
    setCell (setCell b i j v) i j w = setCell b i j w := by
  obtain ⟨c00, c01, c02, c10, c11, c12, c20, c21, c22, rfl⟩ := board_cells b h3 hrw
  exact setCell_twice c00 c01 c02 c10 c11 c12 c20 c21 c22 v w i j hi hj

theorem setCell_id_b (b : Board) (h3 : b.length = 3)
    (hrw : ∀ row ∈ b, row.length = 3) (i j : Nat) (hi : i < 3) (hj : j < 3) :
    setCell b i j (getCell b i j) = b := by
  obtain ⟨c00, c01, c02, c10, c11, c12, c20, c21, c22, rfl⟩ := board_cells b h3 hrw
  exact setCell_id c00 c01 c02 c10 c11 c12 c20 c21 c22 i j hi hj

/-- The inner loop of `_minimax` restores the board after every iteration:
it computes exactly the child scores of the board it was given, and hands
that board back unchanged. -/
theorem minimaxLoop_eq_map (sym : Cell) (fuel : Nat) (symbol : Cell)
    (ps : List (Nat × Nat)) (b : Board) (h3 : b.length = 3)
    (hrw : ∀ row ∈ b, row.length = 3)
    (hmem : ∀ p ∈ ps, p.1 < 3 ∧ p.2 < 3 ∧
      getCell b p.1 p.2 = Cell.E (Game.get_box_number p.1 p.2)) :
    MinimaxBot.minimaxLoop sym fuel symbol ps b =
      (ps.map (fun p => MinimaxBot.minimax sym fuel (setCell b p.1 p.2 symbol) (oppSym symbol)),
        b) := by
  induction ps with
  | nil =>
    rw [MinimaxBot.minimaxLoop]
    rfl
  | cons p rest ih =>
    obtain ⟨i, j⟩ := p
    obtain ⟨hi, hj, hcell⟩ := hmem (i, j) (by simp)
    have hb2 : setCell (setCell b i j symbol) i j (Cell.E (Game.get_box_number i j)) = b := by
      rw [setCell_twice_b b h3 hrw symbol _ i j hi hj, ← hcell, setCell_id_b b h3 hrw i j hi hj]
    rw [MinimaxBot.minimaxLoop, hb2, ih (fun q hq => hmem q (by simp [hq]))]
    rfl

/-- The loop of `MinimaxBot.move` likewise restores the board it was given
and records the `(box, score)` pairs of the empty cells in order. -/
theorem moveLoop_eq_map (sym : Cell) (ps : List (Nat × Nat)) (b : Board)
    (h3 : b.length = 3) (hrw : ∀ row ∈ b, row.length = 3)
    (hmem : ∀ p ∈ ps, p.1 < 3 ∧ p.2 < 3 ∧
      getCell b p.1 p.2 = Cell.E (Game.get_box_number p.1 p.2)) :
    MinimaxBot.moveLoop sym ps b =
      (ps.map (fun p => (Game.get_box_number p.1 p.2,
        MinimaxBot.minimax sym 9 (setCell b p.1 p.2 sym) (oppSym sym))), b) := by
  induction ps with
  | nil =>
    rw [MinimaxBot.moveLoop]
    rfl
  | cons p rest ih =>
    obtain ⟨i, j⟩ := p
    obtain ⟨hi, hj, hcell⟩ := hmem (i, j) (by simp)
    have hb2 : setCell (setCell b i j sym) i j (Cell.E (Game.get_box_number i j)) = b := by
      rw [setCell_twice_b b h3 hrw sym _ i j hi hj, ← hcell, setCell_id_b b h3 hrw i j hi hj]
    rw [MinimaxBot.moveLoop, hb2, ih (fun q hq => hmem q (by simp [hq]))]
    rfl

/-- One unfolding of `_minimax` on a well-formed board: terminal score if
the static evaluation fires, otherwise the max/min over the child scores
of the empty cells. -/
theorem minimax_step (sym symbol : Cell) (fuel : Nat) (b : Board) (hv : ValidBoard b) :
    MinimaxBot.minimax sym (fuel + 1) b symbol =
      match MinimaxBot.evaluate sym b with
      | some score => score
      | none => (if symbol = sym then maxList else minList)
          ((Game.get_empty_box_positions b).map
            (fun p => MinimaxBot.minimax sym fuel (setCell b p.1 p.2 symbol) (oppSym symbol))) := by
  rw [MinimaxBot.minimax]
  rcases he : MinimaxBot.evaluate sym b with _ | s
  · simp only []
    rw [minimaxLoop_eq_map sym fuel symbol _ b hv.1 hv.2.1 (empties_mem b hv)]
    by_cases hs : symbol = sym <;> simp [hs]
  · simp only []

/-- `_evaluate` is `get_winner` rescored for the root symbol: the first
complete line scores +10 or −10 according to whether its symbol is the
bot's own, and a full board with no line scores 0. -/
theorem evaluate_winner_relation (sym : Cell) (g : Game) :
    MinimaxBot.evaluate sym g.board =
      (match Game.get_winner g with
       | some w => some (if w = sym then (10 : Int) else -10)
       | none =>
         if g.board.all (fun row => row.all (fun cell => isMark cell)) then some 0
         else none) := by
  unfold MinimaxBot.evaluate Game.get_winner
  by_cases h1 : getCell g.board 0 0 = getCell g.board 0 1 ∧ getCell g.board 0 1 = getCell g.board 0 2
  · rw [if_pos h1, if_pos h1]
  rw [if_neg h1, if_neg h1]
  by_cases h2 : getCell g.board 0 0 = getCell g.board 1 0 ∧ getCell g.board 1 0 = getCell g.board 2 0
  · rw [if_pos h2, if_pos h2]
  rw [if_neg h2, if_neg h2]
  by_cases h3 : getCell g.board 1 0 = getCell g.board 1 1 ∧ getCell g.board 1 1 = getCell g.board 1 2
  · rw [if_pos h3, if_pos h3]
  rw [if_neg h3, if_neg h3]
  by_cases h4 : getCell g.board 0 1 = getCell g.board 1 1 ∧ getCell g.board 1 1 = getCell g.board 2 1
  · rw [if_pos h4, if_pos h4]
  rw [if_neg h4, if_neg h4]
  by_cases h5 : getCell g.board 2 0 = getCell g.board 2 1 ∧ getCell g.board 2 1 = getCell g.board 2 2
  · rw [if_pos h5, if_pos h5]
  rw [if_neg h5, if_neg h5]
  by_cases h6 : getCell g.board 0 2 = getCell g.board 1 2 ∧ getCell g.board 1 2 = getCell g.board 2 2
  · rw [if_pos h6, if_pos h6]
  rw [if_neg h6, if_neg h6]
  by_cases h7 : getCell g.board 0 0 = getCell g.board 1 1 ∧ getCell g.board 1 1 = getCell g.board 2 2
  · rw [if_pos h7, if_pos h7]
  rw [if_neg h7, if_neg h7]
  by_cases h8 : getCell g.board 0 2 = getCell g.board 1 1 ∧ getCell g.board 1 1 = getCell g.board 2 0
  · rw [if_pos h8, if_pos h8]
  rw [if_neg h8, if_neg h8]

theorem markInd_one_iff (c : Cell) : markInd c = 1 ↔ isMark c = true := by
  unfold markInd
  split <;> simp_all

/-- On a 3×3 board, `all cells marked` is the same as holding nine marks. -/
theorem allMarks_iff (b : Board) (h3 : b.length = 3)
    (hrw : ∀ row ∈ b, row.length = 3) :
    (b.all (fun row => row.all (fun cell => isMark cell)) = true) ↔ countMarks b = 9 := by
  obtain ⟨c00, c01, c02, c10, c11, c12, c20, c21, c22, rfl⟩ := board_cells b h3 hrw
  rw [countMarks_explicit]
  simp only [List.all_cons, List.all_nil, Bool.and_eq_true, and_true]
  rw [← markInd_one_iff c00, ← markInd_one_iff c01, ← markInd_one_iff c02,
    ← markInd_one_iff c10, ← markInd_one_iff c11, ← markInd_one_iff c12,
    ← markInd_one_iff c20, ← markInd_one_iff c21, ← markInd_one_iff c22]
  have b1 := markInd_le c00
  have b2 := markInd_le c01
  have b3 := markInd_le c02
  have b4 := markInd_le c10
  have b5 := markInd_le c11
  have b6 := markInd_le c12
  have b7 := markInd_le c20
  have b8 := markInd_le c21
  have b9 := markInd_le c22
  constructor
  · intro h
    omega
  · intro h
    omega

/-- C8: the recursive evaluator scores terminal positions relative to the
fixed root symbol — +10 when the first complete line is the root's, −10
when it is the other symbol's, 0 for a full board with no line — and on
non-terminal positions it places the symbol to move in each empty cell in
turn, recurses for the opposite symbol, and takes the maximum of the child
scores when the mover is the root symbol and the minimum otherwise. -/
theorem minimax_equations (sym symbol : Cell) (fuel : Nat) (g : Game)
    (hv : ValidBoard g.board) :
    (MinimaxBot.evaluate sym g.board =
      (match specWinner g.board with
       | some w => some (if w = sym then (10 : Int) else -10)
       | none => if countMarks g.board = 9 then some 0 else none)) ∧
    (∀ s, MinimaxBot.evaluate sym g.board = some s →
      MinimaxBot.minimax sym (fuel + 1) g.board symbol = s) ∧
    (MinimaxBot.evaluate sym g.board = none →
      MinimaxBot.minimax sym (fuel + 1) g.board symbol =
        (if symbol = sym then maxList else minList)
          ((Game.get_empty_box_positions g.board).map
            (fun p => MinimaxBot.minimax sym fuel (setCell g.board p.1 p.2 symbol)
              (oppSym symbol)))) := by
  refine ⟨?_, ?_, ?_⟩
  · rw [evaluate_winner_relation sym g, (get_winner_spec g hv).1]
    rcases specWinner g.board with _ | w
    · simp only [allMarks_iff g.board hv.1 hv.2.1]
    · rfl
  · intro s hs
    rw [minimax_step sym symbol fuel g.board hv, hs]
  · intro hn
    rw [minimax_step sym symbol fuel g.board hv, hn]

/-- Witness for C8 at a terminal board whose first complete line is X's. -/
theorem minimax_equations_witness :
    MinimaxBot.minimax Cell.X (0 + 1)
        [[Cell.X, Cell.X, Cell.X], [Cell.E 4, Cell.E 5, Cell.E 6], [Cell.O, Cell.O, Cell.O]]
        Cell.X = 10 :=
  (minimax_equations Cell.X Cell.X 0
    { board := [[Cell.X, Cell.X, Cell.X], [Cell.E 4, Cell.E 5, Cell.E 6],
        [Cell.O, Cell.O, Cell.O]], turn := 6 }
    ⟨rfl, (by decide), (by decide)⟩).2.1 10 (by decide)

/-- C9: the search never mutates the live game state: `MinimaxBot.move`
works on a copy that starts out equal to the live board, and both search
loops hand back exactly the board they were given — every in-place
mutation performed during lookahead is undone before the loop returns. -/
theorem search_no_mutation (sym : Cell) (g : Game) (hr : Reachable g) :
    (g.board.map (fun row => row) = g.board) ∧
    ((MinimaxBot.moveLoop sym (Game.get_empty_box_positions g.board)
        (g.board.map (fun row => row))).2 = g.board.map (fun row => row)) ∧
    (∀ fuel symbol ps, (∀ p ∈ ps, p.1 < 3 ∧ p.2 < 3 ∧
        getCell g.board p.1 p.2 = Cell.E (Game.get_box_number p.1 p.2)) →
      (MinimaxBot.minimaxLoop sym fuel symbol ps g.board).2 = g.board) := by
  have hv := (reachable_inv g hr).1
  have hid : g.board.map (fun row => row) = g.board := by simp
  refine ⟨hid, ?_, ?_⟩
  · rw [hid, moveLoop_eq_map sym _ g.board hv.1 hv.2.1 (empties_mem g.board hv)]
  · intro fuel symbol ps hps
    rw [minimaxLoop_eq_map sym fuel symbol ps g.board hv.1 hv.2.1 hps]

/-- Witness for C9 at the fresh game. -/
theorem search_no_mutation_witness :
    (MinimaxBot.moveLoop Cell.X (Game.get_empty_box_positions Game.init.board)
        (Game.init.board.map (fun row => row))).2 =
      Game.init.board.map (fun row => row) :=
  (search_no_mutation Cell.X Game.init Reachable.init).2.1

/-- The `(box, score)` pairs that `MinimaxBot.move` ranks: one per empty
cell, in row-major order. -/
def moveScores (sym : Cell) (b : Board) : List (Nat × Int) :=
  (Game.get_empty_box_positions b).map (fun p =>
    (Game.get_box_number p.1 p.2,
      MinimaxBot.minimax sym 9 (setCell b p.1 p.2 sym) (oppSym sym)))

theorem move_eq_bestBox (sym : Cell) (g : Game) (hv : ValidBoard g.board) :
    MinimaxBot.move sym g = bestBox (moveScores sym g.board) := by
  have hid : g.board.map (fun row => row) = g.board := by simp
  show bestBox (MinimaxBot.moveLoop sym (Game.get_empty_box_positions g.board)
      (g.board.map (fun row => row))).1 = bestBox (moveScores sym g.board)
  rw [hid, moveLoop_eq_map sym _ g.board hv.1 hv.2.1 (empties_mem g.board hv)]
  rfl

/-- The selection fold of `MinimaxBot.move` picks the first entry whose
value is strictly greater than everything before it: the result splits the
list into a strictly-smaller prefix and a no-larger suffix. -/
theorem foldl_pick_first_max (l : List (Nat × Int)) (b0 : Nat × Int) :
    ∃ r pre post,
      l.foldl (fun acc kv =>
        match acc with
        | none => some kv
        | some bk => if kv.2 > bk.2 then some kv else acc) (some b0) = some r ∧
      b0 :: l = pre ++ r :: post ∧
      (∀ kv ∈ pre, kv.2 < r.2) ∧ (∀ kv ∈ post, kv.2 ≤ r.2) := by
  induction l generalizing b0 with
  | nil =>
    exact ⟨b0, [], [], rfl, rfl, (fun kv hkv => by cases hkv), (fun kv hkv => by cases hkv)⟩
  | cons kv rest ih =>
    by_cases hgt : kv.2 > b0.2
    · obtain ⟨r, pre, post, hfold, hdec, hpre, hpost⟩ := ih kv
      refine ⟨r, b0 :: pre, post, ?_, ?_, ?_, hpost⟩
      · rw [List.foldl_cons]
        simp only [hgt, if_pos]
        exact hfold
      · rw [List.cons_append, ← hdec]
      · intro x hx
        rcases List.mem_cons.mp hx with rfl | hx2
        · have hr : kv.2 ≤ r.2 := by
            rcases pre with _ | ⟨p0, pre'⟩
            · have : kv = r := by
                have := hdec
                simp only [List.nil_append] at this
                exact (List.cons.injEq _ _ _ _ ▸ this).1
              rw [this]
            · have hk : kv = p0 := by
                have := hdec
                simp only [List.cons_append] at this
                exact (List.cons.injEq _ _ _ _ ▸ this).1
              have := hpre p0 (by simp)
              rw [← hk] at this
              omega
          omega
        · exact hpre x hx2
    · obtain ⟨r, pre, post, hfold, hdec, hpre, hpost⟩ := ih b0
      rw [List.foldl_cons]
      simp only [hgt, if_neg, if_false]
      rcases pre with _ | ⟨p0, pre'⟩
      · have hr : b0 = r := by
          have := hdec
          simp only [List.nil_append] at this
          exact (List.cons.injEq _ _ _ _ ▸ this).1
        have hrest : rest = post := by
          have := hdec
          simp only [List.nil_append] at this
          exact (List.cons.injEq _ _ _ _ ▸ this).2
        refine ⟨r, [], kv :: post, hfold, ?_, (fun x hx => by cases hx), ?_⟩
        · rw [List.nil_append, ← hrest, hr]
        · intro x hx
          rcases List.mem_cons.mp hx with rfl | hx2
          · rw [← hr]
            omega
          · exact hpost x hx2
      · have hb : b0 = p0 := by
          have := hdec
          simp only [List.cons_append] at this
          exact (List.cons.injEq _ _ _ _ ▸ this).1
        have hrest : rest = pre' ++ r :: post := by
          have := hdec
          simp only [List.cons_append] at this
          exact (List.cons.injEq _ _ _ _ ▸ this).2
        refine ⟨r, b0 :: kv :: pre', post, hfold, ?_, ?_, hpost⟩
        · rw [List.cons_append, List.cons_append, ← hrest]
        · intro x hx
          have hb0 : b0.2 < r.2 := by
            have := hpre p0 (by simp)
            rw [← hb] at this
            exact this
          rcases List.mem_cons.mp hx with rfl | hx2
          · exact hb0
          rcases List.mem_cons.mp hx2 with rfl | hx3
          · omega
          · exact hpre x (by simp [hx3])

/-- The empty positions are listed in strictly increasing box-number
order (row-major scan). -/
theorem empties_boxes_sorted (b : Board) :
    (Game.get_empty_box_positions b).Pairwise
      (fun p q => Game.get_box_number p.1 p.2 < Game.get_box_number q.1 q.2) := by
  unfold Game.get_empty_box_positions
  simp only [List.map, List.flatten_cons, List.flatten_nil, List.append_nil]
  have hrow : ∀ i : Nat,
      ((([0, 1, 2] : List Nat).filter (fun j => !isMark (getCell b i j))).map
        (fun j => (i, j))).Pairwise
        (fun p q => Game.get_box_number p.1 p.2 < Game.get_box_number q.1 q.2) := by
    intro i
    rw [List.pairwise_map]
    have h012 : (([0, 1, 2] : List Nat).filter
        (fun j => !isMark (getCell b i j))).Pairwise (· < ·) :=
      List.Pairwise.filter _ (by decide)
    exact h012.imp (fun h => by simp only [Game.get_box_number]; omega)
  have hmemj : ∀ (i : Nat) (p : Nat × Nat),
      p ∈ (([0, 1, 2] : List Nat).filter (fun j => !isMark (getCell b i j))).map
        (fun j => (i, j)) → p.1 = i ∧ p.2 < 3 := by
    intro i p hp
    simp only [List.mem_map, List.mem_filter, List.mem_cons, List.not_mem_nil, or_false]
      at hp
    obtain ⟨j, ⟨hj, _⟩, rfl⟩ := hp
    exact ⟨rfl, by rcases hj with rfl | rfl | rfl <;> omega⟩
  have hcross : ∀ (i i' : Nat), i < i' → ∀ (p q : Nat × Nat), p.1 = i → p.2 < 3 →
      q.1 = i' → q.2 < 3 → Game.get_box_number p.1 p.2 < Game.get_box_number q.1 q.2 := by
    intro i i' hii p q hp1 hp2 hq1 hq2
    simp only [Game.get_box_number, hp1, hq1]
    omega
  rw [List.pairwise_append]
  refine ⟨hrow 0, ?_, ?_⟩
  · rw [List.pairwise_append]
    refine ⟨hrow 1, hrow 2, ?_⟩
    intro p hp q hq
    obtain ⟨hp1, hp2⟩ := hmemj 1 p hp
    obtain ⟨hq1, hq2⟩ := hmemj 2 q hq
    exact hcross 1 2 (by omega) p q hp1 hp2 hq1 hq2
  · intro p hp q hq
    obtain ⟨hp1, hp2⟩ := hmemj 0 p hp
    rcases List.mem_append.mp hq with h | h
    · obtain ⟨hq1, hq2⟩ := hmemj 1 q h
      exact hcross 0 1 (by omega) p q hp1 hp2 hq1 hq2
    · obtain ⟨hq1, hq2⟩ := hmemj 2 q h
      exact hcross 0 2 (by omega) p q hp1 hp2 hq1 hq2

theorem moveScores_keys_sorted (sym : Cell) (b : Board) :
    (moveScores sym b).Pairwise (fun x y => x.1 < y.1) := by
  unfold moveScores
  rw [List.pairwise_map]
  exact (empties_boxes_sorted b).imp (fun h => h)

/-- C7: `MinimaxBot.move` is a pure function of the board (hence repeated
calls agree), it equals the first-strict-maximum selection over the
`(box, score)` list, and the box it returns attains the maximal score and
is the lowest-numbered box doing so. -/
theorem move_tie_break (sym : Cell) (g : Game) (hr : Reachable g)
    (hne : Game.get_empty_box_positions g.board ≠ []) :
    MinimaxBot.move sym g = bestBox (moveScores sym g.board) ∧
    ∃ box v, MinimaxBot.move sym g = some box ∧ (box, v) ∈ moveScores sym g.board ∧
      (∀ kv ∈ moveScores sym g.board, kv.2 ≤ v) ∧
      (∀ kv ∈ moveScores sym g.board, kv.2 = v → box ≤ kv.1) := by
  have hv := (reachable_inv g hr).1
  have heq := move_eq_bestBox sym g hv
  refine ⟨heq, ?_⟩
  rcases hs : moveScores sym g.board with _ | ⟨s0, rest⟩
  · exfalso
    unfold moveScores at hs
    exact hne (List.map_eq_nil_iff.mp hs)
  obtain ⟨r, pre, post, hfold, hdec, hpre, hpost⟩ := foldl_pick_first_max rest s0
  have hsorted := moveScores_keys_sorted sym g.board
  rw [hs, hdec] at hsorted
  have hbb : bestBox (moveScores sym g.board) = some r.1 := by
    rw [hs]
    show (rest.foldl (fun acc kv =>
      match acc with
      | none => some kv
      | some bk => if kv.2 > bk.2 then some kv else acc) (some s0)).map Prod.fst = some r.1
    rw [hfold]
    rfl
  refine ⟨r.1, r.2, heq.trans hbb, ?_, ?_, ?_⟩
  · rw [hdec]
    exact List.mem_append.mpr (Or.inr (by simp))
  · intro kv hkv
    rw [hdec] at hkv
    rcases List.mem_append.mp hkv with h | h
    · exact le_of_lt (hpre kv h)
    rcases List.mem_cons.mp h with rfl | h2
    · exact le_refl _
    · exact hpost kv h2
  · intro kv hkv hv2
    rw [hdec] at hkv
    rcases List.mem_append.mp hkv with h | h
    · exact absurd hv2 (by have := hpre kv h; omega)
    rcases List.mem_cons.mp h with rfl | h2
    · exact le_rfl
    · have hlt : r.1 < kv.1 := by
        have hp := (List.pairwise_append.mp hsorted).2.1
        exact (List.pairwise_cons.mp hp).1 kv h2
      omega

/-- Witness for C7 at the fresh game. -/
theorem move_tie_break_witness :
    MinimaxBot.move Cell.X Game.init = bestBox (moveScores Cell.X Game.init.board) :=
  (move_tie_break Cell.X Game.init Reachable.init (by decide)).1

/-! ### Nat-encoded boards and the minimax value tables

A board is encoded as a base-3 numeral whose digit `3*i + j` is 0 for an
empty cell and 1/2 for X/O.  The game value of every count-consistent
position, for either root symbol, is recorded in two table numerals
(5 bits per entry, value coded as score + 10), and the defining minimax
equations of the tables are checked exhaustively by `checkRange`.  The
recursive search is then proved equal to a table lookup. -/

def cellCode : Cell → Nat
  | Cell.X => 1
  | Cell.O => 2
  | Cell.E _ => 0

def encBoard (b : Board) : Nat :=
  cellCode (getCell b 0 0) + 3 * cellCode (getCell b 0 1) + 9 * cellCode (getCell b 0 2) +
    27 * cellCode (getCell b 1 0) + 81 * cellCode (getCell b 1 1) +
    243 * cellCode (getCell b 1 2) + 729 * cellCode (getCell b 2 0) +
    2187 * cellCode (getCell b 2 1) + 6561 * cellCode (getCell b 2 2)

def dig (b k : Nat) : Nat := b / 3 ^ k % 3

def lineVal (a b c sym : Nat) : Nat :=
  cond (Nat.beq a b)
    (cond (Nat.beq b c) (cond (Nat.beq a 0) 0 (cond (Nat.beq a sym) 1 2)) 0) 0

def firstNZ (a b : Nat) : Nat := cond (Nat.beq a 0) b a

/-- All nine digits non-zero (the board is full).  The association of the
conjunction mirrors `all(cell in ['X', 'O'] for row in board for cell in
row)` evaluated row by row. -/
def fullN (b : Nat) : Bool :=
  (!(Nat.beq (dig b 0) 0) && (!(Nat.beq (dig b 1) 0) && (!(Nat.beq (dig b 2) 0) && true))) &&
    ((!(Nat.beq (dig b 3) 0) && (!(Nat.beq (dig b 4) 0) && (!(Nat.beq (dig b 5) 0) && true))) &&
      ((!(Nat.beq (dig b 6) 0) && (!(Nat.beq (dig b 7) 0) && (!(Nat.beq (dig b 8) 0) && true))) &&
        true))

def evalN (sym b : Nat) : Nat :=
  firstNZ (lineVal (dig b 0) (dig b 1) (dig b 2) sym)
  (firstNZ (lineVal (dig b 0) (dig b 3) (dig b 6) sym)
  (firstNZ (lineVal (dig b 3) (dig b 4) (dig b 5) sym)
  (firstNZ (lineVal (dig b 1) (dig b 4) (dig b 7) sym)
  (firstNZ (lineVal (dig b 6) (dig b 7) (dig b 8) sym)
  (firstNZ (lineVal (dig b 2) (dig b 5) (dig b 8) sym)
  (firstNZ (lineVal (dig b 0) (dig b 4) (dig b 8) sym)
  (firstNZ (lineVal (dig b 2) (dig b 4) (dig b 6) sym)
  (cond (fullN b) 3 0))))))))

def scoreOf (r : Nat) : Nat := cond (Nat.beq r 1) 20 (cond (Nat.beq r 2) 0 10)

def scoreInt (e : Nat) : Int := if e = 1 then 10 else if e = 2 then -10 else 0

def decodeEval (e : Nat) : Option Int := if e = 0 then none else some (scoreInt e)

def scoreDecode (v : Nat) : Int := (v : Int) - 10

def natMax (a b : Nat) : Nat := cond (Nat.ble a b) b a

def natMin (a b : Nat) : Nat := cond (Nat.ble a b) a b

def maxListN : List Nat → Nat
  | [] => 0
  | h :: t => t.foldl natMax h

def minListN : List Nat → Nat
  | [] => 0
  | h :: t => t.foldl natMin h

def emptiesN (b : Nat) : List Nat :=
  (List.range 9).filter (fun k => Nat.beq (dig b k) 0)

def lookupT (t b : Nat) : Nat := Nat.land (Nat.shiftRight t (5 * b)) 31

def cntd (b d : Nat) : Nat :=
  (cond (Nat.beq (dig b 0) d) 1 0) + (cond (Nat.beq (dig b 1) d) 1 0) +
    (cond (Nat.beq (dig b 2) d) 1 0) + (cond (Nat.beq (dig b 3) d) 1 0) +
    (cond (Nat.beq (dig b 4) d) 1 0) + (cond (Nat.beq (dig b 5) d) 1 0) +
    (cond (Nat.beq (dig b 6) d) 1 0) + (cond (Nat.beq (dig b 7) d) 1 0) +
    (cond (Nat.beq (dig b 8) d) 1 0)

def toMoveB (b : Nat) : Nat := cond (Nat.beq (cntd b 1) (cntd b 2)) 1 2

def consistentB (b : Nat) : Bool :=
  Nat.beq (cntd b 1) (cntd b 2) || Nat.beq (cntd b 1) (cntd b 2 + 1)

/-- One table entry obeys its defining minimax equation, with the children
looked up in the same table. -/
def chk (t sym tm b : Nat) : Bool :=
  Nat.beq (lookupT t b)
    (cond (Nat.beq (evalN sym b) 0)
      (cond (Nat.beq tm sym)
        (maxListN ((emptiesN b).map (fun k => lookupT t (b + tm * 3 ^ k))))
        (minListN ((emptiesN b).map (fun k => lookupT t (b + tm * 3 ^ k)))))
      (scoreOf (evalN sym b)))

def checkStep (tX tO b : Nat) : Bool :=
  cond (consistentB b) (chk tX 1 (toMoveB b) b && chk tO 2 (toMoveB b) b) true

def checkRange (tX tO : Nat) : Nat → Nat → Bool
  | 0, _ => true
  | n + 1, bb => checkStep tX tO bb && checkRange tX tO n (bb + 1)

theorem cellCode_lt (c : Cell) : cellCode c < 3 := by
  rcases c <;> simp [cellCode]

theorem encBoard_lt (b : Board) : encBoard b < 19683 := by
  unfold encBoard
  have h0 := cellCode_lt (getCell b 0 0)
  have h1 := cellCode_lt (getCell b 0 1)
  have h2 := cellCode_lt (getCell b 0 2)
  have h3 := cellCode_lt (getCell b 1 0)
  have h4 := cellCode_lt (getCell b 1 1)
  have h5 := cellCode_lt (getCell b 1 2)
  have h6 := cellCode_lt (getCell b 2 0)
  have h7 := cellCode_lt (getCell b 2 1)
  have h8 := cellCode_lt (getCell b 2 2)
  omega

/-- Digit `k` of an encoded board is the code of the cell at row `k / 3`,
column `k % 3`. -/
theorem dig_enc (b : Board) (k : Nat) (hk : k < 9) :
    dig (encBoard b) k = cellCode (getCell b (k / 3) (k % 3)) := by
  have h0 := cellCode_lt (getCell b 0 0)
  have h1 := cellCode_lt (getCell b 0 1)
  have h2 := cellCode_lt (getCell b 0 2)
  have h3 := cellCode_lt (getCell b 1 0)
  have h4 := cellCode_lt (getCell b 1 1)
  have h5 := cellCode_lt (getCell b 1 2)
  have h6 := cellCode_lt (getCell b 2 0)
  have h7 := cellCode_lt (getCell b 2 1)
  have h8 := cellCode_lt (getCell b 2 2)
  interval_cases k <;> simp only [dig, encBoard] <;> norm_num <;> omega

/-- Writing a mark into an empty cell adds its code at the cell's digit
position of the encoding. -/
theorem setCell_enc (b : Board) (h3 : b.length = 3)
    (hrw : ∀ row ∈ b, row.length = 3) (i j : Nat) (hi : i < 3) (hj : j < 3)
    (hc : cellCode (getCell b i j) = 0) (m : Cell) :
    encBoard (setCell b i j m) = encBoard b + cellCode m * 3 ^ (3 * i + j) := by
  obtain ⟨c00, c01, c02, c10, c11, c12, c20, c21, c22, rfl⟩ := board_cells b h3 hrw
  interval_cases i <;> interval_cases j
  · have hc0 : cellCode c00 = 0 := hc
    show cellCode m + 3 * cellCode c01 + 9 * cellCode c02 + 27 * cellCode c10 + 81 * cellCode c11 + 243 * cellCode c12 + 729 * cellCode c20 + 2187 * cellCode c21 + 6561 * cellCode c22 =
      cellCode c00 + 3 * cellCode c01 + 9 * cellCode c02 + 27 * cellCode c10 + 81 * cellCode c11 + 243 * cellCode c12 + 729 * cellCode c20 + 2187 * cellCode c21 + 6561 * cellCode c22 + cellCode m * 3 ^ (3 * 0 + 0)
    norm_num
    omega
  · have hc0 : cellCode c01 = 0 := hc
    show cellCode c00 + 3 * cellCode m + 9 * cellCode c02 + 27 * cellCode c10 + 81 * cellCode c11 + 243 * cellCode c12 + 729 * cellCode c20 + 2187 * cellCode c21 + 6561 * cellCode c22 =
      cellCode c00 + 3 * cellCode c01 + 9 * cellCode c02 + 27 * cellCode c10 + 81 * cellCode c11 + 243 * cellCode c12 + 729 * cellCode c20 + 2187 * cellCode c21 + 6561 * cellCode c22 + cellCode m * 3 ^ (3 * 0 + 1)
    norm_num
    omega
  · have hc0 : cellCode c02 = 0 := hc
    show cellCode c00 + 3 * cellCode c01 + 9 * cellCode m + 27 * cellCode c10 + 81 * cellCode c11 + 243 * cellCode c12 + 729 * cellCode c20 + 2187 * cellCode c21 + 6561 * cellCode c22 =
      cellCode c00 + 3 * cellCode c01 + 9 * cellCode c02 + 27 * cellCode c10 + 81 * cellCode c11 + 243 * cellCode c12 + 729 * cellCode c20 + 2187 * cellCode c21 + 6561 * cellCode c22 + cellCode m * 3 ^ (3 * 0 + 2)
    norm_num
    omega
  · have hc0 : cellCode c10 = 0 := hc
    show cellCode c00 + 3 * cellCode c01 + 9 * cellCode c02 + 27 * cellCode m + 81 * cellCode c11 + 243 * cellCode c12 + 729 * cellCode c20 + 2187 * cellCode c21 + 6561 * cellCode c22 =
      cellCode c00 + 3 * cellCode c01 + 9 * cellCode c02 + 27 * cellCode c10 + 81 * cellCode c11 + 243 * cellCode c12 + 729 * cellCode c20 + 2187 * cellCode c21 + 6561 * cellCode c22 + cellCode m * 3 ^ (3 * 1 + 0)
    norm_num
    omega
  · have hc0 : cellCode c11 = 0 := hc
    show cellCode c00 + 3 * cellCode c01 + 9 * cellCode c02 + 27 * cellCode c10 + 81 * cellCode m + 243 * cellCode c12 + 729 * cellCode c20 + 2187 * cellCode c21 + 6561 * cellCode c22 =
      cellCode c00 + 3 * cellCode c01 + 9 * cellCode c02 + 27 * cellCode c10 + 81 * cellCode c11 + 243 * cellCode c12 + 729 * cellCode c20 + 2187 * cellCode c21 + 6561 * cellCode c22 + cellCode m * 3 ^ (3 * 1 + 1)
    norm_num
    omega
  · have hc0 : cellCode c12 = 0 := hc
    show cellCode c00 + 3 * cellCode c01 + 9 * cellCode c02 + 27 * cellCode c10 + 81 * cellCode c11 + 243 * cellCode m + 729 * cellCode c20 + 2187 * cellCode c21 + 6561 * cellCode c22 =
      cellCode c00 + 3 * cellCode c01 + 9 * cellCode c02 + 27 * cellCode c10 + 81 * cellCode c11 + 243 * cellCode c12 + 729 * cellCode c20 + 2187 * cellCode c21 + 6561 * cellCode c22 + cellCode m * 3 ^ (3 * 1 + 2)
    norm_num
    omega
  · have hc0 : cellCode c20 = 0 := hc
    show cellCode c00 + 3 * cellCode c01 + 9 * cellCode c02 + 27 * cellCode c10 + 81 * cellCode c11 + 243 * cellCode c12 + 729 * cellCode m + 2187 * cellCode c21 + 6561 * cellCode c22 =
      cellCode c00 + 3 * cellCode c01 + 9 * cellCode c02 + 27 * cellCode c10 + 81 * cellCode c11 + 243 * cellCode c12 + 729 * cellCode c20 + 2187 * cellCode c21 + 6561 * cellCode c22 + cellCode m * 3 ^ (3 * 2 + 0)
    norm_num
    omega
  · have hc0 : cellCode c21 = 0 := hc
    show cellCode c00 + 3 * cellCode c01 + 9 * cellCode c02 + 27 * cellCode c10 + 81 * cellCode c11 + 243 * cellCode c12 + 729 * cellCode c20 + 2187 * cellCode m + 6561 * cellCode c22 =
      cellCode c00 + 3 * cellCode c01 + 9 * cellCode c02 + 27 * cellCode c10 + 81 * cellCode c11 + 243 * cellCode c12 + 729 * cellCode c20 + 2187 * cellCode c21 + 6561 * cellCode c22 + cellCode m * 3 ^ (3 * 2 + 1)
    norm_num
    omega
  · have hc0 : cellCode c22 = 0 := hc
    show cellCode c00 + 3 * cellCode c01 + 9 * cellCode c02 + 27 * cellCode c10 + 81 * cellCode c11 + 243 * cellCode c12 + 729 * cellCode c20 + 2187 * cellCode c21 + 6561 * cellCode m =
      cellCode c00 + 3 * cellCode c01 + 9 * cellCode c02 + 27 * cellCode c10 + 81 * cellCode c11 + 243 * cellCode c12 + 729 * cellCode c20 + 2187 * cellCode c21 + 6561 * cellCode c22 + cellCode m * 3 ^ (3 * 2 + 2)
    norm_num
    omega

theorem cellCode_nonzero_bool (c : Cell) : (!(Nat.beq (cellCode c) 0)) = isMark c := by
  rcases c <;> rfl

theorem firstNZ_zero (x : Nat) : firstNZ 0 x = x := rfl

theorem lineVal_eq_zero (a b c : Cell) (s : Nat) (h : ¬(a = b ∧ b = c)) :
    lineVal (cellCode a) (cellCode b) (cellCode c) s = 0 := by
  rcases a <;> rcases b <;> rcases c <;>
    first
      | rfl
      | exact absurd ⟨rfl, rfl⟩ h

theorem lineVal_mark_eq (a sym : Cell) (ha : isMark a = true) (hs : isMark sym = true) :
    (a = sym → lineVal (cellCode a) (cellCode a) (cellCode a) (cellCode sym) = 1) ∧
    (a ≠ sym → lineVal (cellCode a) (cellCode a) (cellCode a) (cellCode sym) = 2) := by
  rcases a <;> rcases sym <;>
    first
      | exact ⟨(fun _ => rfl), (fun hne => absurd rfl hne)⟩
      | exact ⟨(fun he => nomatch he), (fun _ => rfl)⟩
      | simp [isMark] at ha
      | simp [isMark] at hs

/-- The static evaluation agrees with its digit-level counterpart on
well-formed boards. -/
theorem evaluate_evalN (sym : Cell) (hsym : isMark sym = true) (g : Game)
    (hv : ValidBoard g.board) :
    MinimaxBot.evaluate sym g.board =
      decodeEval (evalN (cellCode sym) (encBoard g.board)) := by
  have hall := hv.2.2
  have hd0 : dig (encBoard g.board) 0 = cellCode (getCell g.board 0 0) :=
    dig_enc g.board 0 (by omega)
  have hd1 : dig (encBoard g.board) 1 = cellCode (getCell g.board 0 1) :=
    dig_enc g.board 1 (by omega)
  have hd2 : dig (encBoard g.board) 2 = cellCode (getCell g.board 0 2) :=
    dig_enc g.board 2 (by omega)
  have hd3 : dig (encBoard g.board) 3 = cellCode (getCell g.board 1 0) :=
    dig_enc g.board 3 (by omega)
  have hd4 : dig (encBoard g.board) 4 = cellCode (getCell g.board 1 1) :=
    dig_enc g.board 4 (by omega)
  have hd5 : dig (encBoard g.board) 5 = cellCode (getCell g.board 1 2) :=
    dig_enc g.board 5 (by omega)
  have hd6 : dig (encBoard g.board) 6 = cellCode (getCell g.board 2 0) :=
    dig_enc g.board 6 (by omega)
  have hd7 : dig (encBoard g.board) 7 = cellCode (getCell g.board 2 1) :=
    dig_enc g.board 7 (by omega)
  have hd8 : dig (encBoard g.board) 8 = cellCode (getCell g.board 2 2) :=
    dig_enc g.board 8 (by omega)
  unfold MinimaxBot.evaluate evalN fullN
  rw [hd0, hd1, hd2, hd3, hd4, hd5, hd6, hd7, hd8]
  by_cases h1 : getCell g.board 0 0 = getCell g.board 0 1 ∧ getCell g.board 0 1 = getCell g.board 0 2
  · have hmk : isMark (getCell g.board 0 0) = true :=
      validCell_triple 0 0 0 1 _ _
        (hall 0 (by omega) 0 (by omega)) (hall 0 (by omega) 1 (by omega))
        (by decide) h1.1
    rw [if_pos h1, ← h1.2, ← h1.1]
    by_cases hxs : getCell g.board 0 0 = sym
    · rw [if_pos hxs, (lineVal_mark_eq _ sym hmk hsym).1 hxs]
      rfl
    · rw [if_neg hxs, (lineVal_mark_eq _ sym hmk hsym).2 hxs]
      rfl
  rw [if_neg h1, lineVal_eq_zero _ _ _ _ h1, firstNZ_zero]
  by_cases h2 : getCell g.board 0 0 = getCell g.board 1 0 ∧ getCell g.board 1 0 = getCell g.board 2 0
  · have hmk : isMark (getCell g.board 0 0) = true :=
      validCell_triple 0 0 1 0 _ _
        (hall 0 (by omega) 0 (by omega)) (hall 1 (by omega) 0 (by omega))
        (by decide) h2.1
    rw [if_pos h2, ← h2.2, ← h2.1]
    by_cases hxs : getCell g.board 0 0 = sym
    · rw [if_pos hxs, (lineVal_mark_eq _ sym hmk hsym).1 hxs]
      rfl
    · rw [if_neg hxs, (lineVal_mark_eq _ sym hmk hsym).2 hxs]
      rfl
  rw [if_neg h2, lineVal_eq_zero _ _ _ _ h2, firstNZ_zero]
  by_cases h3 : getCell g.board 1 0 = getCell g.board 1 1 ∧ getCell g.board 1 1 = getCell g.board 1 2
  · have hmk : isMark (getCell g.board 1 0) = true :=
      validCell_triple 1 0 1 1 _ _
        (hall 1 (by omega) 0 (by omega)) (hall 1 (by omega) 1 (by omega))
        (by decide) h3.1
    rw [if_pos h3, ← h3.2, ← h3.1]
    by_cases hxs : getCell g.board 1 0 = sym
    · rw [if_pos hxs, (lineVal_mark_eq _ sym hmk hsym).1 hxs]
      rfl
    · rw [if_neg hxs, (lineVal_mark_eq _ sym hmk hsym).2 hxs]
      rfl
  rw [if_neg h3, lineVal_eq_zero _ _ _ _ h3, firstNZ_zero]
  by_cases h4 : getCell g.board 0 1 = getCell g.board 1 1 ∧ getCell g.board 1 1 = getCell g.board 2 1
  · have hmk : isMark (getCell g.board 0 1) = true :=
      validCell_triple 0 1 1 1 _ _
        (hall 0 (by omega) 1 (by omega)) (hall 1 (by omega) 1 (by omega))
        (by decide) h4.1
    rw [if_pos h4, ← h4.2, ← h4.1]
    by_cases hxs : getCell g.board 0 1 = sym
    · rw [if_pos hxs, (lineVal_mark_eq _ sym hmk hsym).1 hxs]
      rfl
    · rw [if_neg hxs, (lineVal_mark_eq _ sym hmk hsym).2 hxs]
      rfl
  rw [if_neg h4, lineVal_eq_zero _ _ _ _ h4, firstNZ_zero]
  by_cases h5 : getCell g.board 2 0 = getCell g.board 2 1 ∧ getCell g.board 2 1 = getCell g.board 2 2
  · have hmk : isMark (getCell g.board 2 0) = true :=
      validCell_triple 2 0 2 1 _ _
        (hall 2 (by omega) 0 (by omega)) (hall 2 (by omega) 1 (by omega))
        (by decide) h5.1
    rw [if_pos h5, ← h5.2, ← h5.1]
    by_cases hxs : getCell g.board 2 0 = sym
    · rw [if_pos hxs, (lineVal_mark_eq _ sym hmk hsym).1 hxs]
      rfl
    · rw [if_neg hxs, (lineVal_mark_eq _ sym hmk hsym).2 hxs]
      rfl
  rw [if_neg h5, lineVal_eq_zero _ _ _ _ h5, firstNZ_zero]
  by_cases h6 : getCell g.board 0 2 = getCell g.board 1 2 ∧ getCell g.board 1 2 = getCell g.board 2 2
  · have hmk : isMark (getCell g.board 0 2) = true :=
      validCell_triple 0 2 1 2 _ _
        (hall 0 (by omega) 2 (by omega)) (hall 1 (by omega) 2 (by omega))
        (by decide) h6.1
    rw [if_pos h6, ← h6.2, ← h6.1]
    by_cases hxs : getCell g.board 0 2 = sym
    · rw [if_pos hxs, (lineVal_mark_eq _ sym hmk hsym).1 hxs]
      rfl
    · rw [if_neg hxs, (lineVal_mark_eq _ sym hmk hsym).2 hxs]
      rfl
  rw [if_neg h6, lineVal_eq_zero _ _ _ _ h6, firstNZ_zero]
  by_cases h7 : getCell g.board 0 0 = getCell g.board 1 1 ∧ getCell g.board 1 1 = getCell g.board 2 2
  · have hmk : isMark (getCell g.board 0 0) = true :=
      validCell_triple 0 0 1 1 _ _
        (hall 0 (by omega) 0 (by omega)) (hall 1 (by omega) 1 (by omega))
        (by decide) h7.1
    rw [if_pos h7, ← h7.2, ← h7.1]
    by_cases hxs : getCell g.board 0 0 = sym
    · rw [if_pos hxs, (lineVal_mark_eq _ sym hmk hsym).1 hxs]
      rfl
    · rw [if_neg hxs, (lineVal_mark_eq _ sym hmk hsym).2 hxs]
      rfl
  rw [if_neg h7, lineVal_eq_zero _ _ _ _ h7, firstNZ_zero]
  by_cases h8 : getCell g.board 0 2 = getCell g.board 1 1 ∧ getCell g.board 1 1 = getCell g.board 2 0
  · have hmk : isMark (getCell g.board 0 2) = true :=
      validCell_triple 0 2 1 1 _ _
        (hall 0 (by omega) 2 (by omega)) (hall 1 (by omega) 1 (by omega))
        (by decide) h8.1
    rw [if_pos h8, ← h8.2, ← h8.1]
    by_cases hxs : getCell g.board 0 2 = sym
    · rw [if_pos hxs, (lineVal_mark_eq _ sym hmk hsym).1 hxs]
      rfl
    · rw [if_neg hxs, (lineVal_mark_eq _ sym hmk hsym).2 hxs]
      rfl
  rw [if_neg h8, lineVal_eq_zero _ _ _ _ h8, firstNZ_zero]
  obtain ⟨c00, c01, c02, c10, c11, c12, c20, c21, c22, hbeq⟩ :=
    board_cells g.board hv.1 hv.2.1
  rw [hbeq]
  have hchain : ((isMark (getCell [[c00, c01, c02], [c10, c11, c12], [c20, c21, c22]] 0 0) && (isMark (getCell [[c00, c01, c02], [c10, c11, c12], [c20, c21, c22]] 0 1) && (isMark (getCell [[c00, c01, c02], [c10, c11, c12], [c20, c21, c22]] 0 2) && true))) &&
      ((isMark (getCell [[c00, c01, c02], [c10, c11, c12], [c20, c21, c22]] 1 0) && (isMark (getCell [[c00, c01, c02], [c10, c11, c12], [c20, c21, c22]] 1 1) && (isMark (getCell [[c00, c01, c02], [c10, c11, c12], [c20, c21, c22]] 1 2) && true))) &&
        ((isMark (getCell [[c00, c01, c02], [c10, c11, c12], [c20, c21, c22]] 2 0) && (isMark (getCell [[c00, c01, c02], [c10, c11, c12], [c20, c21, c22]] 2 1) && (isMark (getCell [[c00, c01, c02], [c10, c11, c12], [c20, c21, c22]] 2 2) && true))) && true))) =
      ([[c00, c01, c02], [c10, c11, c12], [c20, c21, c22]] : Board).all
        (fun row => row.all (fun cell => isMark cell)) := rfl
  rw [cellCode_nonzero_bool, cellCode_nonzero_bool, cellCode_nonzero_bool,
    cellCode_nonzero_bool, cellCode_nonzero_bool, cellCode_nonzero_bool,
    cellCode_nonzero_bool, cellCode_nonzero_bool, cellCode_nonzero_bool, hchain]
  rcases hfull : ([[c00, c01, c02], [c10, c11, c12], [c20, c21, c22]] : Board).all
      (fun row => row.all (fun cell => isMark cell)) with _ | _
  · simp [hfull, decodeEval]
  · simp [hfull, decodeEval, scoreInt]

theorem cellCode_zero_bool (c : Cell) : Nat.beq (cellCode c) 0 = !isMark c := by
  rcases c <;> rfl

/-- The nine positions in row-major order. -/
def posList : List (Nat × Nat) :=
  [(0, 0), (0, 1), (0, 2), (1, 0), (1, 1), (1, 2), (2, 0), (2, 1), (2, 2)]

theorem empties_eq_posList_filter (b : Board) :
    Game.get_empty_box_positions b =
      posList.filter (fun p => !isMark (getCell b p.1 p.2)) := by
  unfold Game.get_empty_box_positions posList
  have hrow : ∀ i : Nat,
      ((([0, 1, 2] : List Nat).filter (fun j => !isMark (getCell b i j))).map
        (fun j => (i, j))) =
      (([0, 1, 2] : List Nat).map (fun j => (i, j))).filter
        (fun p => !isMark (getCell b p.1 p.2)) := by
    intro i
    rw [List.map_filter]
    exact congrArg _ (List.filter_congr (fun a _ => rfl))
  show ([((([0, 1, 2] : List Nat).filter (fun j => !isMark (getCell b 0 j))).map
      (fun j => (0, j))),
    ((([0, 1, 2] : List Nat).filter (fun j => !isMark (getCell b 1 j))).map
      (fun j => (1, j))),
    ((([0, 1, 2] : List Nat).filter (fun j => !isMark (getCell b 2 j))).map
      (fun j => (2, j)))] : List (List (Nat × Nat))).flatten =
    List.filter (fun p => !isMark (getCell b p.1 p.2))
      [(0, 0), (0, 1), (0, 2), (1, 0), (1, 1), (1, 2), (2, 0), (2, 1), (2, 2)]
  rw [hrow 0, hrow 1, hrow 2]
  simp only [List.flatten_cons, List.flatten_nil, List.append_nil]
  rw [← List.filter_append, ← List.filter_append]
  rfl

theorem empties_bridge (b : Board) :
    (Game.get_empty_box_positions b).map (fun p => 3 * p.1 + p.2) =
      emptiesN (encBoard b) := by
  rw [empties_eq_posList_filter]
  unfold emptiesN
  have hr9 : List.range 9 = posList.map (fun p => 3 * p.1 + p.2) := by decide
  rw [hr9, List.map_filter]
  refine (congrArg _ (List.filter_congr ?_)).symm
  intro p hp
  have hmem : p.1 < 3 ∧ p.2 < 3 := by
    unfold posList at hp
    simp only [List.mem_cons, List.not_mem_nil, or_false] at hp
    rcases hp with rfl | rfl | rfl | rfl | rfl | rfl | rfl | rfl | rfl <;> exact ⟨by omega, by omega⟩
  show Nat.beq (dig (encBoard b) (3 * p.1 + p.2)) 0 = !isMark (getCell b p.1 p.2)
  have hd : dig (encBoard b) (3 * p.1 + p.2) =
      cellCode (getCell b ((3 * p.1 + p.2) / 3) ((3 * p.1 + p.2) % 3)) :=
    dig_enc b _ (by omega)
  have hij : (3 * p.1 + p.2) / 3 = p.1 ∧ (3 * p.1 + p.2) % 3 = p.2 := by
    obtain ⟨h1, h2⟩ := hmem
    omega
  rw [hd, hij.1, hij.2, cellCode_zero_bool]

theorem cntd_enc (b : Board) (d : Nat) :
    cntd (encBoard b) d =
      cond (Nat.beq (cellCode (getCell b 0 0)) d) 1 0 +
        cond (Nat.beq (cellCode (getCell b 0 1)) d) 1 0 +
        cond (Nat.beq (cellCode (getCell b 0 2)) d) 1 0 +
        cond (Nat.beq (cellCode (getCell b 1 0)) d) 1 0 +
        cond (Nat.beq (cellCode (getCell b 1 1)) d) 1 0 +
        cond (Nat.beq (cellCode (getCell b 1 2)) d) 1 0 +
        cond (Nat.beq (cellCode (getCell b 2 0)) d) 1 0 +
        cond (Nat.beq (cellCode (getCell b 2 1)) d) 1 0 +
        cond (Nat.beq (cellCode (getCell b 2 2)) d) 1 0 := by
  have hd0 : dig (encBoard b) 0 = cellCode (getCell b 0 0) :=
    dig_enc b 0 (by omega)
  have hd1 : dig (encBoard b) 1 = cellCode (getCell b 0 1) :=
    dig_enc b 1 (by omega)
  have hd2 : dig (encBoard b) 2 = cellCode (getCell b 0 2) :=
    dig_enc b 2 (by omega)
  have hd3 : dig (encBoard b) 3 = cellCode (getCell b 1 0) :=
    dig_enc b 3 (by omega)
  have hd4 : dig (encBoard b) 4 = cellCode (getCell b 1 1) :=
    dig_enc b 4 (by omega)
  have hd5 : dig (encBoard b) 5 = cellCode (getCell b 1 2) :=
    dig_enc b 5 (by omega)
  have hd6 : dig (encBoard b) 6 = cellCode (getCell b 2 0) :=
    dig_enc b 6 (by omega)
  have hd7 : dig (encBoard b) 7 = cellCode (getCell b 2 1) :=
    dig_enc b 7 (by omega)
  have hd8 : dig (encBoard b) 8 = cellCode (getCell b 2 2) :=
    dig_enc b 8 (by omega)
  unfold cntd
  rw [hd0, hd1, hd2, hd3, hd4, hd5, hd6, hd7, hd8]

/-- Writing a mark into an empty cell raises the count of its digit code by
one and leaves other non-zero digit counts unchanged. -/
theorem cntd_setCell (b : Board) (h3 : b.length = 3)
    (hrw : ∀ row ∈ b, row.length = 3) (i j : Nat) (hi : i < 3) (hj : j < 3)
    (hc : cellCode (getCell b i j) = 0) (m : Cell) (d : Nat) (hd : d ≠ 0) :
    cntd (encBoard (setCell b i j m)) d =
      cntd (encBoard b) d + cond (Nat.beq (cellCode m) d) 1 0 := by
  have hzero : (cond (Nat.beq 0 d) 1 0 : Nat) = 0 := by
    rcases hb : Nat.beq 0 d
    · rfl
    · exact absurd (Nat.eq_of_beq_eq_true hb).symm hd
  obtain ⟨c00, c01, c02, c10, c11, c12, c20, c21, c22, rfl⟩ := board_cells b h3 hrw
  interval_cases i <;> interval_cases j
  · have hc0 : cellCode c00 = 0 := hc
    rw [cntd_enc, cntd_enc]
    show cond (Nat.beq (cellCode m) d) 1 0 + cond (Nat.beq (cellCode c01) d) 1 0 + cond (Nat.beq (cellCode c02) d) 1 0 + cond (Nat.beq (cellCode c10) d) 1 0 + cond (Nat.beq (cellCode c11) d) 1 0 + cond (Nat.beq (cellCode c12) d) 1 0 + cond (Nat.beq (cellCode c20) d) 1 0 + cond (Nat.beq (cellCode c21) d) 1 0 + cond (Nat.beq (cellCode c22) d) 1 0 =
      cond (Nat.beq (cellCode c00) d) 1 0 + cond (Nat.beq (cellCode c01) d) 1 0 + cond (Nat.beq (cellCode c02) d) 1 0 + cond (Nat.beq (cellCode c10) d) 1 0 + cond (Nat.beq (cellCode c11) d) 1 0 + cond (Nat.beq (cellCode c12) d) 1 0 + cond (Nat.beq (cellCode c20) d) 1 0 + cond (Nat.beq (cellCode c21) d) 1 0 + cond (Nat.beq (cellCode c22) d) 1 0 + cond (Nat.beq (cellCode m) d) 1 0
    rw [hc0, hzero]
    omega
  · have hc0 : cellCode c01 = 0 := hc
    rw [cntd_enc, cntd_enc]
    show cond (Nat.beq (cellCode c00) d) 1 0 + cond (Nat.beq (cellCode m) d) 1 0 + cond (Nat.beq (cellCode c02) d) 1 0 + cond (Nat.beq (cellCode c10) d) 1 0 + cond (Nat.beq (cellCode c11) d) 1 0 + cond (Nat.beq (cellCode c12) d) 1 0 + cond (Nat.beq (cellCode c20) d) 1 0 + cond (Nat.beq (cellCode c21) d) 1 0 + cond (Nat.beq (cellCode c22) d) 1 0 =
      cond (Nat.beq (cellCode c00) d) 1 0 + cond (Nat.beq (cellCode c01) d) 1 0 + cond (Nat.beq (cellCode c02) d) 1 0 + cond (Nat.beq (cellCode c10) d) 1 0 + cond (Nat.beq (cellCode c11) d) 1 0 + cond (Nat.beq (cellCode c12) d) 1 0 + cond (Nat.beq (cellCode c20) d) 1 0 + cond (Nat.beq (cellCode c21) d) 1 0 + cond (Nat.beq (cellCode c22) d) 1 0 + cond (Nat.beq (cellCode m) d) 1 0
    rw [hc0, hzero]
    omega
  · have hc0 : cellCode c02 = 0 := hc
    rw [cntd_enc, cntd_enc]
    show cond (Nat.beq (cellCode c00) d) 1 0 + cond (Nat.beq (cellCode c01) d) 1 0 + cond (Nat.beq (cellCode m) d) 1 0 + cond (Nat.beq (cellCode c10) d) 1 0 + cond (Nat.beq (cellCode c11) d) 1 0 + cond (Nat.beq (cellCode c12) d) 1 0 + cond (Nat.beq (cellCode c20) d) 1 0 + cond (Nat.beq (cellCode c21) d) 1 0 + cond (Nat.beq (cellCode c22) d) 1 0 =
      cond (Nat.beq (cellCode c00) d) 1 0 + cond (Nat.beq (cellCode c01) d) 1 0 + cond (Nat.beq (cellCode c02) d) 1 0 + cond (Nat.beq (cellCode c10) d) 1 0 + cond (Nat.beq (cellCode c11) d) 1 0 + cond (Nat.beq (cellCode c12) d) 1 0 + cond (Nat.beq (cellCode c20) d) 1 0 + cond (Nat.beq (cellCode c21) d) 1 0 + cond (Nat.beq (cellCode c22) d) 1 0 + cond (Nat.beq (cellCode m) d) 1 0
    rw [hc0, hzero]
    omega
  · have hc0 : cellCode c10 = 0 := hc
    rw [cntd_enc, cntd_enc]
    show cond (Nat.beq (cellCode c00) d) 1 0 + cond (Nat.beq (cellCode c01) d) 1 0 + cond (Nat.beq (cellCode c02) d) 1 0 + cond (Nat.beq (cellCode m) d) 1 0 + cond (Nat.beq (cellCode c11) d) 1 0 + cond (Nat.beq (cellCode c12) d) 1 0 + cond (Nat.beq (cellCode c20) d) 1 0 + cond (Nat.beq (cellCode c21) d) 1 0 + cond (Nat.beq (cellCode c22) d) 1 0 =
      cond (Nat.beq (cellCode c00) d) 1 0 + cond (Nat.beq (cellCode c01) d) 1 0 + cond (Nat.beq (cellCode c02) d) 1 0 + cond (Nat.beq (cellCode c10) d) 1 0 + cond (Nat.beq (cellCode c11) d) 1 0 + cond (Nat.beq (cellCode c12) d) 1 0 + cond (Nat.beq (cellCode c20) d) 1 0 + cond (Nat.beq (cellCode c21) d) 1 0 + cond (Nat.beq (cellCode c22) d) 1 0 + cond (Nat.beq (cellCode m) d) 1 0
    rw [hc0, hzero]
    omega
  · have hc0 : cellCode c11 = 0 := hc
    rw [cntd_enc, cntd_enc]
    show cond (Nat.beq (cellCode c00) d) 1 0 + cond (Nat.beq (cellCode c01) d) 1 0 + cond (Nat.beq (cellCode c02) d) 1 0 + cond (Nat.beq (cellCode c10) d) 1 0 + cond (Nat.beq (cellCode m) d) 1 0 + cond (Nat.beq (cellCode c12) d) 1 0 + cond (Nat.beq (cellCode c20) d) 1 0 + cond (Nat.beq (cellCode c21) d) 1 0 + cond (Nat.beq (cellCode c22) d) 1 0 =
      cond (Nat.beq (cellCode c00) d) 1 0 + cond (Nat.beq (cellCode c01) d) 1 0 + cond (Nat.beq (cellCode c02) d) 1 0 + cond (Nat.beq (cellCode c10) d) 1 0 + cond (Nat.beq (cellCode c11) d) 1 0 + cond (Nat.beq (cellCode c12) d) 1 0 + cond (Nat.beq (cellCode c20) d) 1 0 + cond (Nat.beq (cellCode c21) d) 1 0 + cond (Nat.beq (cellCode c22) d) 1 0 + cond (Nat.beq (cellCode m) d) 1 0
    rw [hc0, hzero]
    omega
  · have hc0 : cellCode c12 = 0 := hc
    rw [cntd_enc, cntd_enc]
    show cond (Nat.beq (cellCode c00) d) 1 0 + cond (Nat.beq (cellCode c01) d) 1 0 + cond (Nat.beq (cellCode c02) d) 1 0 + cond (Nat.beq (cellCode c10) d) 1 0 + cond (Nat.beq (cellCode c11) d) 1 0 + cond (Nat.beq (cellCode m) d) 1 0 + cond (Nat.beq (cellCode c20) d) 1 0 + cond (Nat.beq (cellCode c21) d) 1 0 + cond (Nat.beq (cellCode c22) d) 1 0 =
      cond (Nat.beq (cellCode c00) d) 1 0 + cond (Nat.beq (cellCode c01) d) 1 0 + cond (Nat.beq (cellCode c02) d) 1 0 + cond (Nat.beq (cellCode c10) d) 1 0 + cond (Nat.beq (cellCode c11) d) 1 0 + cond (Nat.beq (cellCode c12) d) 1 0 + cond (Nat.beq (cellCode c20) d) 1 0 + cond (Nat.beq (cellCode c21) d) 1 0 + cond (Nat.beq (cellCode c22) d) 1 0 + cond (Nat.beq (cellCode m) d) 1 0
    rw [hc0, hzero]
    omega
  · have hc0 : cellCode c20 = 0 := hc
    rw [cntd_enc, cntd_enc]
    show cond (Nat.beq (cellCode c00) d) 1 0 + cond (Nat.beq (cellCode c01) d) 1 0 + cond (Nat.beq (cellCode c02) d) 1 0 + cond (Nat.beq (cellCode c10) d) 1 0 + cond (Nat.beq (cellCode c11) d) 1 0 + cond (Nat.beq (cellCode c12) d) 1 0 + cond (Nat.beq (cellCode m) d) 1 0 + cond (Nat.beq (cellCode c21) d) 1 0 + cond (Nat.beq (cellCode c22) d) 1 0 =
      cond (Nat.beq (cellCode c00) d) 1 0 + cond (Nat.beq (cellCode c01) d) 1 0 + cond (Nat.beq (cellCode c02) d) 1 0 + cond (Nat.beq (cellCode c10) d) 1 0 + cond (Nat.beq (cellCode c11) d) 1 0 + cond (Nat.beq (cellCode c12) d) 1 0 + cond (Nat.beq (cellCode c20) d) 1 0 + cond (Nat.beq (cellCode c21) d) 1 0 + cond (Nat.beq (cellCode c22) d) 1 0 + cond (Nat.beq (cellCode m) d) 1 0
    rw [hc0, hzero]
    omega
  · have hc0 : cellCode c21 = 0 := hc
    rw [cntd_enc, cntd_enc]
    show cond (Nat.beq (cellCode c00) d) 1 0 + cond (Nat.beq (cellCode c01) d) 1 0 + cond (Nat.beq (cellCode c02) d) 1 0 + cond (Nat.beq (cellCode c10) d) 1 0 + cond (Nat.beq (cellCode c11) d) 1 0 + cond (Nat.beq (cellCode c12) d) 1 0 + cond (Nat.beq (cellCode c20) d) 1 0 + cond (Nat.beq (cellCode m) d) 1 0 + cond (Nat.beq (cellCode c22) d) 1 0 =
      cond (Nat.beq (cellCode c00) d) 1 0 + cond (Nat.beq (cellCode c01) d) 1 0 + cond (Nat.beq (cellCode c02) d) 1 0 + cond (Nat.beq (cellCode c10) d) 1 0 + cond (Nat.beq (cellCode c11) d) 1 0 + cond (Nat.beq (cellCode c12) d) 1 0 + cond (Nat.beq (cellCode c20) d) 1 0 + cond (Nat.beq (cellCode c21) d) 1 0 + cond (Nat.beq (cellCode c22) d) 1 0 + cond (Nat.beq (cellCode m) d) 1 0
    rw [hc0, hzero]
    omega
  · have hc0 : cellCode c22 = 0 := hc
    rw [cntd_enc, cntd_enc]
    show cond (Nat.beq (cellCode c00) d) 1 0 + cond (Nat.beq (cellCode c01) d) 1 0 + cond (Nat.beq (cellCode c02) d) 1 0 + cond (Nat.beq (cellCode c10) d) 1 0 + cond (Nat.beq (cellCode c11) d) 1 0 + cond (Nat.beq (cellCode c12) d) 1 0 + cond (Nat.beq (cellCode c20) d) 1 0 + cond (Nat.beq (cellCode c21) d) 1 0 + cond (Nat.beq (cellCode m) d) 1 0 =
      cond (Nat.beq (cellCode c00) d) 1 0 + cond (Nat.beq (cellCode c01) d) 1 0 + cond (Nat.beq (cellCode c02) d) 1 0 + cond (Nat.beq (cellCode c10) d) 1 0 + cond (Nat.beq (cellCode c11) d) 1 0 + cond (Nat.beq (cellCode c12) d) 1 0 + cond (Nat.beq (cellCode c20) d) 1 0 + cond (Nat.beq (cellCode c21) d) 1 0 + cond (Nat.beq (cellCode c22) d) 1 0 + cond (Nat.beq (cellCode m) d) 1 0
    rw [hc0, hzero]
    omega

theorem emptyInd_markInd (c : Cell) :
    (if (!isMark c) = true then 1 else 0) + markInd c = 1 := by
  rcases hm : isMark c <;> simp [markInd, hm]

/-- The number of empty positions is nine minus the number of marks. -/
theorem empties_length (b : Board) (h3 : b.length = 3)
    (hrw : ∀ row ∈ b, row.length = 3) :
    (Game.get_empty_box_positions b).length = 9 - countMarks b ∧ countMarks b ≤ 9 := by
  refine ⟨?_, countMarks_le_nine b h3 hrw⟩
  rw [empties_eq_posList_filter]
  obtain ⟨c00, c01, c02, c10, c11, c12, c20, c21, c22, rfl⟩ := board_cells b h3 hrw
  rw [countMarks_explicit]
  have e0 := emptyInd_markInd c00
  have e1 := emptyInd_markInd c01
  have e2 := emptyInd_markInd c02
  have e3 := emptyInd_markInd c10
  have e4 := emptyInd_markInd c11
  have e5 := emptyInd_markInd c12
  have e6 := emptyInd_markInd c20
  have e7 := emptyInd_markInd c21
  have e8 := emptyInd_markInd c22
  rw [← List.countP_eq_length_filter]
  unfold posList
  simp only [List.countP_cons, List.countP_nil]
  have g0 : getCell [[c00, c01, c02], [c10, c11, c12], [c20, c21, c22]] 0 0 = c00 := rfl
  have g1 : getCell [[c00, c01, c02], [c10, c11, c12], [c20, c21, c22]] 0 1 = c01 := rfl
  have g2 : getCell [[c00, c01, c02], [c10, c11, c12], [c20, c21, c22]] 0 2 = c02 := rfl
  have g3 : getCell [[c00, c01, c02], [c10, c11, c12], [c20, c21, c22]] 1 0 = c10 := rfl
  have g4 : getCell [[c00, c01, c02], [c10, c11, c12], [c20, c21, c22]] 1 1 = c11 := rfl
  have g5 : getCell [[c00, c01, c02], [c10, c11, c12], [c20, c21, c22]] 1 2 = c12 := rfl
  have g6 : getCell [[c00, c01, c02], [c10, c11, c12], [c20, c21, c22]] 2 0 = c20 := rfl
  have g7 : getCell [[c00, c01, c02], [c10, c11, c12], [c20, c21, c22]] 2 1 = c21 := rfl
  have g8 : getCell [[c00, c01, c02], [c10, c11, c12], [c20, c21, c22]] 2 2 = c22 := rfl
  rw [g0, g1, g2, g3, g4, g5, g6, g7, g8]
  omega

theorem condInd_sum_markInd (c : Cell) :
    cond (Nat.beq (cellCode c) 1) 1 0 + cond (Nat.beq (cellCode c) 2) 1 0 = markInd c := by
  rcases c <;> rfl

set_option maxHeartbeats 2000000

/-- Minimax value table for root symbol X: 5 bits per board code, value =
score + 10.  Generated offline; `checkRange` verifies every entry below. -/
def tXval : Nat := 34654202699576871630979730971443141390466225100755593937156270063664038561303752873991304369788066858605022074736049957977995019097091424566417473088249807966714463588664397022903280459949674515718314350282552086405688300096484701343741579131042901593432605111519289913547842176895799255424927780562557367558345855637872079501997429246591376147174881660493448468216552837859723967550114260697001238522561864665021218506687525675586651882651444451811193966283240221364232825994504390801850293744316982922661485786375895288329684658125965081822517714961360656974357977531045171812927405720506048247054226471561567271780985318260422659607520378602598894127539307435229012189520113934942948195094889851387862904186376393260666190774431293475896537233997734130699074705851581123653093830269665987815995330738802254051574498705815229204060764941006779570756829511574619260311918242604334580629021445421560817923045795455348707396187876457039957129275737156304323516631605941566380473611165193669522244111748200659275827728014021656069540522774120518428460864666537454256777510108129471347965972143655316513540030700847063131896607623599906056492077550696097183993223364063697390343319011715932268400751613136508221184229955783994213882705302440378579872333769188869112442776830126746159161989996310027034274170587854660646358842486153920335694455938412823399430728550697124433024362653689350722966264668266991661932066001016936304932650569711470965559108084160026096254186507547125910493257975744206235800128530042806894799530497187557952376187201986378272684349903678920278046987160596319050441882509837885476684825468708202491055010343047497596396029259283965254972951649719931304684077733848304613211032386321372130141741606429922517094094559646482781350003157432341027052481566095301453643593684129382989987722406830477300341413644514839952281685797168739179177222333167097477703418373069374550246976171133269389717652878913240583996879537382500447724638564972671429316394052732062182086298749891560276393547278635255840736812424811112290369941787222322496471789050423082762811843525779446086694695667899306229707380001755444982851885805820724904667438136473691869124136178837824842271022369510304633139006384292980079015237009299652281823138153260470330404014967122575744784940414406051609814990250599218327499854075861762422939137092891433879445947331661874860961292320785447955552830674298088543673307185886859380102961557091889619340102072655962236950987074182892756758668647389044530667442270640930785543184755452232228898385381236577403799572900091804991519793528908531198064269906938778830413904273898137794036244784485635144854994780658598746809417078780804804783721929901101612279568058135684669425312243224602655184393380469064972772496732776631227608681245554662339387941416791119926142925793673485509478112612614464302078774385104626211984035457734518778717012383778353114093384926272011446621620663386900211049343173223879788944737084898092346343453048902622320026937837531530993577098393601780876412678505070110348225332359245904312949405001444933609053960296943289933082212401300305861132500796751027900601853128578100430327687391684594335133801470949837682597066939133051936154868464225549875522497702680070265897823712714113982535187475587603842981116360712976905070835447852586812170572425503792990881284826391740328875130282588267618024907913955924303774687324590359710687579505079346811066392348761383282051858931730712135659955948764279981451600683902035743405801349451580990469227245153602947226205960319587914065943632423302815318095030789125190280361968472054280716326893228067169560960518923195863728490081681877340924674196762713103894261573336423718035085143788977473836361463210404119851155165527729255101369825432689507422486794332384158985670255493284611926348807127496343829611353639460213262194077560140885782478154222435281445426815089113055601926335109408455286647141740364846055364199806931431688662366542408948163973041307085309553798377602489381737128951463743840046525264727989210957528288933927583650571096730569647605828885744305989196022070534847983876876681755739419340466007082353904586245789257353818968612256884824913233368851444875535649327398028711025471581216556755991046905685246001431428385696869851024390796199244170279521452124982055942450072298722399052289690773696979939003028990388803871414792891585546960180842494047340554008972018084405489475695554336918847634080783888004610680213794710485803957265852244558129808658231289518185031475555280164685980972644293620411264735464220434666526561854708677156709246866449549178236694699113626235474080447089122496000310432038281604400612199958752989598363599750581368099188898006957708314833113610173633173986573228835310054757809944182187672600280376028195149704608842122928443055474577545464158740163282531022468165912136879499568142656230327747214222286259581353203850764697524250851959983788831171991989155664384835044377726376974370427687050371157159488878780472943770168890974320094254581965635960280586679017739228795805130265290064140170913396763821954046420191978717418934067307972047820473084440166595827645773726419072090655412339011905057766277547285098201282345008341100143141003273335117602836555848539291558726731086389344532250374385743740953062354228271994921090933227695788547667162835271092063305286059112631914511926134047958048180623164814830290355849755268677246292936924242058253903802223685520905264061992254870936219973024906419364926867143549254347110643514572728559674935092531800891091571735874210200977742985396916109685795560141041373166798961613071977808805531547579072541809053278807323548415200227059674639833421267870560233941919585944489494323624975335524860880246113520033139260663618049841289210245283252623966724254769243474506444251525034061836556535496055641645942694161189539683477082812436980144505929810492204036793935616550115490605913625041847033077416327953752778854156233070815271903103845059197535509268844395218831424670981983213868205335266285018246550013286765707532650711791731853237841258394871473765625899626173291190413854358209503751372622095792119264789930159555492974443188696072592937007265827608857901419018367878470193768956289588612642945736911996759092793914171436716729536911980860826839002289081768015017032421096787323451003081547933787574376865916843096592358555031731616377594919795373457426397753429674000125492980259853896020934408688401854440718544482225759094416479610572377748652254951433410399104794537443793965835961003037859334312018857171043632056493490695665116724639200482578596845511126256479580735660078894043647494368605709964427425783995265772747840140888693993613759787117256843442216826934721004311619290619935745711930066204132239424134249043984761900899191716381445519513336647267038759012798281577751858623787479496974003549266235849295900411092789106068173647052730035158860945903526330123448359714052751420801789533098172857882337994432589561858412162371623980033341249152205340560860396013349092817526267871581420575150360664049792334836476271631768553476347227749962621317066477533821674686992734467128027533526501789148829141448975959877938400724764227982788147360574136182188505537934804520808060987293180604832274686283962210771111178289106881223702293268889242526367785653820845287809330822874061524334268807772493998806345056185845341462420755666347279757859439856590607656235815554107534120174526773016720148084599796387353559367828977833405087785821497844774315094279182667288419311773573858485414574558113609170842919401697564238932554015489340767113433041238323935151201279083746765209709629692080281117335973776726022984772572296186552733290426030256390914374557495023919521415184428893770259225250833482483442431613317866632813167033258100970664825241093467702135102294161055420873880496969759165469008831331431030037891122139427294195322461246186777764569788088263510645592646835351303955720394383082480794694613261540088956438937831268301927964343477558461133713392300620082160060844832267249750379611727932498262724318091138772049240012258255553754681157184259346595690453228559760399626620340785455761688054707331891288369536124217178727330130378974557729522429102658703776925052061081865146354657723598989288212437388070335752792048700235199115226650883498832085061802137316722874984649641580922988508381607157356875534951931577783157094903818118417134370459581087892448903856799369432335927572425425053554010521218832086756649240519431452382999322248967997162172775877368533530512965679441056836695614946189927820585920727057042390325947141639894036511286081812120246186874730145932873803533970394322212345934221115882367292483779533246801915616600940684662437628118451226353115700454581752641768728876794185236941741283707924040455349898762301161104929338760088601018348751755965332607087624683899566736881150764374544379016138557847063056077582629807999607053073825611933469815051396834035647539626691932306407096608755409764013971141599176174026768019768170301011107510465007644147084886305041052943468056174566003588304472726171062808522606432726314216516601433134473882516665838389483214504352679920453227789104589255925092177028271647427914677984871240577040249355427953768207421060356093963980201555666290747109964717571581636325738106761727943837032993808017959308879976959628914448585690106314437755091807762731743603044620908624070117932928720033059803401564502584936035826487874353351235792017124852627799366991993238016609681841939462641602188364779745216716109955991128592829260449703626092177544582991226952767844198343645004817892387865324145640777029444813156119590577046798402097058256286267106273437373920208199539370456522120759448995824006949328057018870030461841800887738919220215236268750267705447295384408653578336246505087815098502011404196525366133580075189954640143492432089836389057117125450508750087006995151114536182071664449367626899501539245696824753183142798386331150430195755688826851867888930712408586301685196264364742899966820650066706257856952641287187345696328251623737223863760579174009358763224583568317313313715474681579944276490109324721004162032924954765692209266302003170023708859533704005562079008387445286497629204299758600321648346879031631907053059822720464083711529547438143062978369424734805172880519615808411996933319727130905003571221761795407095856986842656984150799719058680103575186879669696781736185707252731012955355427846132624592265141384774618491665161788858540904866139551739619093653052285108578582904138637859504322747375162883680341865839156190473496145839080880013709756636668417531456469128610338137721363313233521432025529512811611055591108661607264198975004156339557365651029387142566032819101737693613947110293909011534505392847166192236772528661520477314319909487781746587435025225979098875612765258941246088352237508951606004836140590859440178738785675449534805660271823613403487002393888002845120550627059190938112910400886950574888901892464523185626984340915654943855219270872450604488815947922004380322664988054885402278376354252793396735986196016736848814399761303232594213005680460460072010555829888584317066965789210238920227324741388250281561711058309735032193378544354915433073396018495610457065785295283771251365143342947352542392531345338469037838018206299351712909358037545088870864331818273941327347783966561193808896800355268017521697413332869462873789872044125829209315758888633563922610148842595995260620595456658575249076102837846664507939110270802475624033631696312332866991465119301383510612832988085818034968065266791070031464931614749531209205477735063118633031421008940404319480275572440277476295554777197656500302149904701382701059683991465994075285513992343840662670898316041156332964733704786290539751647330789815286202048065191159824885704043135867733787403510206998965086320865282154307633834929186212503680524545795325985054385338399264624700840316452355900681259848347051409043596757198882437433945753457347076186041284237113131532314998051054231723274212126316905949324522363760754086657526955204783349505740122318619099733777923630005823243015250960204107349264638865680981554544007188248318619375163217580361644796438470536704806438518631335256425843831378043330634222645411116952965184935002911160715265055787705544462608275889040556137856643648634891132464590227316042281194605920801625966000189089787357490749082069115964687882959147210295556319015778140708739200355444049474357222205664008742457316772281100889679714836480444224361182098621894493690638329152053593133339860734232164609603619950279762324732531899836080033524869669064180361523708082624653558070104270394778616864411429481700717420277605243793358855922501711276740771827501276448561036143384866035833384999766096827160000414860047537998402306551167480451453390828835874618925563869407467410067969401350492007895687210477590730818957951484845056930524441771623109854904243711372603540489219032506736923001656475751408959144779525203877914266030777253824887111700396820036005190422964892895022544261667940717973576888660480067404686132946868863262372232504593613070626941897361905029764367718215697056704573434332166675678016544967020441540198118517308361327695056285426986321367807626239744893909990326738863650227220641089507521687222260787645220544535006764603459327712530195593770669285961981222080785188396410030465203972151225940567830048165833770086218058483407473234577642865278006244110386841669900684729624660739824784549327893198317269656104268042626593730088550646507341218683260635731542144218348463364743280722677758932506585625118164056665149335796648444280918999542690501280288532522326172896150803064733420081313538861196958545866319408323930240681888786837551617144891566496953122014173402808854944362113145275233541491411887391321101666044262857115038937857305352536765707356357064523259141616427268167111259845905576121127149269723331810829689193471485540527631638422977045556500839776720362778695374289391851963403488405576979589861227658799416840081473386997233040186382535238443549273491572716647196875672536697505319475387808310822967181193307204114322327891915493380975469322059846716325442809983939034887953979584323363965261204384924479203384128502638042922039567319633669781457625575793549518711438159526437006704378587236102224743047536608157551620640318944402698485205025888116986157136670433676731231092199553614798210424388336782608031786470279705430511484890847492194395503820661859782042503096690490542645085331066737087058993032653533622660758795104353806974257201852002677708337352560076070721366432044658298313059495362667091186104993535555046570856041838433497864708576053085865093806358480369288254518735911354671749632992468616914771124013622871917321012766903361169729311786900314395061259223874834189913138502021206302059002191707581579088387453356092874833095203625093331505437670138811448205041675019996289555293695636622297469247256152578946386756856917473609549161352726377310608910669789001172621524561251358773889471469895468562256203711208656433960159932163358545689472481624009417299866284847454510837970616181583759629414639075297232961553015890173416774276825749939966490468094250397431026080457899261514861840059456031432540368160759054325189688096940493041697038312222257011498184474044643220630187782473848653830423782771674689632265715521175589065160464966623413808370081232003079019489994361101606707376750536033892862404129541271112032897060365179160761132460533594465146074536691849817320581964489743053440216727200783679017525325304611843011429064629716950529560557025159413554301619383721580006559976860905514941089205878904019097231946766931805755867414285648493735440759971325870450233133672267273233398462594693660317889751189570393324680316986128236748804754066944791607467402957524767039370027607700399312191234880812524778342039136874274211699727461955682667901293470992510237261087970999647183671623620196811551147684882015400114904587076559593879015743406893895630389451387529649784555817790958865519024336489536931054122160312229587686457064835562412645362837394637220334178542216749166484403461695153909884715476948816926341576811037500568068037492113543425755607615614643407616252947365861470300422640194896866332126722215944628267578038119584011507093050532767415685605149071453037881788987546580348916662448043832171666642317516135214205780332211600779890746375664080521320009129642748167660046009013714121190850193565936201861974487990819911413013659765415690731543462011605042791641553991327838289560551046093215161870407901635901460664992243434990734176964553890104293323033170674908292424126326131928309203315963727001806674223425965273746095348322175673386227635054258806022018350425326484197454632889395442981849442992145925884700030424315385014537100574549111981977767559306026617633313859346800355014233117872233289772373359684479369705292854778124804219789959555602876826685198613952416066114871115627834772142161611114235797549472246634156333097296329321155347739883911114190738998013797401622430212113580354390787777193484446850142775358244147558490048722387657745963706860247987797005693375757404507385088574102982502827444008187849778331175422030409457775066470453641951809446174275165934321987331942714620085265926872974368247131125256747278488632081836501900870227229659736898684500527289176430548167660204349544552519144310873600026676431537216939269826275566169945611515646184209994581606490600563027928960458239205091206608870680493268658872073621999088693523690099252781446205599068399166547494918981942450964534828845714681610833464132945976717775697155050068374390908765844452302841958644201372943062925507667543798976456707436860496403191052652445717636689097257367074823107534053201501602010724636828529816257064911274409900775606505838434403778927726933248797031264231098803940174193296883848128607310630282757347650988180454070498633475705692663245319987081020871184674332833488404836306130427830087999354601975744721737099061751114983640050297298420648068289315952706167943579218611930004042393864957997388740061838949336352026013193590462267365747850882440841651629708974676970359134346367698622295254022521137681166539719952458925778051890479558874277635948187467909652542727495370784673632976091695649522799654096054749951091935923855665023798721528068429771996506120658860723031956890235308983118045537269385504013558678222269838893182211680757464945031873255183559342597145228168261268517433662343024206153281433569934815422738874046187490667098577897035806361838172122191445254820577367992700452306305100367839776965073639171254918644220071791211273530717374027583284274736188834413214648537976637155743579371317334396312510651688193068845512145633395445555979752143754984395492267176496574588746055150330210134082378415460972390511296822923109428943842304123971104350447674433836737350917601905995721858279724929786222990116910206160289915633553149561652298796529757248513865104886450284508634642057008148742805318453243054054186054803526701715184728274497414822170978654238708967512968863760604161894048704307318601207160854512076998743663822567715862204772172740647111959077766822403664247274795937665381922476112667583738753193073996808969234909933564454028783961093195513872622546448853516428253343990503669653081792941897313016251089022975094577398674849349316862863285775905476814246772539141960665640043438039253124780241762940677745093661667880118594768456289020583613837137443707938140282802283605548977482595393431201061614747557593054383812046919524451789007784510616057505556766762847149367379220517331547926365477004290396871275050828708073653953236953647754209411110681297183450070305996330793722466767777489138023722195243656232927251573335910324857565726780814061234379947123279790977654752180180431391184809069892544720409107724744898480236869628130318477437888737337681970834535918052384161295149605668399002320628493325461194484414833762779262756323275682164768188418813123274034629668094777600625077641394312601275418251533735667680088731936837900421863059151224831621924132871074995890366544058562014384967972113316207458120840925465577123213493188651773898243385401611703033682757705980529879355067664304099845555192377206277158626508241657740868042400646885280387340929889063402511797260601637125151968269006901686694825325399265084211364813847069300136110085578846818327082714363426218894656076097891643582605143804397604151146110986054132293381358749322941487491134966191009567624060570547074372201348297199909714151755180813491218138338897769778256409199138617979777690694297999534599379389489678457715809951198712752505023233042731226569264200577233933513406559063501723080500146317183473088026230072726109618086703307060515014156971977352790255903400460248209534442786967628125159337484868506946443179521262918717553467236794478288874651938273390570968314835791218003670219488105157659006973421726579989131238152541098773872778895135748751935971037595009602594114562938918652875900743795530651747463682912892662217105399050970869939795335454765612271833380290730339350198477617916848123286489797478912639824293547081349735553788168654948357692941401569135432684236528719674317431861129380292868329484232520926360476360698270746524905830391281444261109061433962202762170788368460327691486306979868796451918224483971607530338484587503559654223731131000489799212177807737633546399759364722111253282397065943329136607444755800886779505471172153254579823120136993790034285907968353263770322255911944283749643027435151415039002421129916402326924595128016734000757404087425805066203638661598496686953204237086204613261921956754945010815093123034005307630627607515160892179730359754201751036480463342550212144378278264444930761864462883743473335362887734528038953183615189959689778342335438892563375604799716969567319193340587090905589427186510037074957100415207708316121456698847764105118518979076172501381165358212795911600542922926756183019845927518623379800939615670351941089014792984718662225153284599216624679597435964608013558474418749051088676093449486773298507265953464316623051175161078684436134481253165728936899465667981356808187961527098449792532405400521350136370211333191274277024117311567276078087636220543795356873558859272127481219577281130046595422218558368802833008439366643842598802073319216565019276234466781777860871219353886517913978377324271467767177967217828988372580682043592288337607738676570319398302585353469188651128762605337328966402122316256923008428005628842487599109988639785234263430519115717394773041506289203235968100230990609348753512416060016430139043823377262606872600576246769110114716695381386346720846022628745624260349706331849238646344782740282458455947827388415314336716704304105937603709936064197101464690006794492276751828752641656564882302822795983782350849394664093115730070603919934070860949195412186345758010658589314489669416770062137587475187029236162780128153227541685190913095438453893951981214297880446278417000297182652644362482438934602380410584563262544328353306556246261449762374873017381531976580260849315832406653177289063126821231701247916893383553891639899996252362699908090952240823156576236587787146310635301664275425470654124614366435113176954999738599402701276793688980908675714990455643613120092780541936964551585227976335065427409262126705491841586009918932375486380757452270314655111953245694277240771169385928844390679868689691444157006592577406440640032315521924798002581828788835017740456660253283392301094565450172753796791333595052137084957044105345324417203662161687815487962644245213399682812745446764968673795574265550510383844021624278242239067532569571982000711749851269240117758442109487919098863888530021738634001542108130672194365080126902364904444152133040799030726310254501779159455875089835869600083792618625408492091815034686122490806984683291698669279169868995760163484752388788528559182158562273567952513173894858268882024792669881815085549852797650122901890963068486110862540423785361427927839200523449341395570961375712476785775140814594811662831798124577386290106397734506862864230989166559158267934141150085232574599389630918414017749848756130636683848239517918100686904065114506884572975998124979662343822422385090223951327493663464401611199185750335980357786637517914340511149757705114433634166479659170463895637334173552213514111767720833066561477000652977185216418455790414045020638806557217814596395495482135811728843968754030610024218735926813477480492556874075671081669211219494924210033684242956937471350460770105038150743467218519120875964992415669058907296760770691862086290340299366276380819470865622260897658362475150795572460537987693281113519618945501652866806639822355164400503333205997791399394157887058999179697674222769499142843284117418446802691039286075796396414559669200039660994544440193041810710773905659496330276209667445793628079048172817200325011333962641053249090201905845354776934146461628598157561749410295047879525371474929208764686425559494937473003402932526796890601323959390605991278176700074563086386649001926806833644435541062077120438075196328767864364391959815928700104032303691412117786805423377725689064002065594089638357430523494495278056587753311591488086871719725976821038521796771774354430898471543730235507414083309578450394676350533604925380662788129653817016230900820608101629810939593268022977624415406117965106429904445601877462166948068522977329101809973598283190677105019898844160383752596032805403355862784835773195603640796696036061336234102947594669674910251454212761305144259209640880507122149158220586239315760943137778132292133410372201520337843194518921982447600696446206152095320290419929398875622610956886655805385233142285098141063409150009681673648063210629900047002985063026992121409231209593334644899790277018857856621377771026268326559729910142334643036144832862362099065014886696092173377153611514301731951566066487628561151754044519400065521021736824277349358880641614486296257240877050062607364571620496218489945737252832577127978581837195394106769008299958528835680046383887936221224442632561063491233927953976973195150204665745728369796135037687616111370681693544008772989513792675523058195816928751118381158799865542385209289096898211879726815820525879836768802866104026113194915281559504966165287110617031458323317197824522869183528341377752734064247825153419935158278161283875026576153527515611827499907426529364041722769324975729830627087321264213791674272549301646145157876821694619471485725540389195974734819945144316906442729676292194664392470440094160907820572960553992953917916318006144096618207801240086943104345002722138869197349832234400059089665247373623902506504882947951284092830594965199344801647324784759893941056875926923536010727528842952797261541491710111316500585483997697600072463861295464238964174284068162540621332168769788924683735695639711503197930192426480480216831672985370594417085086630427832565358165752398400925251117016762765447676966661150100793934300670894977467131121513297180625310855678484783891125993086020403464475552510964816374835552019945487228814503378930614174191316722510995083240452851759510391078420854189261120601994867498183013264472397268504909969023256525689618933832602751365769519453415693842782419574475371843527129002460959081172131084852872045427623019751379378546530329233361049564132703120395459402841662505141881903266305776311370698865636627370172612473478200664260326885116783692219522270956124621094037709830590173145904478745124094148613199806822194888647947959599279367872565877157806387278037886725537084938966632478366915305614426259644913789111883249385856848119229033463741396017232732562852705942626421690218362083421533234578128789813775639342227072010085062223365354608362550745920867603353213796610442612262512179458663180454312340215074663956331015635373469519238362521501539191862162591676337862021497967480409934168421654528589550144304844470959308077471933849424000061647730991773557064023896443862199526823651959788081068895086628446106900494672205710569224081371705741249264438559847888509791439457602207781834606415361707750370760145499811215460850474134353014972649192318583117029376854025259383485858221531993243614176752354517797292484838495603270963800925215828839155394546846970694554501243554405475575837716314515443958356277963442825428831014811257461475592070257805442723548762057026195048753647554736349566168780189782181803744322091476266288056168419234427734828714796650878323688761147314195320337945435739608625014931725046763647961946827409154670919746078950253766285400939049751533925328897942125306805911441217231697058820719242957288849261048731843598561956228843064317864454820699649642570437479510262963518562988879859145355958370500906108231902642707724699415874569844888533012911838690009691069761546962453306087433796400145904696221237736393494827461208210425456085981933399101780968295268581972050137723712340768488001801821234252523732806485061554311128520425219051746653745948413939992163099073226045966505246387994239514193086572002964919123025530992554902430033956306842668739688121210926800835447963955453867521012699183154339300317242848335362559582836952208501284095455005165298920119879888984214042787826341676783308278299829486332632316911180348520274966911659666511696215463459162646194805853913038083384552962689531816378339363613781459546668109952334141237510546577287955217176404033982431187801270515819117179748290716316894675233245126047597943603027872829213525412398340373357081508174830907888772052033538102795912913636613872537006688133389009996792736317770

/-- Minimax value table for root symbol O. -/
def tOval : Nat := 1084001396701006093232227808952794036474128226952516994384258507768140566712951294058780242546394320198619281186737958819024515044816024075340105117505806017499060262321934215204042700226200546943241573448504981002949415134403830823476545451189176720766375681426312295655503435966177708731292033406512763642024471301083041725636508110574521072095365282482676339291638774326159937348633728221403312566843824831425168574108567084515439430426954624151505848111885202432640170942304878725865735520941728603131338548009749033610859441972821680599185173632335877398496461699632961974892738321748577339121810736750087032268138948169514766239823321214155239290373328368028118690492023832524704276762608894418017761020531303124547756572310480824488125930206684103349025213821449234204993681557583247376179911779985900982587755860016216295242862757012908995247854270626313975798888264827303956716923437318069642464705100452380255155222050835577858649582898932037010962746961451326279183489103715159203278521120487257494409161531546098116378276893902433332685637619654004223724765348842245537821141144885008938193463031585418237429225091662400445840932627144460777234161658319263159102067776453665723759505389088106222677634067436553891646774578666499887910790963371251697756555668274809531221111687908749517389192309019352651043079429832320259627647144691732798795175559199186558970349794587350938925371773813286036932383966275193766153238636853101228463300959086030166606530457013395034855661754283106426488470266046079351673335643445404255876040117786068168832922227996152194221141769658098643662960989505237037783311998893941079568298062551499952192262832602407885765762850259842632050777090412875630811422337446342993247821267199890391963792217841976858405391631250429114658467405040119739532105548258558909315379148908920648402856201414076150421627937873056255611936706407337125368790064656389679931947926921171648020460201526988478252055362160221316132226671567155151288941368300276719514232457353067484653038911128516117699015275514976495090432923265207134226061923675371917363349143579035648661772843164639995702726444287612797044103298612156728072814279587280003821087996221487960260494419475429141959763586215073388296375132812761754400726695963995911680625027621099540457190355495737165442486903101917852071751735291171732425387689937101730107091223264260900098905597448392582975938259894020453601007751098833554434968042660209661808571020977406001703519562161040314162605940321395871287558622110604221061296144236672225865918395706423534482676962013326784700300461793788801494116598486970513571055240698071111919102670737960164489917316458261792613125802675350077130522643137332854594902601844850772882842410461114396631332701474690532355018803432747528065343149118823414518716073992526671372143873590954793611136656268552756000487645710804581327145799461627148795024234866685235078627595348428201559875682547169347629454754327702375854927411995315211200594927978913697218156934189679287262649460138123125836936245665059006342906096049905079868847083509548167873914650731316775277473146932274924168504126648705578632523345575677479561834796315228914646216942857141693081971243987708010699810033099852857771176177799716369145031186943466616378267225982899278142783443199574102086978536711395568803476339106004532197898760949729104280742424935148855209638415235015456287808799345413728825739992078010687763673745002947055788970697635108799576071775394086570757673652209209599861743222114813715389488389220154610583501829742410538942024914765395399464603298530196577267354089311960309427334824811344249059830984755822349637033463945165680356859327247632979010057076046159413577346198483652456600773381095338965682429647795858278982455447177399398354172929837015436368783206600035802026069573070650127207296939153908619186185032753397464148773970919815600091437035074788344637828078540839005926554563692207922776889337199483198929661836117580551285981742309513805159446077422651086570180635831117481269009111279723653489329979435361477494106984580428416767223866088886551070357402483059481843798273694078467032219043052516912619622461769772999633378269356832400423891379886201261878248441696062118335214914977964626846500587669124896563074863211764176400713963940959970638429167715577623158222728185675319886412164902891732234914534400577245151105810047170169410156237816497692612449676996256217151482785873026327929294349723792562234799302312355386786961582999261103233903630259894938172133011659431703202191418398657822992426804728066544973082948306619622941256976024683114370402979073124325898796160987987465055532391347177533641856825816296687377470237375014239617975344539170815807055826158780698430869501363825616780647559149287809880780356189011713140658215489222654980636818761569047202181101318328729461608241836535824399729553342685507408090485389533362773648004179889265295277501603800384035662336831095123231808287671624261784408444743243198693771449547351093128011285095234828816881702324244823387207016452303593597647063309843227751008914780578610521279078988880258036270219470807260249862362244000152312529385558697417940385751526334307121749817275871931715710421774314218692761813104628230897844748837086143251649408189892009397916215335663268286323739936226384240840823682937867596546205168572195367959318096925288154704189794901504957352591990188754494159926982339527418127922572565511776593857824051241785618242489246549797628481183146884802839816175024583933970414388752200359387075747992161126922590770763042100777923082995577045268621401776112184395137968519094200668665014491665715348695734979623545064290861289929681281829943575590525924413629383912822976844673956527062674959458086793711439240203794195421454791227825013616230606011669862133848193073340443774652493935857017767255424340539126065612684925398958541137437573337700310629256320154686082220207255888956328244997044774844790860805939095064755909464690171926031186083062834489879181190024795741192473641832076771830723466388837012268568353512190914792256747463719376886556288704368336099019123135988266234826544352047121888193032541843205371289177115859659786303047428815598008537304279152936542624726933987040839372884879423011891113891981067973226827508760570522176973479502073110942423620078377183686169431673982384181396220451303386499617704910126456392067897972826331583383377455945805912452607143417868524302423212126092434932062949304290409727167297172301499060437497143518373319181552434098829970954772094941120198331926669043956664613447820667540810185387830014454753945347374895930987118189475377390314866215712914966317393131923269359243041107248706570094843146033018744996562357438551083738507206112076152004678796238629755814620859090004766762772860542196673776448060165726775936516652815365865730690444147560298289073212232418990470191672105868150519483402313738368409168992108444268892062986100676328601905602483406930061998542559931126445681776196820078047679710284626751157155134611505757416880883043760641167278508382668299439245283073717154900897722222614451812797694868816090322497504674410680671954703555866504548763592177596766469294739924355089031861901919235317234965491651186565216128815154890894298489318629200114890351619978953029693170128410004249905386732917958058520787745418407724269323431020972972637134440342313579209160835599732200875704794429951452522899620763859457577896613101427988921078819555622145444683783767882088187810502147849766791375743941904815908124526242721240716677622845609992953780105644329684468371280115708024283550670408859738473460698348357809715220565975163487342254429169173817293446181189857105959132096174664847035965644973045332783406366684444618556572337588753686877377454335259640575605874318458486781092029718909492381938736145786087024225503920304131566030944539061260053861801494120326883441647239146198564686473522050216572397233120027776818413916079829348799884560931225890488544997912991319014269840438846112381997765853862228442987852709668633623858297274076137292338205443180340588996792255662257097932771884675752770388958838227023674612252450614614241247506755877704735029407931055439849548059434470384497834687008883473412790441647752893344053345023160430246949923205122544809756217981611502158295853187305410010079091215779358890059581670097212448897543985498861761259840911353841197420505348351713863190154547075998831192372490693366057703241031449744420393118506143315973903339715828279399035522321992121040715609886337414779848794961689274163611988044706897133143984700754865964710252812071305526627306879484368492785549246575565389076277143426475878890208807857582928187865076054043363904817917777938743326227686049067489023439212593083871318401941357359061684773150463480562025582751261636496386984726829218040842279280484566013146836783807546121365649413724607650105034847697642775874729011294716868451189228402541650984703254649803399361043304728002316567474157619080225971933111791531278289678809731336154469225889293798049846289220211839972771992575979354772685265158220100020362024668131336631348228690784396575708563480610096956656860986451956499169948737705063985614178227037879469808951955197292885693681274435235339426472934480951731072226010136767222133374957744939119932737629996011283713045039112930141464262977201287068031792903384149687024693632405801357315742724297243505473424000664031572650400190594775561029533819682451596985675272175345274683203988533842470416213025882534117235613669990740260618690877706055823609690945937247148287907440052810985503267742882282628801660053754491070942884591495858290420985811170061150934349979615815593850482787139612013295811513255492792700739683700162694523054300025192198857397955340105834783541038357939785800743120173563250142226098185054873770029021106722485820426522267982701463292227911180508486484246347968818167618810386868424283548163804572042381423557300732229582935641840103029096094366109535540508578474476936498635448235152424318482404465597818523671842427743406002064240379301267081220203855310721832578893473247052742261587129976083177601267117911175604803686410351920107964019296458366290299240303673452795753789233702954601214144567956082686381254734960801565421146431033463879954566947370253495152355411418126907482530828225419647635568929119552424022551691490817833341247179309959993636357149644682717153177792796993974715224057303785355952048000523013927205623671319956057266954608814453269014616897547153720594986638823462176373272925834318175353562690869807633538069473176612376854191333108604393490575379245172451981912943700024090480043319672601318626096589473533175651324142459019494635136537147743676834171941410139097000780187931305318678925637608081505591847036818708957768993802430635061997640483815956971422250602142338139605286981253789526875416693609632899900501727898811116822599325012163925353528035466305806873119553072985666657908600040120942629290419073519819950815531411826917762701765814782471295016547734428920765488762628545356240218835826981341762779814109777582784936911753063409198857014664136931290757335666458937151921319294214132798693180779154362207118882045719464437476420594043282512848986534087443887961827896931903683066669057483262782814564950262273308677197846759359607147026510417735983659415313115466370899434948263484981533854946968964861092547044959220968634644170738853993947110855197351711505983472522581903585787621865413568028691020160479518293657422763778911941143694296007694398307289157675334845558776557346463606774950481450624298607358549317047245923233012537200723014333685040625278243150498044483970792324123974004871667691943206156127715659237726608680786871060648196364166944782451605071946061625761695617136584660861884324558358470666406177062082393957076006260077214745517538868206644098345747167962744792794177634910756841376518968858178138588623550004675425510999139567379918094856500975000745888423823111318606417532431958825513436460491730911848589947030121592583714934175091723122287276652744593443914747819424922543232489289106754853029224452561143105695261987974351264892943439165388428712126770076985211091832708785437396854500596003927617682643614834679318134688576342892395319188039455500738336226905717234269506548189228531549020106985382631039827322606062693424763209144803502583566697381629251227998654147464991700981269852590094448690596808340576570834911586746425556689362873579126891482109138424874705964712474503819595015790229326254586261509818217669119489868991166464766251903903128018525621113464095306963664795819912935563743465443097157495906093696641187763044876747273188078825028167908797780023180587514091052107689656043375105572737874264452414744845918499129792199667723789013783487711213434077841753426407652800997272498236921996283577704958751196962982773729718288728468970715098317286135629975470779296668302721112295645771050357707071795840908976078717918684204712011691669982069290089753087909264012280177637438181784649049592935891109265660054645460646057366814184868811146831854584564660353432080647089626858781425381256173888470197346923265571504140793116179195825304537660690275978617140217062305780023722319456250973454144689522446631922351607076788681680109130765082628904832712933193518764105736308087850028005998958525407526960197303975247294348097680183411665529899814864838552800081107799813321276513150403287411826057179396511078592202115689694923552947016775290503719257354847741256338023834266136406531051897547977406322980081783735541212108586296000007240657702341752150946375773535699628697254839486817671485512220452839821641377127805667350987089469347332343082876899344797308223728704352365038594924844647848699667266410312196771609537577891307199534916620359006473148126035106660423453343396767373591296752852721968016285835916257238994122843433489684408275530775657946607747004635772248898739058521927530505346281739465086381407380517781292228028334400560458162531871599753643045179643718939325161571445267040266786558095818718250225408933010757794801542584289353515583171996127076460944861705822991169998213166009447779714500636866673073945742224118966626845714287789609191983236487012938420464990852512271634701983844068724990032188836032122344032891529778069688773658612195879652314679862818899667542880111507874849026224556367638010126695818707365236625036378028264083565417775221911892718666807798867244047027449203383828966353101593479175480212104698137414980583279144215012089312502514925923623089260860806078315286174380673877137053464376013834643753876577622545500403833835917208627613221319873736915704061598943194251219198408176052170126799865492693284802337755012133861228082397469609385784653108921116996145675847031746818213769074429733242878372121719584069141648063805177480973314407263318458254200422930614119826617044287365981586906082200848869460483589138141114442175781733581237512208923702123201361997024664298989301077937448362587329202986151233267712343995388591212306094933059224763001228207119084843486700243522053964940084824450564471035132473380493916148551138785166742303397967474579622892492215939403370841541051263843658975872452430681012424857104891919308268765815017697310115446192227673781529528263400563507384354948803484227556182184369975945159282566582110948183476905001995819449385217664906161096788751074991952541445005875631881132423015694374228450245634441818330655318300623177910860207923969113884844442344588128764400789855700946432645480343588202557383503704020407149440046746607378562297190780572695643911412419611714869786269989599689931386822762473692739688358636516948922202159468143117210114455086539819882005604899632271709934968180560141087373120128466390677391144672865761408816522174767758940020119120298087148938315049440726148099569801895805952494656917393828052043313732453774806365523726823036082339923916397306934958801334526987829864138952310629646405266876750351843242609576972588348188085036003943570173634997231129398229051601068314226755183440777307548679033229007634122453646080058354139529883320026657938708520711479745725452782635380137798312479690613265543387658554843075223919287607941583121540186848830421673818165480666697569740388673259760079828169337724001157216473635036190057303541711114036681684849756256207442525610625664559049288182972912294892767971328952930537777129063855396008780258680572245203444753758540968198385417057983953776157463849323516514751389826861872474797817631992762356635369204160950910807611107954818955181584729208148636034799320188491274009439015859049148081767133327409770902227051072957549483518703989236004273375313466165720644278854412298524554559925764057406294063313717401985390168268896767249463829208367067130224331339810406007105435891795465860722402487006506630696194314010024148310512355211840806319841837718821053596835562102317503368454070016745358337623884575170880001257466425898511407579421789717214847055026195077588136410964912778338013803162708263498206592409805131566416399792045339859892470847772797206905850453385700517646142176273517955408275269140876832321912675147799123727192079840474841516760859412200117153464694540782373899366572239619068051332408651163271211433523483631407027603503048029828263013910596113740261506631572449430762368527821964411263263299428477757190220406948605939837656585747182686239011021666963701234874831395687417486392235595685295919411008039564986234821466235714568993165269374148870077125580328206863849363526693914808614465138410380830278930648944244116707144309335507449944899595715149664658560986790754666019464404125390380579863459805180834939375728136474651476614356270654913048133741511108608032519580400486917119718237095756334013316238913712228862685004428894038021980142735029311320942968269951058076745453290798019324625564456392310026350260130261636667072705390956228691915888265133106934038488214650207625499948596861219352121546316106739979212119490670505925433929700036270011889455731378855367049234358063835861257177516897279366390884608796922664441969120573501060523388735226085983973855980589142450079553709302449925741055139189902360789865148565164445615481894746709670670099720847725402651203290960803839283532946832713968860007851056937517684837719404676761366887535602183399426109699184150829518067993247994196591486579878434780075688231139256672836791206895443650948763687104094198311728574004327828879712570535069337163765023899818009904221150435794141404989348385177364650181107720298804205345000469971481129607120888445374421630787301318883646626351614539949357518606781618224325517870322261124679651087891965299389812309303049876942676220596230394023981940842183804452994017229593337166534497828500592778897568767382119980925826923103832515589077885322199834570834991098495099366170483365703439288570496170461893781664006877397089531708163001351975941944666760509704440657744683117849547725532313630584282177440805777167738525754513628382827418000914850583134729426350727591101350048889539346719330127749911179658823679506667519131326989817990249549513404628611927873003931489485907231019856510684300164542292172851602838839147853003480535807146233651396841835766857299387655727075710885924695265872384596527699232208396118761448468358579278933513464385078674245305625065145313368864089256557895630803409245958940988405852096993768908205956827258688054093916377128404156287885358943166016068921859137280943862562753625090626737875942657832348102911637353662123686884761031066273421543035875412447663121296233271064720810468882551668877821266961765080163855813479778596977925824787550085668766486198910536067769228456611058430663872939111829377822108291344755165839223073311193629176892815452757861170785694533598908742664328741434789225546860994784820264353168884092301533605363658419155383085613302521988572311239971977693896370275332752365452516526170324292861898588557748613892803300691449516175636600233365955667475848784244046364378602541084789526837712863104707640604788862802315688201715221550217762300157722442655597902127577295175095078330285608818389039444616257559743476209245009092387665900083979921266601649814369971863584827816783594221241389503609302556003773029371528172463970592955606313722847492906226775752088585962858547373725527516113658904275007449024201018415214471370477113923711683049445666162526618301703104412175259216271781556267330545203995567366018407737521236279703913306491129524915265137586200823111382352240757900946311994951263182434267056527789432969534762047552816301271633019722343213478420505515683277369107438997756627218425446126888563758881664350137031106499383093122151957426046557805135951906415507071985542769553902753064912731466390111145626573350126171508437448997594389561725935851862099582360428483225016690584570103276809411611838140578088765206619646490473846897516711150048514105150172603470283820621451927423469247821204607699726700146673060461247578908687808054668595910762480919405391708497198589616769247132618298470750898822022919643763709190652451376966992779758941294222333719610544740303287545589779481351736777112868592092877598037415234519141301693140865053883661299702979542384646301226028586332440426217951687513367218892472154422061111207574515920436443796256665079475888318891460455457329458366268322636993683942640732505202759046414560514051394834854611613204493837831644130659176987051493221244177868177310200904400233466027397767445414920664464966519844622467121690249338498021716928803465636032151120688190874076498583460175037984672059960106567285342039140437336643288574091716703812436958322039168227549821806662847802041905658837759455845832203528535890727701879657544657894584794193978262907379912645505819842911821334236804662978677482868956906430961558393750510256421007435631038918156295295604636114383471759383565345014623674471905884813526262113341251815150436492308178922258302521958026978090240603248027200199588222420542325524233816265902651171835073807343522593281495110379579240412309299856784376063013431610812917255695378488539450651305020886137893611276717717388998707551834775904231044869040402102028410561046850859255604172173894964923142528670895479553010611793759071911157620507033139509260270129451696725237179807562485172115391745452951251603858725102457750591154720755393703269746195067605191019148502005722347712780688354481134846279514309080632190544785559732794506924602252784160577856701271009496885748089497261875544757879857078685387856361806464762956437581596337785116605671678150531163636360325837542068039526459139787979666004768355668435199364665651749962614081843704852145874252853139124349392520310021944370692713600733857598372643830741761625403048485851928332289176421571156540551957405461994837179069939380486525222573136051028947358297096316917903199399749815170636032062482796274740981219106895414617515364550495463617882264005187369540078128285137492285656753801383334921619439182571518940383373703141029131650477693196191396207694088715453545711377420158209294979758732250870304181357904777585944639751227714870774817778294808744073392239897772564996937613027136554749545805343623456126304526967333771030842635584175187996203999144341998684499436148266965829418735987256820272326233544175351803275822087362486170598912664294353766101344759897427469689423880601609602332705677634982114491934719938020361178465551449802027178771237233680497880242864918654477769435465273272474510207475876949506671122271270138703362320961203470320933357054130243523089574386340488688240636761377015658822687222258604768327791457740222832199013840134023943709758797364232365761642222856179031300533002516070496465002634546022997824258525482204492891091150613582081213866286411745606018681540422220868978557197683316107699406599182259099887255899249754462745199314245789076191898367800180721518052887119564847792568043671365190093047177562374398162115342692655298374809293499128975261570576633572809952685344147446303726700628626777512135093596364667455770506767809490354868568283489287933791845884717502397194537968270886118427050328658848468599099085739793209031125080329441189591801104477341511731834198318091748823177876515829521171077976081743138906294558707192890070215441472076118525756628089723394019742214789331751060460081058875488532044630357279622611452871419284003002821805663033968349189235592331309531855124154453588558485263377070242085815252769923544758343177147071032187284687352432325146569380838431017228749302026010868053010467497492993346459518689543065701134197517836895272198209930315044386742101310164184395910204171743716269827460388673537866407489636063225241975961954902768925842466293883855605229598606758749809192873585061010324201413341827323851044657575034833747623632496212119022412431656876586917765029389097617174280413847629156171528469797117380855802072982943999785546941958361458478718695249567127155305427609117323630551069518071282840365215413737241508034675240378071177038937654125239951445149249373723111638118541587496574935852875130224066303911942098708924456522281284249619105135413389639788615301911990356572124058473811812319356250429967211335096331008220708449375236150344073221895539035768462637399959636274314684609515840360288786673271981152183753480446049817018512011960590490748163933047378461713471192337886809533662070703892429988726652018378656371016380816390160707233949479277604940628495699118781631368267384200429625438318554534668750255831493002150241103492075044120612779700373767895900744735186699638355165380668190901826672683700643111835644509262169175118347194508275903963034696580489709757289900787008433653921821724677826303240459662926649386081469429539294868443926957339608693256881823603614173384275256281945026510051116198615957718331709320257414853169603856293085405791561895033088223688274624806244594146444280783601407533688171682529348017835287991660286303942597542151658132120851151475717096887827952318385114006814340193797318353474546070243469733585892078153373805702683557536218791027097205722425679426943753933832809962099776904642108392923443597055010598540216155822853384653749461197471664448128997394866136106643033908335868019426806690805537474172627397902657740055385364697086611201713633301287810752002926627250983950946033478971293801504003210885709182946300725815516122436193472051836477666831020386978726231940091139266904891056992935218893705844515544847227860059678208621539652631193815611315909901090957562919451527125259686718898287402452700005916429559802450216134465560699982929195420944495216897538399953833420761633901624303757363582625413132208654874107650297258469379207924609630834237633069469887121561839556180669870126472132737362146502711538807438743448959411585565846860685582501166967664560262914197030775054275590182176772035448752986919455803468426824775179839780641587414423822115960643784763247784050055717228861098246670880111768784212031934250660967812006807590995235019009696567162551439908487468317817941568608695358196195217902293268174991511090325746840477389555502425595239910529024125496102060920022010295859512187048661150224655715841172824566140060997998855773240937938029272133642662761251109312257649448368332636495673954542252688877267477611722187905773551449938880312478604926924920941566501759017681601691202314123816431979237370624118906675043688581011208363306410426432658459416533768118936030698579153093632176826492139836827488495990993963038955881965713079251792711377368105651192596290724424883103323064973107364647714405513512325777135589299655694316965352900021358579375183954153973597514233588705408689002556020618590683667400712377673225513129520760022356946246388430974251921268846662458750084767704198547520423308742957768928394925292633146201825206025698022972137629502178707122108833642578671365361489423402905306276992206181351512643887362691792469770009376228760185755514472150988678494714572643804146866904637732384083186842236013136712598500178947594227192745113621510871577917835695375013731418696747052387323307228114446373704421813207667692138210866806824523111171349979108698805111166738255001935547814373245081940290866065775762636013518842979872149837146910656035350321989381763809485557316391814345723437830283815453525492163838655227708003156511793127558114820136903436259847833841420977688052256553874977798436679846429565734043417973485834512628291814323400320191617342596117694046693489261836875129962336583413321403684109001293873632877440548334785676143531717340422526106892893159238362037066507361784910139373768755578374746672965745951765582192626583251953786153518754662935752482486268763610075790890983616223547736655626614650637278231167719682077675977715814282970975618528675240001902249028168437667394546588986050454316728562975075866183517128915373302546673748179178408581439972444424404108644764389113098009979880510403159306566083499726135227393948372683435574368941321951493902232801636901795174358559527304489478284343229664278651142269392141220654823077937590437446926471512152516775509425987579617014226160696774010893384696279424309802781396671716070233156451236632961326691030216398061958410223389097318566199049052785475302804978021763061590400342907911947959075335828685053437679199401068381995470062739409497243709022286832788735747502306295221685319899284278781351552353589145782337982233889095219625014018265579752049817814408686610933646368691496650093903099826308468652237136287048176907089347553510003918594698939525125974162279782908816684144250916795223581848053324238134851469807145015071829215397914568717510845270330997251051880847128089927680330

theorem checkRange_add (tX tO m n bb : Nat) :
    checkRange tX tO (m + n) bb = (checkRange tX tO m bb && checkRange tX tO n (bb + m)) := by
  induction m generalizing bb with
  | zero =>
    simp [checkRange]
  | succ m ih =>
    have h1 : m + 1 + n = (m + n) + 1 := by omega
    rw [h1, checkRange, ih (bb + 1), checkRange, Bool.and_assoc]
    have h2 : bb + 1 + m = bb + (m + 1) := by omega
    rw [h2]

theorem checkRange_all (tX tO : Nat) :
    ∀ n bb, checkRange tX tO n bb = true → ∀ j, j < n → checkStep tX tO (bb + j) = true := by
  intro n
  induction n with
  | zero =>
    intro bb h j hj
    omega
  | succ n ih =>
    intro bb h j hj
    rw [checkRange, Bool.and_eq_true] at h
    rcases j with _ | j
    · simpa using h.1
    · have hx := ih (bb + 1) h.2 j (by omega)
      have harith : bb + 1 + j = bb + (j + 1) := by omega
      rwa [harith] at hx

theorem checkChunk0 : checkRange tXval tOval 500 0 = true := by rfl

theorem checkChunk1 : checkRange tXval tOval 500 500 = true := by rfl
theorem checkChunk2 : checkRange tXval tOval 500 1000 = true := by rfl

theorem checkChunk3 : checkRange tXval tOval 500 1500 = true := by rfl

theorem checkChunk4 : checkRange tXval tOval 500 2000 = true := by rfl

theorem checkChunk5 : checkRange tXval tOval 500 2500 = true := by rfl

theorem checkChunk6 : checkRange tXval tOval 500 3000 = true := by rfl

theorem checkChunk7 : checkRange tXval tOval 500 3500 = true := by rfl

theorem checkChunk8 : checkRange tXval tOval 500 4000 = true := by rfl

theorem checkChunk9 : checkRange tXval tOval 500 4500 = true := by rfl

theorem checkChunk10 : checkRange tXval tOval 500 5000 = true := by rfl

theorem checkChunk11 : checkRange tXval tOval 500 5500 = true := by rfl

theorem checkChunk12 : checkRange tXval tOval 500 6000 = true := by rfl

theorem checkChunk13 : checkRange tXval tOval 500 6500 = true := by rfl

theorem checkChunk14 : checkRange tXval tOval 500 7000 = true := by rfl

theorem checkChunk15 : checkRange tXval tOval 500 7500 = true := by rfl

theorem checkChunk16 : checkRange tXval tOval 500 8000 = true := by rfl

theorem checkChunk17 : checkRange tXval tOval 500 8500 = true := by rfl

theorem checkChunk18 : checkRange tXval tOval 500 9000 = true := by rfl

theorem checkChunk19 : checkRange tXval tOval 500 9500 = true := by rfl

theorem checkChunk20 : checkRange tXval tOval 500 10000 = true := by rfl

theorem checkChunk21 : checkRange tXval tOval 500 10500 = true := by rfl

theorem checkChunk22 : checkRange tXval tOval 500 11000 = true := by rfl

theorem checkChunk23 : checkRange tXval tOval 500 11500 = true := by rfl

theorem checkChunk24 : checkRange tXval tOval 500 12000 = true := by rfl

theorem checkChunk25 : checkRange tXval tOval 500 12500 = true := by rfl

theorem checkChunk26 : checkRange tXval tOval 500 13000 = true := by rfl

theorem checkChunk27 : checkRange tXval tOval 500 13500 = true := by rfl

theorem checkChunk28 : checkRange tXval tOval 500 14000 = true := by rfl

theorem checkChunk29 : checkRange tXval tOval 500 14500 = true := by rfl

theorem checkChunk30 : checkRange tXval tOval 500 15000 = true := by rfl

theorem checkChunk31 : checkRange tXval tOval 500 15500 = true := by rfl

theorem checkChunk32 : checkRange tXval tOval 500 16000 = true := by rfl

theorem checkChunk33 : checkRange tXval tOval 500 16500 = true := by rfl

theorem checkChunk34 : checkRange tXval tOval 500 17000 = true := by rfl

theorem checkChunk35 : checkRange tXval tOval 500 17500 = true := by rfl

theorem checkChunk36 : checkRange tXval tOval 500 18000 = true := by rfl

theorem checkChunk37 : checkRange tXval tOval 500 18500 = true := by rfl

theorem checkChunk38 : checkRange tXval tOval 500 19000 = true := by rfl

theorem checkChunk39 : checkRange tXval tOval 183 19500 = true := by rfl

theorem checkAcc0 : checkRange tXval tOval 500 0 = true := checkChunk0

theorem checkAcc1 : checkRange tXval tOval 1000 0 = true := by
  rw [show (1000 : Nat) = 500 + 500 from rfl, checkRange_add, checkAcc0,
    Nat.zero_add, checkChunk1]
  rfl

theorem checkAcc2 : checkRange tXval tOval 1500 0 = true := by
  rw [show (1500 : Nat) = 1000 + 500 from rfl, checkRange_add, checkAcc1,
    Nat.zero_add, checkChunk2]
  rfl

theorem checkAcc3 : checkRange tXval tOval 2000 0 = true := by
  rw [show (2000 : Nat) = 1500 + 500 from rfl, checkRange_add, checkAcc2,
    Nat.zero_add, checkChunk3]
  rfl

theorem checkAcc4 : checkRange tXval tOval 2500 0 = true := by
  rw [show (2500 : Nat) = 2000 + 500 from rfl, checkRange_add, checkAcc3,
    Nat.zero_add, checkChunk4]
  rfl

theorem checkAcc5 : checkRange tXval tOval 3000 0 = true := by
  rw [show (3000 : Nat) = 2500 + 500 from rfl, checkRange_add, checkAcc4,
    Nat.zero_add, checkChunk5]
  rfl

theorem checkAcc6 : checkRange tXval tOval 3500 0 = true := by
  rw [show (3500 : Nat) = 3000 + 500 from rfl, checkRange_add, checkAcc5,
    Nat.zero_add, checkChunk6]
  rfl

theorem checkAcc7 : checkRange tXval tOval 4000 0 = true := by
  rw [show (4000 : Nat) = 3500 + 500 from rfl, checkRange_add, checkAcc6,
    Nat.zero_add, checkChunk7]
  rfl

theorem checkAcc8 : checkRange tXval tOval 4500 0 = true := by
  rw [show (4500 : Nat) = 4000 + 500 from rfl, checkRange_add, checkAcc7,
    Nat.zero_add, checkChunk8]
  rfl

theorem checkAcc9 : checkRange tXval tOval 5000 0 = true := by
  rw [show (5000 : Nat) = 4500 + 500 from rfl, checkRange_add, checkAcc8,
    Nat.zero_add, checkChunk9]
  rfl

theorem checkAcc10 : checkRange tXval tOval 5500 0 = true := by
  rw [show (5500 : Nat) = 5000 + 500 from rfl, checkRange_add, checkAcc9,
    Nat.zero_add, checkChunk10]
  rfl

theorem checkAcc11 : checkRange tXval tOval 6000 0 = true := by
  rw [show (6000 : Nat) = 5500 + 500 from rfl, checkRange_add, checkAcc10,
    Nat.zero_add, checkChunk11]
  rfl

theorem checkAcc12 : checkRange tXval tOval 6500 0 = true := by
  rw [show (6500 : Nat) = 6000 + 500 from rfl, checkRange_add, checkAcc11,
    Nat.zero_add, checkChunk12]
  rfl

theorem checkAcc13 : checkRange tXval tOval 7000 0 = true := by
  rw [show (7000 : Nat) = 6500 + 500 from rfl, checkRange_add, checkAcc12,
    Nat.zero_add, checkChunk13]
  rfl

theorem checkAcc14 : checkRange tXval tOval 7500 0 = true := by
  rw [show (7500 : Nat) = 7000 + 500 from rfl, checkRange_add, checkAcc13,
    Nat.zero_add, checkChunk14]
  rfl

theorem checkAcc15 : checkRange tXval tOval 8000 0 = true := by
  rw [show (8000 : Nat) = 7500 + 500 from rfl, checkRange_add, checkAcc14,
    Nat.zero_add, checkChunk15]
  rfl

theorem checkAcc16 : checkRange tXval tOval 8500 0 = true := by
  rw [show (8500 : Nat) = 8000 + 500 from rfl, checkRange_add, checkAcc15,
    Nat.zero_add, checkChunk16]
  rfl

theorem checkAcc17 : checkRange tXval tOval 9000 0 = true := by
  rw [show (9000 : Nat) = 8500 + 500 from rfl, checkRange_add, checkAcc16,
    Nat.zero_add, checkChunk17]
  rfl

theorem checkAcc18 : checkRange tXval tOval 9500 0 = true := by
  rw [show (9500 : Nat) = 9000 + 500 from rfl, checkRange_add, checkAcc17,
    Nat.zero_add, checkChunk18]
  rfl

theorem checkAcc19 : checkRange tXval tOval 10000 0 = true := by
  rw [show (10000 : Nat) = 9500 + 500 from rfl, checkRange_add, checkAcc18,
    Nat.zero_add, checkChunk19]
  rfl

theorem checkAcc20 : checkRange tXval tOval 10500 0 = true := by
  rw [show (10500 : Nat) = 10000 + 500 from rfl, checkRange_add, checkAcc19,
    Nat.zero_add, checkChunk20]
  rfl

theorem checkAcc21 : checkRange tXval tOval 11000 0 = true := by
  rw [show (11000 : Nat) = 10500 + 500 from rfl, checkRange_add, checkAcc20,
    Nat.zero_add, checkChunk21]
  rfl

theorem checkAcc22 : checkRange tXval tOval 11500 0 = true := by
  rw [show (11500 : Nat) = 11000 + 500 from rfl, checkRange_add, checkAcc21,
    Nat.zero_add, checkChunk22]
  rfl

theorem checkAcc23 : checkRange tXval tOval 12000 0 = true := by
  rw [show (12000 : Nat) = 11500 + 500 from rfl, checkRange_add, checkAcc22,
    Nat.zero_add, checkChunk23]
  rfl

theorem checkAcc24 : checkRange tXval tOval 12500 0 = true := by
  rw [show (12500 : Nat) = 12000 + 500 from rfl, checkRange_add, checkAcc23,
    Nat.zero_add, checkChunk24]
  rfl

theorem checkAcc25 : checkRange tXval tOval 13000 0 = true := by
  rw [show (13000 : Nat) = 12500 + 500 from rfl, checkRange_add, checkAcc24,
    Nat.zero_add, checkChunk25]
  rfl

theorem checkAcc26 : checkRange tXval tOval 13500 0 = true := by
  rw [show (13500 : Nat) = 13000 + 500 from rfl, checkRange_add, checkAcc25,
    Nat.zero_add, checkChunk26]
  rfl

theorem checkAcc27 : checkRange tXval tOval 14000 0 = true := by
  rw [show (14000 : Nat) = 13500 + 500 from rfl, checkRange_add, checkAcc26,
    Nat.zero_add, checkChunk27]
  rfl

theorem checkAcc28 : checkRange tXval tOval 14500 0 = true := by
  rw [show (14500 : Nat) = 14000 + 500 from rfl, checkRange_add, checkAcc27,
    Nat.zero_add, checkChunk28]
  rfl

theorem checkAcc29 : checkRange tXval tOval 15000 0 = true := by
  rw [show (15000 : Nat) = 14500 + 500 from rfl, checkRange_add, checkAcc28,
    Nat.zero_add, checkChunk29]
  rfl

theorem checkAcc30 : checkRange tXval tOval 15500 0 = true := by
  rw [show (15500 : Nat) = 15000 + 500 from rfl, checkRange_add, checkAcc29,
    Nat.zero_add, checkChunk30]
  rfl

theorem checkAcc31 : checkRange tXval tOval 16000 0 = true := by
  rw [show (16000 : Nat) = 15500 + 500 from rfl, checkRange_add, checkAcc30,
    Nat.zero_add, checkChunk31]
  rfl

theorem checkAcc32 : checkRange tXval tOval 16500 0 = true := by
  rw [show (16500 : Nat) = 16000 + 500 from rfl, checkRange_add, checkAcc31,
    Nat.zero_add, checkChunk32]
  rfl

theorem checkAcc33 : checkRange tXval tOval 17000 0 = true := by
  rw [show (17000 : Nat) = 16500 + 500 from rfl, checkRange_add, checkAcc32,
    Nat.zero_add, checkChunk33]
  rfl

theorem checkAcc34 : checkRange tXval tOval 17500 0 = true := by
  rw [show (17500 : Nat) = 17000 + 500 from rfl, checkRange_add, checkAcc33,
    Nat.zero_add, checkChunk34]
  rfl

theorem checkAcc35 : checkRange tXval tOval 18000 0 = true := by
  rw [show (18000 : Nat) = 17500 + 500 from rfl, checkRange_add, checkAcc34,
    Nat.zero_add, checkChunk35]
  rfl

theorem checkAcc36 : checkRange tXval tOval 18500 0 = true := by
  rw [show (18500 : Nat) = 18000 + 500 from rfl, checkRange_add, checkAcc35,
    Nat.zero_add, checkChunk36]
  rfl

theorem checkAcc37 : checkRange tXval tOval 19000 0 = true := by
  rw [show (19000 : Nat) = 18500 + 500 from rfl, checkRange_add, checkAcc36,
    Nat.zero_add, checkChunk37]
  rfl

theorem checkAcc38 : checkRange tXval tOval 19500 0 = true := by
  rw [show (19500 : Nat) = 19000 + 500 from rfl, checkRange_add, checkAcc37,
    Nat.zero_add, checkChunk38]
  rfl

theorem tables_pass0 : checkRange tXval tOval 19683 0 = true := by
  rw [show (19683 : Nat) = 19500 + 183 from rfl, checkRange_add, checkAcc38,
    Nat.zero_add, checkChunk39]
  rfl

/-- Every index below 19683 passes the table consistency check. -/
theorem tables_pass : ∀ m, m < 19683 → checkStep tXval tOval m = true := by
  intro m hm
  have hx := checkRange_all tXval tOval 19683 0 tables_pass0 m hm
  simpa using hx

/-- The value table used by a bot with the given root symbol. -/
def tblFor (sym : Cell) : Nat := if sym = Cell.X then tXval else tOval

/-- The symbol to move on a board, determined by the mark counts. -/
def toMoveCell (b : Board) : Cell :=
  if cntd (encBoard b) 1 = cntd (encBoard b) 2 then Cell.X else Cell.O

/-- Count consistency: X has moved as often as O or once more. -/
def ConsB (b : Board) : Prop :=
  cntd (encBoard b) 1 = cntd (encBoard b) 2 ∨ cntd (encBoard b) 1 = cntd (encBoard b) 2 + 1

theorem consB_bool (b : Board) (h : ConsB b) : consistentB (encBoard b) = true := by
  unfold consistentB
  rcases h with h | h <;> simp [h]

theorem toMoveB_code (b : Board) : toMoveB (encBoard b) = cellCode (toMoveCell b) := by
  unfold toMoveB toMoveCell
  rcases hb : Nat.beq (cntd (encBoard b) 1) (cntd (encBoard b) 2)
  · rw [if_neg (by simpa using Nat.ne_of_beq_eq_false hb)]
    rfl
  · rw [if_pos (Nat.eq_of_beq_eq_true hb)]
    rfl

theorem toMoveCell_isMark (b : Board) : isMark (toMoveCell b) = true := by
  unfold toMoveCell
  split <;> rfl

theorem toMoveCell_validCell (b : Board) (a c : Nat) : validCell a c (toMoveCell b) := by
  unfold toMoveCell
  split
  · exact Or.inl rfl
  · exact Or.inr (Or.inl rfl)

theorem decodeEval_none (e : Nat) (h : decodeEval e = none) : e = 0 := by
  unfold decodeEval at h
  by_cases he : e = 0
  · exact he
  · rw [if_neg he] at h
    cases h

theorem decodeEval_some (e : Nat) (s : Int) (h : decodeEval e = some s) :
    e ≠ 0 ∧ scoreInt e = s := by
  unfold decodeEval at h
  by_cases he : e = 0
  · rw [if_pos he] at h
    cases h
  · rw [if_neg he] at h
    injection h with h
    exact ⟨he, h⟩

theorem scoreOf_decode (e : Nat) : scoreDecode (scoreOf e) = scoreInt e := by
  unfold scoreOf scoreDecode scoreInt
  rcases h1 : Nat.beq e 1
  · rcases h2 : Nat.beq e 2
    · rw [if_neg (by simpa using Nat.ne_of_beq_eq_false h1),
        if_neg (by simpa using Nat.ne_of_beq_eq_false h2)]
      rfl
    · rw [if_neg (by simpa using Nat.ne_of_beq_eq_false h1),
        if_pos (Nat.eq_of_beq_eq_true h2)]
      rfl
  · rw [if_pos (Nat.eq_of_beq_eq_true h1)]
    rfl

theorem emptiesN_ne_of_not_full (n : Nat) (h : fullN n = false) : emptiesN n ≠ [] := by
  intro he
  unfold emptiesN at he
  rw [List.filter_eq_nil_iff] at he
  have hk : ∀ k, k < 9 → Nat.beq (dig n k) 0 = false := by
    intro k hk9
    exact Bool.eq_false_iff.mpr (he k (List.mem_range.mpr hk9))
  have hfull : fullN n = true := by
    unfold fullN
    rw [hk 0 (by omega), hk 1 (by omega), hk 2 (by omega), hk 3 (by omega), hk 4 (by omega),
      hk 5 (by omega), hk 6 (by omega), hk 7 (by omega), hk 8 (by omega)]
    rfl
  rw [hfull] at h
  cases h

theorem firstNZ_zero_right (a b : Nat) (h : firstNZ a b = 0) : b = 0 := by
  unfold firstNZ at h
  rcases hb : Nat.beq a 0 <;> rw [hb] at h
  · exact absurd h (Nat.ne_of_beq_eq_false hb)
  · exact h

theorem evalN_zero_not_full (sym n : Nat) (h : evalN sym n = 0) : fullN n = false := by
  unfold evalN at h
  have h1 := firstNZ_zero_right _ _ h
  have h2 := firstNZ_zero_right _ _ h1
  have h3 := firstNZ_zero_right _ _ h2
  have h4 := firstNZ_zero_right _ _ h3
  have h5 := firstNZ_zero_right _ _ h4
  have h6 := firstNZ_zero_right _ _ h5
  have h7 := firstNZ_zero_right _ _ h6
  have h8 := firstNZ_zero_right _ _ h7
  rcases hf : fullN n
  · rfl
  · rw [hf] at h8
    cases h8

theorem scoreDecode_natMax (a b : Nat) :
    max (scoreDecode a) (scoreDecode b) = scoreDecode (natMax a b) := by
  unfold natMax scoreDecode
  rcases hb : Nat.ble a b <;> simp only [cond_false, cond_true]
  · have h : ¬ a ≤ b := fun hle => by rw [Nat.ble_eq_true_of_le hle] at hb; cases hb
    omega
  · have h := Nat.le_of_ble_eq_true hb
    omega

theorem scoreDecode_natMin (a b : Nat) :
    min (scoreDecode a) (scoreDecode b) = scoreDecode (natMin a b) := by
  unfold natMin scoreDecode
  rcases hb : Nat.ble a b <;> simp only [cond_false, cond_true]
  · have h : ¬ a ≤ b := fun hle => by rw [Nat.ble_eq_true_of_le hle] at hb; cases hb
    omega
  · have h := Nat.le_of_ble_eq_true hb
    omega

theorem foldl_max_comm (t : List Nat) (a : Nat) :
    (t.map scoreDecode).foldl max (scoreDecode a) = scoreDecode (t.foldl natMax a) := by
  induction t generalizing a with
  | nil => rfl
  | cons h tl ih =>
    simp only [List.map_cons, List.foldl_cons]
    rw [scoreDecode_natMax]
    exact ih (natMax a h)

theorem foldl_min_comm (t : List Nat) (a : Nat) :
    (t.map scoreDecode).foldl min (scoreDecode a) = scoreDecode (t.foldl natMin a) := by
  induction t generalizing a with
  | nil => rfl
  | cons h tl ih =>
    simp only [List.map_cons, List.foldl_cons]
    rw [scoreDecode_natMin]
    exact ih (natMin a h)

theorem maxList_commute (l : List Nat) (h : l ≠ []) :
    maxList (l.map scoreDecode) = scoreDecode (maxListN l) := by
  cases l with
  | nil => exact absurd rfl h
  | cons a t => exact foldl_max_comm t a

theorem minList_commute (l : List Nat) (h : l ≠ []) :
    minList (l.map scoreDecode) = scoreDecode (minListN l) := by
  cases l with
  | nil => exact absurd rfl h
  | cons a t => exact foldl_min_comm t a

theorem marks_beq_iff (a b : Cell) (ha : isMark a = true) (hb : isMark b = true) :
    (Nat.beq (cellCode a) (cellCode b) = true) ↔ a = b := by
  rcases a <;> rcases b <;> first
    | (exact Bool.noConfusion ha)
    | (exact Bool.noConfusion hb)
    | (simp [cellCode])

theorem setCell_valid_count (b : Board) (hv : ValidBoard b) (i j : Nat) (hi : i < 3)
    (hj : j < 3) (hc : isMark (getCell b i j) = false) (m : Cell) (hm : isMark m = true)
    (hvcm : ∀ a c : Nat, validCell a c m) :
    ValidBoard (setCell b i j m) ∧ countMarks (setCell b i j m) = countMarks b + 1 := by
  obtain ⟨c00, c01, c02, c10, c11, c12, c20, c21, c22, rfl⟩ := board_cells b hv.1 hv.2.1
  exact setCell_effect c00 c01 c02 c10 c11 c12 c20 c21 c22 m i j hi hj hc hm hvcm hv.2.2

theorem minimax_eval_some (sym : Cell) (fuel : Nat) (b : Board) (symbol : Cell) (s : Int)
    (he : MinimaxBot.evaluate sym b = some s) :
    MinimaxBot.minimax sym fuel b symbol = s := by
  cases fuel with
  | zero => rw [MinimaxBot.minimax, he]
  | succ f => rw [MinimaxBot.minimax, he]

theorem lookup_eq (hT : ∀ m, m < 19683 → checkStep tXval tOval m = true)
    (sym : Cell) (hsym : sym = Cell.X ∨ sym = Cell.O) (b : Board) (hcons : ConsB b) :
    lookupT (tblFor sym) (encBoard b) =
      cond (Nat.beq (evalN (cellCode sym) (encBoard b)) 0)
        (cond (Nat.beq (toMoveB (encBoard b)) (cellCode sym))
          (maxListN ((emptiesN (encBoard b)).map
            (fun k => lookupT (tblFor sym) (encBoard b + toMoveB (encBoard b) * 3 ^ k))))
          (minListN ((emptiesN (encBoard b)).map
            (fun k => lookupT (tblFor sym) (encBoard b + toMoveB (encBoard b) * 3 ^ k)))))
        (scoreOf (evalN (cellCode sym) (encBoard b))) := by
  have hcs := hT (encBoard b) (encBoard_lt b)
  unfold checkStep at hcs
  rw [consB_bool b hcons] at hcs
  simp only [cond_true] at hcs
  have hchk : chk (tblFor sym) (cellCode sym) (toMoveB (encBoard b)) (encBoard b) = true := by
    rw [Bool.and_eq_true] at hcs
    rcases hsym with rfl | rfl
    · exact hcs.1
    · exact hcs.2
  unfold chk at hchk
  exact Nat.eq_of_beq_eq_true hchk

theorem minimax_lookup_aux (hT : ∀ m, m < 19683 → checkStep tXval tOval m = true)
    (sym : Cell) (hsym : sym = Cell.X ∨ sym = Cell.O) :
    ∀ fuel : Nat, ∀ b : Board, ValidBoard b → ConsB b →
      (Game.get_empty_box_positions b).length ≤ fuel →
      MinimaxBot.minimax sym fuel b (toMoveCell b) =
        scoreDecode (lookupT (tblFor sym) (encBoard b)) := by
  have hsymM : isMark sym = true := by rcases hsym with rfl | rfl <;> rfl
  intro fuel
  induction fuel with
  | zero =>
    intro b hv hcons hlen
    have hbr : MinimaxBot.evaluate sym b =
        decodeEval (evalN (cellCode sym) (encBoard b)) :=
      evaluate_evalN sym hsymM { board := b, turn := 0 } hv
    have htab := lookup_eq hT sym hsym b hcons
    rcases he : Nat.beq (evalN (cellCode sym) (encBoard b)) 0
    · rw [he] at htab
      simp only [cond_false] at htab
      have hene := Nat.ne_of_beq_eq_false he
      have hsome : MinimaxBot.evaluate sym b =
          some (scoreInt (evalN (cellCode sym) (encBoard b))) := by
        rw [hbr]; unfold decodeEval; rw [if_neg hene]
      rw [minimax_eval_some sym 0 b (toMoveCell b) _ hsome, htab, scoreOf_decode]
    · exfalso
      have he0 := Nat.eq_of_beq_eq_true he
      have hnf := evalN_zero_not_full (cellCode sym) (encBoard b) he0
      have hneN := emptiesN_ne_of_not_full (encBoard b) hnf
      have hmap := empties_bridge b
      have hzero : Game.get_empty_box_positions b = [] :=
        List.length_eq_zero.mp (Nat.le_zero.mp hlen)
      rw [hzero] at hmap
      exact hneN (hmap.symm.trans rfl)
  | succ f ih =>
    intro b hv hcons hlen
    have hbr : MinimaxBot.evaluate sym b =
        decodeEval (evalN (cellCode sym) (encBoard b)) :=
      evaluate_evalN sym hsymM { board := b, turn := 0 } hv
    have htab := lookup_eq hT sym hsym b hcons
    rcases he : Nat.beq (evalN (cellCode sym) (encBoard b)) 0
    · rw [he] at htab
      simp only [cond_false] at htab
      have hene := Nat.ne_of_beq_eq_false he
      have hsome : MinimaxBot.evaluate sym b =
          some (scoreInt (evalN (cellCode sym) (encBoard b))) := by
        rw [hbr]; unfold decodeEval; rw [if_neg hene]
      rw [minimax_eval_some sym (f + 1) b (toMoveCell b) _ hsome, htab, scoreOf_decode]
    · have he0 := Nat.eq_of_beq_eq_true he
      rw [he] at htab
      simp only [cond_true] at htab
      have hnone : MinimaxBot.evaluate sym b = none := by
        rw [hbr, he0]; rfl
      have hnf := evalN_zero_not_full (cellCode sym) (encBoard b) he0
      have hneN := emptiesN_ne_of_not_full (encBoard b) hnf
      have hbrE := empties_bridge b
      have hEne : Game.get_empty_box_positions b ≠ [] := by
        intro hz
        rw [hz] at hbrE
        exact hneN (hbrE.symm.trans rfl)
      have hmapeq : (Game.get_empty_box_positions b).map
          (fun p => MinimaxBot.minimax sym f (setCell b p.1 p.2 (toMoveCell b))
            (oppSym (toMoveCell b))) =
          (Game.get_empty_box_positions b).map
          (fun p => scoreDecode (lookupT (tblFor sym)
            (encBoard b + cellCode (toMoveCell b) * 3 ^ (3 * p.1 + p.2)))) := by
        apply List.map_congr_left
        intro p hp
        obtain ⟨hp1, hp2, hpe⟩ := empties_mem b hv p hp
        have hcc : cellCode (getCell b p.1 p.2) = 0 := by rw [hpe]; rfl
        have hmf : isMark (getCell b p.1 p.2) = false := by rw [hpe]; rfl
        obtain ⟨hv2, hcnt2⟩ := setCell_valid_count b hv p.1 p.2 hp1 hp2 hmf (toMoveCell b)
          (toMoveCell_isMark b) (fun a c => toMoveCell_validCell b a c)
        have henc2 : encBoard (setCell b p.1 p.2 (toMoveCell b)) =
            encBoard b + cellCode (toMoveCell b) * 3 ^ (3 * p.1 + p.2) :=
          setCell_enc b hv.1 hv.2.1 p.1 p.2 hp1 hp2 hcc (toMoveCell b)
        have hc1 := cntd_setCell b hv.1 hv.2.1 p.1 p.2 hp1 hp2 hcc (toMoveCell b) 1 (by omega)
        have hc2 := cntd_setCell b hv.1 hv.2.1 p.1 p.2 hp1 hp2 hcc (toMoveCell b) 2 (by omega)
        have hcb := hcons
        unfold ConsB at hcb
        have hcons2 : ConsB (setCell b p.1 p.2 (toMoveCell b)) ∧
            toMoveCell (setCell b p.1 p.2 (toMoveCell b)) = oppSym (toMoveCell b) := by
          by_cases hturn : cntd (encBoard b) 1 = cntd (encBoard b) 2
          · have htmX : toMoveCell b = Cell.X := by unfold toMoveCell; rw [if_pos hturn]
            rw [htmX] at hc1 hc2 ⊢
            have hc1x : cntd (encBoard (setCell b p.1 p.2 Cell.X)) 1 =
                cntd (encBoard b) 1 + 1 := hc1
            have hc2x : cntd (encBoard (setCell b p.1 p.2 Cell.X)) 2 =
                cntd (encBoard b) 2 + 0 := hc2
            refine ⟨?_, ?_⟩
            · unfold ConsB
              omega
            · show toMoveCell (setCell b p.1 p.2 Cell.X) = Cell.O
              unfold toMoveCell
              rw [if_neg (by omega)]
          · have htmO : toMoveCell b = Cell.O := by unfold toMoveCell; rw [if_neg hturn]
            rw [htmO] at hc1 hc2 ⊢
            have hc1o : cntd (encBoard (setCell b p.1 p.2 Cell.O)) 1 =
                cntd (encBoard b) 1 + 0 := hc1
            have hc2o : cntd (encBoard (setCell b p.1 p.2 Cell.O)) 2 =
                cntd (encBoard b) 2 + 1 := hc2
            refine ⟨?_, ?_⟩
            · unfold ConsB
              omega
            · show toMoveCell (setCell b p.1 p.2 Cell.O) = Cell.X
              unfold toMoveCell
              rw [if_pos (by omega)]
        have hlen2 : (Game.get_empty_box_positions
            (setCell b p.1 p.2 (toMoveCell b))).length ≤ f := by
          obtain ⟨hlb, hcmb⟩ := empties_length b hv.1 hv.2.1
          obtain ⟨hlc, _⟩ := empties_length _ hv2.1 hv2.2.1
          have hpos : 0 < (Game.get_empty_box_positions b).length :=
            List.length_pos.mpr hEne
          rw [hlc, hcnt2]
          rw [hlb] at hlen hpos
          omega
        have hmm := ih (setCell b p.1 p.2 (toMoveCell b)) hv2 hcons2.1 hlen2
        rw [← hcons2.2, hmm, henc2]
      rw [minimax_step sym (toMoveCell b) f b hv, hnone]
      show (if toMoveCell b = sym then maxList else minList)
          ((Game.get_empty_box_positions b).map
            (fun p => MinimaxBot.minimax sym f (setCell b p.1 p.2 (toMoveCell b))
              (oppSym (toMoveCell b)))) =
        scoreDecode (lookupT (tblFor sym) (encBoard b))
      rw [toMoveB_code b] at htab
      rw [← hbrE] at htab
      simp only [List.map_map] at htab
      have hcomp : ((fun k => lookupT (tblFor sym)
            (encBoard b + cellCode (toMoveCell b) * 3 ^ k)) ∘
          (fun p : Nat × Nat => 3 * p.1 + p.2)) =
          (fun p : Nat × Nat => lookupT (tblFor sym)
            (encBoard b + cellCode (toMoveCell b) * 3 ^ (3 * p.1 + p.2))) := rfl
      rw [hcomp] at htab
      rw [hmapeq]
      have hsplit : (Game.get_empty_box_positions b).map
          (fun p => scoreDecode (lookupT (tblFor sym)
            (encBoard b + cellCode (toMoveCell b) * 3 ^ (3 * p.1 + p.2)))) =
          ((Game.get_empty_box_positions b).map
            (fun p => lookupT (tblFor sym)
              (encBoard b + cellCode (toMoveCell b) * 3 ^ (3 * p.1 + p.2)))).map
            scoreDecode := by
        rw [List.map_map]
        rfl
      rw [hsplit, htab]
      have hgne : (Game.get_empty_box_positions b).map
          (fun p => lookupT (tblFor sym)
            (encBoard b + cellCode (toMoveCell b) * 3 ^ (3 * p.1 + p.2))) ≠ [] := by
        intro hz
        exact hEne (List.map_eq_nil_iff.mp hz)
      by_cases hts : toMoveCell b = sym
      · rw [if_pos hts, maxList_commute _ hgne,
          (marks_beq_iff _ _ (toMoveCell_isMark b) hsymM).mpr hts]
        rfl
      · rw [if_neg hts, minList_commute _ hgne,
          Bool.eq_false_iff.mpr
            (fun htr => hts ((marks_beq_iff _ _ (toMoveCell_isMark b) hsymM).mp htr))]
        rfl

instance (b : Board) : Decidable (ConsB b) := by
  unfold ConsB
  infer_instance

instance (b : Board) : Decidable (ValidBoard b) := by
  unfold ValidBoard
  infer_instance

theorem foldl_natMax_mem (l : List Nat) (a : Nat) :
    l.foldl natMax a = a ∨ l.foldl natMax a ∈ l := by
  induction l generalizing a with
  | nil => exact Or.inl rfl
  | cons h t ih =>
    rw [List.foldl_cons]
    rcases ih (natMax a h) with he | hm
    · rw [he]
      unfold natMax
      rcases hb : Nat.ble a h
      · exact Or.inl rfl
      · exact Or.inr (List.mem_cons_self h t)
    · exact Or.inr (List.mem_cons_of_mem h hm)

theorem maxListN_mem (l : List Nat) (h : l ≠ []) : maxListN l ∈ l := by
  cases l with
  | nil => exact absurd rfl h
  | cons a t =>
    show t.foldl natMax a ∈ a :: t
    rcases foldl_natMax_mem t a with he | hm
    · rw [he]
      exact List.mem_cons_self a t
    · exact List.mem_cons_of_mem a hm

theorem foldl_natMin_le (l : List Nat) (a : Nat) :
    l.foldl natMin a ≤ a ∧ ∀ x ∈ l, l.foldl natMin a ≤ x := by
  induction l generalizing a with
  | nil => exact ⟨le_refl a, fun x hx => absurd hx (List.not_mem_nil x)⟩
  | cons h t ih =>
    obtain ⟨h1, h2⟩ := ih (natMin a h)
    have hble : natMin a h ≤ a ∧ natMin a h ≤ h := by
      unfold natMin
      rcases hb : Nat.ble a h
      · have hno : ¬ a ≤ h := fun hle => by rw [Nat.ble_eq_true_of_le hle] at hb; cases hb
        refine ⟨?_, le_refl h⟩
        show h ≤ a
        omega
      · exact ⟨le_refl a, Nat.le_of_ble_eq_true hb⟩
    simp only [List.foldl_cons]
    refine ⟨le_trans h1 hble.1, ?_⟩
    intro x hx
    rcases List.mem_cons.mp hx with rfl | hx2
    · exact le_trans h1 hble.2
    · exact h2 x hx2

theorem minListN_le (l : List Nat) (x : Nat) (hx : x ∈ l) : minListN l ≤ x := by
  cases l with
  | nil => cases hx
  | cons a t =>
    show t.foldl natMin a ≤ x
    obtain ⟨h1, h2⟩ := foldl_natMin_le t a
    rcases List.mem_cons.mp hx with rfl | hx2
    · exact h1
    · exact h2 x hx2

/-- What `bestBox` returns: the key of an entry whose score is at least
every score in the list. -/
theorem bestBox_spec (scores : List (Nat × Int)) (box : Nat)
    (h : bestBox scores = some box) :
    ∃ r ∈ scores, r.1 = box ∧ ∀ kv ∈ scores, kv.2 ≤ r.2 := by
  cases scores with
  | nil => exact Option.noConfusion h
  | cons b0 rest =>
    obtain ⟨r, pre, post, hfold, hdec, hpre, hpost⟩ := foldl_pick_first_max rest b0
    have hbb : bestBox (b0 :: rest) = some r.1 := by
      show (List.foldl (fun acc kv =>
        match acc with
        | none => some kv
        | some bk => if kv.2 > bk.2 then some kv else acc) (some b0) rest).map Prod.fst =
          some r.1
      rw [hfold]
      rfl
    rw [hbb] at h
    injection h with h
    refine ⟨r, ?_, h, ?_⟩
    · rw [hdec]
      exact List.mem_append_right pre (List.mem_cons_self r post)
    · intro kv hkv
      rw [hdec] at hkv
      rcases List.mem_append.mp hkv with hk | hk
      · exact le_of_lt (hpre kv hk)
      · rcases List.mem_cons.mp hk with rfl | hk2
        · exact le_refl _
        · exact hpost kv hk2

theorem toMoveCell_parity (g : Game) (h1 : cntd (encBoard g.board) 1 = (g.turn + 1) / 2)
    (h2 : cntd (encBoard g.board) 2 = g.turn / 2) :
    toMoveCell g.board = (if g.turn % 2 = 0 then Cell.X else Cell.O) := by
  unfold toMoveCell
  by_cases hp : g.turn % 2 = 0
  · rw [if_pos hp, if_pos (by omega)]
  · rw [if_neg hp, if_neg (by omega)]

theorem consB_of_counts (g : Game) (h1 : cntd (encBoard g.board) 1 = (g.turn + 1) / 2)
    (h2 : cntd (encBoard g.board) 2 = g.turn / 2) : ConsB g.board := by
  unfold ConsB
  omega

theorem empties_mem_intro (b : Board) (i j : Nat) (hi : i < 3) (hj : j < 3)
    (hm : isMark (getCell b i j) = false) : (i, j) ∈ Game.get_empty_box_positions b := by
  unfold Game.get_empty_box_positions
  rw [List.mem_flatten]
  refine ⟨(([0, 1, 2].filter (fun jj => !isMark (getCell b i jj))).map (fun jj => (i, jj))),
    List.mem_map_of_mem _ (by interval_cases i <;> decide), ?_⟩
  exact List.mem_map_of_mem _
    (List.mem_filter.mpr ⟨by interval_cases j <;> decide, by rw [hm]; rfl⟩)

theorem rowcol_of_pos (p1 p2 : Nat) (h1 : p1 < 3) (h2 : p2 < 3) :
    (((Game.get_box_number p1 p2 : Nat) : Int) - 1) / 3 = (p1 : Int) ∧
      (((Game.get_box_number p1 p2 : Nat) : Int) - 1) % 3 = (p2 : Int) := by
  unfold Game.get_box_number
  push_cast
  constructor <;> omega

/-- One step of the self-play driver, with the lets unfolded. -/
theorem selfPlay_step (fuel : Nat) (g : Game) :
    selfPlay (fuel + 1) g =
      match MinimaxBot.move (if g.turn % 2 = 0 then Cell.X else Cell.O) g with
      | none => none
      | some box =>
        match Game.move g (box : Int) with
        | (Except.ok (some o), _) => some o
        | (Except.ok none, g') => selfPlay fuel g'
        | (Except.error _, _) => none := by
  rw [selfPlay]

/-- One step of the bot-versus-opponent driver, with the lets unfolded. -/
theorem runGame_step (botSym : Cell) (fuel : Nat) (g : Game) (ms : List Int) :
    runGame botSym (fuel + 1) g ms =
      if (if g.turn % 2 = 0 then Cell.X else Cell.O) = botSym then
        match MinimaxBot.move botSym g with
        | none => none
        | some box =>
          match Game.move g (box : Int) with
          | (Except.ok (some o), _) => some o
          | (Except.ok none, g') => runGame botSym fuel g' ms
          | (Except.error _, _) => none
      else
        match ms with
        | [] => none
        | m :: rest =>
          match Game.move g m with
          | (Except.ok (some o), _) => some o
          | (Except.ok none, g') => runGame botSym fuel g' rest
          | (Except.error _, _) => none := rfl

theorem child_lookup (hT : ∀ m, m < 19683 → checkStep tXval tOval m = true)
    (sym : Cell) (hsym : sym = Cell.X ∨ sym = Cell.O)
    (b : Board) (hv : ValidBoard b) (hcons : ConsB b)
    (p : Nat × Nat) (hp : p ∈ Game.get_empty_box_positions b)
    (fuel : Nat) (hfl : 8 ≤ fuel) :
    MinimaxBot.minimax sym fuel (setCell b p.1 p.2 (toMoveCell b)) (oppSym (toMoveCell b)) =
      scoreDecode (lookupT (tblFor sym) (encBoard (setCell b p.1 p.2 (toMoveCell b)))) ∧
    ValidBoard (setCell b p.1 p.2 (toMoveCell b)) ∧
    ConsB (setCell b p.1 p.2 (toMoveCell b)) ∧
    countMarks (setCell b p.1 p.2 (toMoveCell b)) = countMarks b + 1 ∧
    encBoard (setCell b p.1 p.2 (toMoveCell b)) =
      encBoard b + cellCode (toMoveCell b) * 3 ^ (3 * p.1 + p.2) ∧
    toMoveCell (setCell b p.1 p.2 (toMoveCell b)) = oppSym (toMoveCell b) := by
  obtain ⟨hp1, hp2, hpe⟩ := empties_mem b hv p hp
  have hcc : cellCode (getCell b p.1 p.2) = 0 := by rw [hpe]; rfl
  have hmf : isMark (getCell b p.1 p.2) = false := by rw [hpe]; rfl
  obtain ⟨hv2, hcnt2⟩ := setCell_valid_count b hv p.1 p.2 hp1 hp2 hmf (toMoveCell b)
    (toMoveCell_isMark b) (fun a c => toMoveCell_validCell b a c)
  have henc2 : encBoard (setCell b p.1 p.2 (toMoveCell b)) =
      encBoard b + cellCode (toMoveCell b) * 3 ^ (3 * p.1 + p.2) :=
    setCell_enc b hv.1 hv.2.1 p.1 p.2 hp1 hp2 hcc (toMoveCell b)
  have hc1 := cntd_setCell b hv.1 hv.2.1 p.1 p.2 hp1 hp2 hcc (toMoveCell b) 1 (by omega)
  have hc2 := cntd_setCell b hv.1 hv.2.1 p.1 p.2 hp1 hp2 hcc (toMoveCell b) 2 (by omega)
  have hcb := hcons
  unfold ConsB at hcb
  have hcons2 : ConsB (setCell b p.1 p.2 (toMoveCell b)) ∧
      toMoveCell (setCell b p.1 p.2 (toMoveCell b)) = oppSym (toMoveCell b) := by
    by_cases hturn : cntd (encBoard b) 1 = cntd (encBoard b) 2
    · have htmX : toMoveCell b = Cell.X := by unfold toMoveCell; rw [if_pos hturn]
      rw [htmX] at hc1 hc2 ⊢
      have hc1x : cntd (encBoard (setCell b p.1 p.2 Cell.X)) 1 =
          cntd (encBoard b) 1 + 1 := hc1
      have hc2x : cntd (encBoard (setCell b p.1 p.2 Cell.X)) 2 =
          cntd (encBoard b) 2 + 0 := hc2
      refine ⟨?_, ?_⟩
      · unfold ConsB
        omega
      · show toMoveCell (setCell b p.1 p.2 Cell.X) = Cell.O
        unfold toMoveCell
        rw [if_neg (by omega)]
    · have htmO : toMoveCell b = Cell.O := by unfold toMoveCell; rw [if_neg hturn]
      rw [htmO] at hc1 hc2 ⊢
      have hc1o : cntd (encBoard (setCell b p.1 p.2 Cell.O)) 1 =
          cntd (encBoard b) 1 + 0 := hc1
      have hc2o : cntd (encBoard (setCell b p.1 p.2 Cell.O)) 2 =
          cntd (encBoard b) 2 + 1 := hc2
      refine ⟨?_, ?_⟩
      · unfold ConsB
        omega
      · show toMoveCell (setCell b p.1 p.2 Cell.O) = Cell.X
        unfold toMoveCell
        rw [if_pos (by omega)]
  have hlen2 : (Game.get_empty_box_positions (setCell b p.1 p.2 (toMoveCell b))).length ≤
      fuel := by
    obtain ⟨hlc, _⟩ := empties_length _ hv2.1 hv2.2.1
    rw [hlc, hcnt2]
    omega
  have hmm := minimax_lookup_aux hT sym hsym fuel _ hv2 hcons2.1 hlen2
  refine ⟨?_, hv2, hcons2.1, hcnt2, henc2, hcons2.2⟩
  rw [← hcons2.2]
  exact hmm

/-- `MinimaxBot.move` computed through the value table: each candidate score
of the search equals the decoded table entry of the child position. -/
theorem botMove_by_table (hT : ∀ m, m < 19683 → checkStep tXval tOval m = true)
    (sym : Cell) (hsym : sym = Cell.X ∨ sym = Cell.O)
    (g : Game) (hv : ValidBoard g.board) (hcons : ConsB g.board)
    (htm : toMoveCell g.board = sym) :
    MinimaxBot.move sym g = bestBox ((Game.get_empty_box_positions g.board).map
      (fun p => (Game.get_box_number p.1 p.2,
        scoreDecode (lookupT (tblFor sym)
          (encBoard g.board + cellCode sym * 3 ^ (3 * p.1 + p.2)))))) := by
  rw [move_eq_bestBox sym g hv]
  unfold moveScores
  congr 1
  apply List.map_congr_left
  intro p hp
  obtain ⟨hmm, _, _, _, henc2, _⟩ := child_lookup hT sym hsym g.board hv hcons p hp 9 (by omega)
  rw [htm] at hmm henc2
  rw [hmm, henc2]

theorem winner_of_high_value (hT : ∀ m, m < 19683 → checkStep tXval tOval m = true)
    (sym : Cell) (hsym : sym = Cell.X ∨ sym = Cell.O)
    (g : Game) (hv : ValidBoard g.board) (hcons : ConsB g.board)
    (hlk : 10 ≤ lookupT (tblFor sym) (encBoard g.board))
    (w : Cell) (hw : Game.get_winner g = some w) : w = sym := by
  have hsymM : isMark sym = true := by rcases hsym with rfl | rfl <;> rfl
  by_cases hws : w = sym
  · exact hws
  · exfalso
    have hev := evaluate_winner_relation sym g
    rw [hw] at hev
    have hev2 : MinimaxBot.evaluate sym g.board = some (if w = sym then (10 : Int) else -10) :=
      hev
    rw [if_neg hws] at hev2
    have hbr := evaluate_evalN sym hsymM g hv
    rw [hbr] at hev2
    obtain ⟨hne, hsi⟩ := decodeEval_some _ _ hev2
    have he2 : evalN (cellCode sym) (encBoard g.board) = 2 := by
      unfold scoreInt at hsi
      by_cases h1 : evalN (cellCode sym) (encBoard g.board) = 1
      · rw [if_pos h1] at hsi
        exact absurd hsi (by decide)
      · rw [if_neg h1] at hsi
        by_cases h2 : evalN (cellCode sym) (encBoard g.board) = 2
        · exact h2
        · rw [if_neg h2] at hsi
          exact absurd hsi (by decide)
    have htab := lookup_eq hT sym hsym g.board hcons
    rw [he2] at htab
    have hval : lookupT (tblFor sym) (encBoard g.board) = 0 := by
      rw [htab]
      rfl
    rw [hval] at hlk
    omega

theorem evalN_zero_of_inprogress (sym : Cell) (hsymM : isMark sym = true) (g : Game)
    (hv : ValidBoard g.board) (hnw : Game.get_winner g = none)
    (hcm : countMarks g.board ≠ 9) :
    evalN (cellCode sym) (encBoard g.board) = 0 := by
  have hev := evaluate_winner_relation sym g
  rw [hnw] at hev
  have hall : (g.board.all (fun row => row.all (fun cell => isMark cell))) = false := by
    rcases hb : (g.board.all (fun row => row.all (fun cell => isMark cell)))
    · rfl
    · exact absurd ((allMarks_iff g.board hv.1 hv.2.1).mp hb) hcm
  have hev2 : MinimaxBot.evaluate sym g.board =
      (if g.board.all (fun row => row.all (fun cell => isMark cell)) then some (0 : Int)
        else none) := hev
  rw [hall] at hev2
  have hev3 : MinimaxBot.evaluate sym g.board = none := by
    rw [hev2]
    rfl
  have hbr := evaluate_evalN sym hsymM g hv
  rw [hbr] at hev3
  exact decodeEval_none _ hev3

theorem lookup_children (hT : ∀ m, m < 19683 → checkStep tXval tOval m = true)
    (sym : Cell) (hsym : sym = Cell.X ∨ sym = Cell.O)
    (b : Board) (hcons : ConsB b)
    (he0 : evalN (cellCode sym) (encBoard b) = 0) :
    lookupT (tblFor sym) (encBoard b) =
      cond (Nat.beq (cellCode (toMoveCell b)) (cellCode sym))
        (maxListN ((Game.get_empty_box_positions b).map
          (fun p => lookupT (tblFor sym)
            (encBoard b + cellCode (toMoveCell b) * 3 ^ (3 * p.1 + p.2)))))
        (minListN ((Game.get_empty_box_positions b).map
          (fun p => lookupT (tblFor sym)
            (encBoard b + cellCode (toMoveCell b) * 3 ^ (3 * p.1 + p.2))))) := by
  have htab := lookup_eq hT sym hsym b hcons
  rw [he0] at htab
  rw [toMoveB_code b] at htab
  rw [← empties_bridge b] at htab
  simp only [List.map_map] at htab
  have hcomp : ((fun k => lookupT (tblFor sym)
        (encBoard b + cellCode (toMoveCell b) * 3 ^ k)) ∘
      (fun p : Nat × Nat => 3 * p.1 + p.2)) =
      (fun p : Nat × Nat => lookupT (tblFor sym)
        (encBoard b + cellCode (toMoveCell b) * 3 ^ (3 * p.1 + p.2))) := rfl
  rw [hcomp] at htab
  rw [htab]
  rfl

theorem postResult_none (G : Game) (h : postResult G = none) :
    Game.get_winner G = none ∧ G.turn ≠ 9 := by
  unfold postResult at h
  rcases hw : Game.get_winner G with _ | w
  · rw [hw] at h
    have h2 : (if G.turn = 9 then some Outcome.tie else none) = none := h
    by_cases h9 : G.turn = 9
    · rw [if_pos h9] at h2
      cases h2
    · exact ⟨rfl, h9⟩
  · rw [hw] at h
    cases h

theorem postResult_some (G : Game) (o : Outcome) (h : postResult G = some o) :
    o = Outcome.tie ∨ ∃ w, Game.get_winner G = some w ∧ o = Outcome.winner w := by
  unfold postResult at h
  rcases hw : Game.get_winner G with _ | w
  · rw [hw] at h
    have h2 : (if G.turn = 9 then some Outcome.tie else none) = some o := h
    by_cases h9 : G.turn = 9
    · rw [if_pos h9] at h2
      injection h2 with h2
      exact Or.inl h2.symm
    · rw [if_neg h9] at h2
      cases h2
  · rw [hw] at h
    have h2 : some (Outcome.winner w) = some o := h
    injection h2 with h2
    exact Or.inr ⟨w, rfl, h2.symm⟩

theorem post_move_facts (hT : ∀ m, m < 19683 → checkStep tXval tOval m = true)
    (sym : Cell) (hsym : sym = Cell.X ∨ sym = Cell.O) (g : Game)
    (hv : ValidBoard g.board) (hcm : countMarks g.board = g.turn)
    (hc1 : cntd (encBoard g.board) 1 = (g.turn + 1) / 2)
    (hc2 : cntd (encBoard g.board) 2 = g.turn / 2)
    (p : Nat × Nat) (hp : p ∈ Game.get_empty_box_positions g.board)
    (hlkc : 10 ≤ lookupT (tblFor sym)
      (encBoard g.board + cellCode (toMoveCell g.board) * 3 ^ (3 * p.1 + p.2))) :
    ValidBoard (setCell g.board p.1 p.2 (toMoveCell g.board)) ∧
    countMarks (setCell g.board p.1 p.2 (toMoveCell g.board)) = g.turn + 1 ∧
    cntd (encBoard (setCell g.board p.1 p.2 (toMoveCell g.board))) 1 = (g.turn + 1 + 1) / 2 ∧
    cntd (encBoard (setCell g.board p.1 p.2 (toMoveCell g.board))) 2 = (g.turn + 1) / 2 ∧
    10 ≤ lookupT (tblFor sym) (encBoard (setCell g.board p.1 p.2 (toMoveCell g.board))) ∧
    ∀ w, Game.get_winner
        (Game.mk (setCell g.board p.1 p.2 (toMoveCell g.board)) (g.turn + 1)) =
      some w → w = sym := by
  obtain ⟨hp1, hp2, hpe⟩ := empties_mem g.board hv p hp
  have hcc : cellCode (getCell g.board p.1 p.2) = 0 := by rw [hpe]; rfl
  have hmf : isMark (getCell g.board p.1 p.2) = false := by rw [hpe]; rfl
  obtain ⟨hv2, hcnt2⟩ := setCell_valid_count g.board hv p.1 p.2 hp1 hp2 hmf
    (toMoveCell g.board) (toMoveCell_isMark g.board)
    (fun a c => toMoveCell_validCell g.board a c)
  have henc2 : encBoard (setCell g.board p.1 p.2 (toMoveCell g.board)) =
      encBoard g.board + cellCode (toMoveCell g.board) * 3 ^ (3 * p.1 + p.2) :=
    setCell_enc g.board hv.1 hv.2.1 p.1 p.2 hp1 hp2 hcc (toMoveCell g.board)
  have ha := cntd_setCell g.board hv.1 hv.2.1 p.1 p.2 hp1 hp2 hcc
    (toMoveCell g.board) 1 (by omega)
  have hb2 := cntd_setCell g.board hv.1 hv.2.1 p.1 p.2 hp1 hp2 hcc
    (toMoveCell g.board) 2 (by omega)
  have hlk2 : 10 ≤ lookupT (tblFor sym)
      (encBoard (setCell g.board p.1 p.2 (toMoveCell g.board))) := by
    rw [henc2]
    exact hlkc
  have hcounts : cntd (encBoard (setCell g.board p.1 p.2 (toMoveCell g.board))) 1 =
      (g.turn + 1 + 1) / 2 ∧
      cntd (encBoard (setCell g.board p.1 p.2 (toMoveCell g.board))) 2 =
        (g.turn + 1) / 2 := by
    by_cases hp0 : g.turn % 2 = 0
    · have htX : toMoveCell g.board = Cell.X := by
        unfold toMoveCell
        rw [if_pos (by omega)]
      rw [htX] at ha hb2 ⊢
      have ha2 : cntd (encBoard (setCell g.board p.1 p.2 Cell.X)) 1 =
          cntd (encBoard g.board) 1 + 1 := ha
      have hb3 : cntd (encBoard (setCell g.board p.1 p.2 Cell.X)) 2 =
          cntd (encBoard g.board) 2 + 0 := hb2
      constructor <;> omega
    · have htO : toMoveCell g.board = Cell.O := by
        unfold toMoveCell
        rw [if_neg (by omega)]
      rw [htO] at ha hb2 ⊢
      have ha2 : cntd (encBoard (setCell g.board p.1 p.2 Cell.O)) 1 =
          cntd (encBoard g.board) 1 + 0 := ha
      have hb3 : cntd (encBoard (setCell g.board p.1 p.2 Cell.O)) 2 =
          cntd (encBoard g.board) 2 + 1 := hb2
      constructor <;> omega
  have hconsG : ConsB (setCell g.board p.1 p.2 (toMoveCell g.board)) := by
    unfold ConsB
    omega
  refine ⟨hv2, by omega, hcounts.1, hcounts.2, hlk2, ?_⟩
  intro w hw
  exact winner_of_high_value hT sym hsym
    (Game.mk (setCell g.board p.1 p.2 (toMoveCell g.board)) (g.turn + 1))
    hv2 hconsG hlk2 w hw

theorem runGame_safe (hT : ∀ m, m < 19683 → checkStep tXval tOval m = true)
    (sym : Cell) (hsym : sym = Cell.X ∨ sym = Cell.O) :
    ∀ fuel : Nat, ∀ g : Game, ∀ ms : List Int, ∀ o : Outcome,
      ValidBoard g.board → countMarks g.board = g.turn →
      cntd (encBoard g.board) 1 = (g.turn + 1) / 2 →
      cntd (encBoard g.board) 2 = g.turn / 2 →
      10 ≤ lookupT (tblFor sym) (encBoard g.board) →
      Game.get_winner g = none → g.turn ≠ 9 →
      runGame sym fuel g ms = some o →
      o = Outcome.tie ∨ o = Outcome.winner sym := by
  have hsymM : isMark sym = true := by rcases hsym with rfl | rfl <;> rfl
  intro fuel
  induction fuel with
  | zero =>
    intro g ms o _ _ _ _ _ _ _ hrun
    exact Option.noConfusion hrun
  | succ f ih =>
    intro g ms o hv hcm hc1 hc2 hlk hnw ht9 hrun
    have hcons : ConsB g.board := consB_of_counts g hc1 hc2
    have htmv : toMoveCell g.board = (if g.turn % 2 = 0 then Cell.X else Cell.O) :=
      toMoveCell_parity g hc1 hc2
    have hcm9 : countMarks g.board ≤ 9 := countMarks_le_nine g.board hv.1 hv.2.1
    have he0 : evalN (cellCode sym) (encBoard g.board) = 0 :=
      evalN_zero_of_inprogress sym hsymM g hv hnw (by omega)
    have htab := lookup_children hT sym hsym g.board hcons he0
    rw [runGame_step] at hrun
    by_cases hmv : (if g.turn % 2 = 0 then Cell.X else Cell.O) = sym
    · rw [if_pos hmv] at hrun
      have htm : toMoveCell g.board = sym := htmv.trans hmv
      rcases hbot : MinimaxBot.move sym g with _ | box
      · rw [hbot] at hrun
        exact Option.noConfusion hrun
      · rw [hbot] at hrun
        have hrun2 : (match Game.move g (box : Int) with
            | (Except.ok (some o), _) => some o
            | (Except.ok none, g') => runGame sym f g' ms
            | (Except.error _, _) => none) = some o := hrun
        rw [botMove_by_table hT sym hsym g hv hcons htm] at hbot
        obtain ⟨r, hrmem, hr1, hrmax⟩ := bestBox_spec _ _ hbot
        obtain ⟨p, hp, hfp⟩ := List.mem_map.mp hrmem
        obtain ⟨hp1, hp2, hpe⟩ := empties_mem g.board hv p hp
        have hEne : Game.get_empty_box_positions g.board ≠ [] := by
          intro hz
          rw [hz] at hp
          cases hp
        rw [htm] at htab
        rw [(marks_beq_iff sym sym hsymM hsymM).mpr rfl] at htab
        simp only [cond_true] at htab
        have hLne : (Game.get_empty_box_positions g.board).map
            (fun q => lookupT (tblFor sym)
              (encBoard g.board + cellCode sym * 3 ^ (3 * q.1 + q.2))) ≠ [] := by
          intro hz
          exact hEne (List.map_eq_nil_iff.mp hz)
        obtain ⟨q, hq, hqv⟩ := List.mem_map.mp (maxListN_mem _ hLne)
        have hqmem : (Game.get_box_number q.1 q.2,
            scoreDecode (lookupT (tblFor sym)
              (encBoard g.board + cellCode sym * 3 ^ (3 * q.1 + q.2)))) ∈
            (Game.get_empty_box_positions g.board).map
              (fun t => (Game.get_box_number t.1 t.2,
                scoreDecode (lookupT (tblFor sym)
                  (encBoard g.board + cellCode sym * 3 ^ (3 * t.1 + t.2))))) :=
          List.mem_map_of_mem _ hq
        have hqle : scoreDecode (lookupT (tblFor sym)
            (encBoard g.board + cellCode sym * 3 ^ (3 * q.1 + q.2))) ≤ r.2 :=
          hrmax _ hqmem
        have hr2 : r.2 = scoreDecode (lookupT (tblFor sym)
            (encBoard g.board + cellCode sym * 3 ^ (3 * p.1 + p.2))) := by
          rw [← hfp]
        have hlkchild : 10 ≤ lookupT (tblFor sym)
            (encBoard g.board + cellCode sym * 3 ^ (3 * p.1 + p.2)) := by
          rw [hr2] at hqle
          unfold scoreDecode at hqle
          omega
        have hbox : Game.get_box_number p.1 p.2 = box := by
          rw [← hr1, ← hfp]
        have hrow : (((box : Int) - 1) / 3).toNat = p.1 := by
          rw [← hbox]
          obtain ⟨ha, _⟩ := rowcol_of_pos p.1 p.2 hp1 hp2
          rw [ha]
          omega
        have hcol : (((box : Int) - 1) % 3).toNat = p.2 := by
          rw [← hbox]
          obtain ⟨_, hb3⟩ := rowcol_of_pos p.1 p.2 hp1 hp2
          rw [hb3]
          omega
        have hrange : ¬((box : Int) < 1 ∨ (box : Int) > 9) := by
          rw [← hbox]
          unfold Game.get_box_number
          push_cast
          omega
        have hocc : isMark (getCell g.board (((box : Int) - 1) / 3).toNat
            (((box : Int) - 1) % 3).toNat) = false := by
          rw [hrow, hcol, hpe]
          rfl
        have hmove := move_eq_ok g (box : Int) hrange hocc
        rw [hmove] at hrun2
        have hpg : postGame g (box : Int) =
            Game.mk (setCell g.board p.1 p.2 (toMoveCell g.board)) (g.turn + 1) := by
          unfold postGame
          rw [hrow, hcol, ← htmv]
        rw [hpg] at hrun2
        have hlkc2 : 10 ≤ lookupT (tblFor sym)
            (encBoard g.board + cellCode (toMoveCell g.board) * 3 ^ (3 * p.1 + p.2)) := by
          rw [htm]
          exact hlkchild
        obtain ⟨hv2, hcm2, hc12, hc22, hlk2, hwin2⟩ :=
          post_move_facts hT sym hsym g hv hcm hc1 hc2 p hp hlkc2
        rcases hpo : postResult (Game.mk (setCell g.board p.1 p.2 (toMoveCell g.board))
            (g.turn + 1)) with _ | o2
        · rw [hpo] at hrun2
          have hrun3 : runGame sym f (Game.mk (setCell g.board p.1 p.2
              (toMoveCell g.board)) (g.turn + 1)) ms = some o := hrun2
          obtain ⟨hnw2, ht92⟩ := postResult_none _ hpo
          exact ih (Game.mk (setCell g.board p.1 p.2 (toMoveCell g.board)) (g.turn + 1))
            ms o hv2 hcm2 hc12 hc22 hlk2 hnw2 ht92 hrun3
        · rw [hpo] at hrun2
          have hrun3 : some o2 = some o := hrun2
          injection hrun3 with hoo
          rcases postResult_some _ _ hpo with hti | ⟨w, hw, ho2⟩
          · left
            rw [← hoo, hti]
          · right
            rw [← hoo, ho2, hwin2 w hw]
    · rw [if_neg hmv] at hrun
      have hto : toMoveCell g.board ≠ sym := by
        rw [htmv]
        exact hmv
      rcases ms with _ | ⟨m, rest⟩
      · exact Option.noConfusion hrun
      · have hrun2 : (match Game.move g m with
            | (Except.ok (some o), _) => some o
            | (Except.ok none, g') => runGame sym f g' rest
            | (Except.error _, _) => none) = some o := hrun
        by_cases hr9 : m < 1 ∨ m > 9
        · rw [move_eq_invalid g m hr9] at hrun2
          exact Option.noConfusion hrun2
        · rcases hoc : isMark (getCell g.board ((m - 1) / 3).toNat ((m - 1) % 3).toNat)
          · have hi : ((m - 1) / 3).toNat < 3 := by omega
            have hj : ((m - 1) % 3).toNat < 3 := by omega
            have hpm : (((m - 1) / 3).toNat, ((m - 1) % 3).toNat) ∈
                Game.get_empty_box_positions g.board :=
              empties_mem_intro g.board _ _ hi hj hoc
            have hbqf : Nat.beq (cellCode (toMoveCell g.board)) (cellCode sym) = false :=
              Bool.eq_false_iff.mpr (fun htr => hto
                ((marks_beq_iff _ _ (toMoveCell_isMark g.board) hsymM).mp htr))
            rw [hbqf] at htab
            simp only [cond_false] at htab
            have hmemL : lookupT (tblFor sym) (encBoard g.board +
                cellCode (toMoveCell g.board) * 3 ^ (3 * ((m - 1) / 3).toNat +
                  ((m - 1) % 3).toNat)) ∈
                (Game.get_empty_box_positions g.board).map
                  (fun q => lookupT (tblFor sym)
                    (encBoard g.board +
                      cellCode (toMoveCell g.board) * 3 ^ (3 * q.1 + q.2))) :=
              List.mem_map_of_mem _ hpm
            have hminv : 10 ≤ lookupT (tblFor sym) (encBoard g.board +
                cellCode (toMoveCell g.board) * 3 ^ (3 * ((m - 1) / 3).toNat +
                  ((m - 1) % 3).toNat)) := by
              have h1 := minListN_le _ _ hmemL
              rw [← htab] at h1
              omega
            have hmove := move_eq_ok g m hr9 hoc
            rw [hmove] at hrun2
            have hpg : postGame g m = Game.mk (setCell g.board ((m - 1) / 3).toNat
                ((m - 1) % 3).toNat (toMoveCell g.board)) (g.turn + 1) := by
              unfold postGame
              rw [← htmv]
            rw [hpg] at hrun2
            obtain ⟨hv2, hcm2, hc12, hc22, hlk2, hwin2⟩ :=
              post_move_facts hT sym hsym g hv hcm hc1 hc2
                (((m - 1) / 3).toNat, ((m - 1) % 3).toNat) hpm hminv
            rcases hpo : postResult (Game.mk (setCell g.board ((m - 1) / 3).toNat
                ((m - 1) % 3).toNat (toMoveCell g.board)) (g.turn + 1)) with _ | o2
            · rw [hpo] at hrun2
              have hrun3 : runGame sym f (Game.mk (setCell g.board ((m - 1) / 3).toNat
                  ((m - 1) % 3).toNat (toMoveCell g.board)) (g.turn + 1)) rest =
                  some o := hrun2
              obtain ⟨hnw2, ht92⟩ := postResult_none _ hpo
              exact ih (Game.mk (setCell g.board ((m - 1) / 3).toNat
                  ((m - 1) % 3).toNat (toMoveCell g.board)) (g.turn + 1))
                rest o hv2 hcm2 hc12 hc22 hlk2 hnw2 ht92 hrun3
            · rw [hpo] at hrun2
              have hrun3 : some o2 = some o := hrun2
              injection hrun3 with hoo
              rcases postResult_some _ _ hpo with hti | ⟨w, hw, ho2⟩
              · left
                rw [← hoo, hti]
              · right
                rw [← hoo, ho2, hwin2 w hw]
          · rw [move_eq_occupied g m hr9 hoc] at hrun2
            exact Option.noConfusion hrun2

/-- The nine successive states of the bot-versus-bot game, with each move
computed through the value table and each `Game.move` evaluated directly. -/
theorem selfplay_tie_aux (hT : ∀ m, m < 19683 → checkStep tXval tOval m = true) :
    selfPlay 9 Game.init = some Outcome.tie := by
  have hb0 : MinimaxBot.move Cell.X Game.init = some 1 := by
    rw [botMove_by_table hT Cell.X (Or.inl rfl) Game.init (by decide) (by decide) (by decide)]
    decide
  have hb1 : MinimaxBot.move Cell.O (Game.mk [[Cell.X, Cell.E 2, Cell.E 3], [Cell.E 4, Cell.E 5, Cell.E 6], [Cell.E 7, Cell.E 8, Cell.E 9]] 1) = some 5 := by
    rw [botMove_by_table hT Cell.O (Or.inr rfl) (Game.mk [[Cell.X, Cell.E 2, Cell.E 3], [Cell.E 4, Cell.E 5, Cell.E 6], [Cell.E 7, Cell.E 8, Cell.E 9]] 1) (by decide) (by decide) (by decide)]
    decide
  have hb2 : MinimaxBot.move Cell.X (Game.mk [[Cell.X, Cell.E 2, Cell.E 3], [Cell.E 4, Cell.O, Cell.E 6], [Cell.E 7, Cell.E 8, Cell.E 9]] 2) = some 2 := by
    rw [botMove_by_table hT Cell.X (Or.inl rfl) (Game.mk [[Cell.X, Cell.E 2, Cell.E 3], [Cell.E 4, Cell.O, Cell.E 6], [Cell.E 7, Cell.E 8, Cell.E 9]] 2) (by decide) (by decide) (by decide)]
    decide
  have hb3 : MinimaxBot.move Cell.O (Game.mk [[Cell.X, Cell.X, Cell.E 3], [Cell.E 4, Cell.O, Cell.E 6], [Cell.E 7, Cell.E 8, Cell.E 9]] 3) = some 3 := by
    rw [botMove_by_table hT Cell.O (Or.inr rfl) (Game.mk [[Cell.X, Cell.X, Cell.E 3], [Cell.E 4, Cell.O, Cell.E 6], [Cell.E 7, Cell.E 8, Cell.E 9]] 3) (by decide) (by decide) (by decide)]
    decide
  have hb4 : MinimaxBot.move Cell.X (Game.mk [[Cell.X, Cell.X, Cell.O], [Cell.E 4, Cell.O, Cell.E 6], [Cell.E 7, Cell.E 8, Cell.E 9]] 4) = some 7 := by
    rw [botMove_by_table hT Cell.X (Or.inl rfl) (Game.mk [[Cell.X, Cell.X, Cell.O], [Cell.E 4, Cell.O, Cell.E 6], [Cell.E 7, Cell.E 8, Cell.E 9]] 4) (by decide) (by decide) (by decide)]
    decide
  have hb5 : MinimaxBot.move Cell.O (Game.mk [[Cell.X, Cell.X, Cell.O], [Cell.E 4, Cell.O, Cell.E 6], [Cell.X, Cell.E 8, Cell.E 9]] 5) = some 4 := by
    rw [botMove_by_table hT Cell.O (Or.inr rfl) (Game.mk [[Cell.X, Cell.X, Cell.O], [Cell.E 4, Cell.O, Cell.E 6], [Cell.X, Cell.E 8, Cell.E 9]] 5) (by decide) (by decide) (by decide)]
    decide
  have hb6 : MinimaxBot.move Cell.X (Game.mk [[Cell.X, Cell.X, Cell.O], [Cell.O, Cell.O, Cell.E 6], [Cell.X, Cell.E 8, Cell.E 9]] 6) = some 6 := by
    rw [botMove_by_table hT Cell.X (Or.inl rfl) (Game.mk [[Cell.X, Cell.X, Cell.O], [Cell.O, Cell.O, Cell.E 6], [Cell.X, Cell.E 8, Cell.E 9]] 6) (by decide) (by decide) (by decide)]
    decide
  have hb7 : MinimaxBot.move Cell.O (Game.mk [[Cell.X, Cell.X, Cell.O], [Cell.O, Cell.O, Cell.X], [Cell.X, Cell.E 8, Cell.E 9]] 7) = some 8 := by
    rw [botMove_by_table hT Cell.O (Or.inr rfl) (Game.mk [[Cell.X, Cell.X, Cell.O], [Cell.O, Cell.O, Cell.X], [Cell.X, Cell.E 8, Cell.E 9]] 7) (by decide) (by decide) (by decide)]
    decide
  have hb8 : MinimaxBot.move Cell.X (Game.mk [[Cell.X, Cell.X, Cell.O], [Cell.O, Cell.O, Cell.X], [Cell.X, Cell.O, Cell.E 9]] 8) = some 9 := by
    rw [botMove_by_table hT Cell.X (Or.inl rfl) (Game.mk [[Cell.X, Cell.X, Cell.O], [Cell.O, Cell.O, Cell.X], [Cell.X, Cell.O, Cell.E 9]] 8) (by decide) (by decide) (by decide)]
    decide
  have t8 : selfPlay 1 (Game.mk [[Cell.X, Cell.X, Cell.O], [Cell.O, Cell.O, Cell.X], [Cell.X, Cell.O, Cell.E 9]] 8) = some Outcome.tie := by
    have hs := selfPlay_step 0 (Game.mk [[Cell.X, Cell.X, Cell.O], [Cell.O, Cell.O, Cell.X], [Cell.X, Cell.O, Cell.E 9]] 8)
    rw [show (if ((Game.mk [[Cell.X, Cell.X, Cell.O], [Cell.O, Cell.O, Cell.X], [Cell.X, Cell.O, Cell.E 9]] 8) : Game).turn % 2 = 0 then Cell.X else Cell.O) = Cell.X from rfl,
      hb8] at hs
    rw [hs]
    rfl
  have t7 : selfPlay 2 (Game.mk [[Cell.X, Cell.X, Cell.O], [Cell.O, Cell.O, Cell.X], [Cell.X, Cell.E 8, Cell.E 9]] 7) = some Outcome.tie := by
    have hs := selfPlay_step 1 (Game.mk [[Cell.X, Cell.X, Cell.O], [Cell.O, Cell.O, Cell.X], [Cell.X, Cell.E 8, Cell.E 9]] 7)
    rw [show (if ((Game.mk [[Cell.X, Cell.X, Cell.O], [Cell.O, Cell.O, Cell.X], [Cell.X, Cell.E 8, Cell.E 9]] 7) : Game).turn % 2 = 0 then Cell.X else Cell.O) = Cell.O from rfl,
      hb7] at hs
    rw [hs]
    exact t8
  have t6 : selfPlay 3 (Game.mk [[Cell.X, Cell.X, Cell.O], [Cell.O, Cell.O, Cell.E 6], [Cell.X, Cell.E 8, Cell.E 9]] 6) = some Outcome.tie := by
    have hs := selfPlay_step 2 (Game.mk [[Cell.X, Cell.X, Cell.O], [Cell.O, Cell.O, Cell.E 6], [Cell.X, Cell.E 8, Cell.E 9]] 6)
    rw [show (if ((Game.mk [[Cell.X, Cell.X, Cell.O], [Cell.O, Cell.O, Cell.E 6], [Cell.X, Cell.E 8, Cell.E 9]] 6) : Game).turn % 2 = 0 then Cell.X else Cell.O) = Cell.X from rfl,
      hb6] at hs
    rw [hs]
    exact t7
  have t5 : selfPlay 4 (Game.mk [[Cell.X, Cell.X, Cell.O], [Cell.E 4, Cell.O, Cell.E 6], [Cell.X, Cell.E 8, Cell.E 9]] 5) = some Outcome.tie := by
    have hs := selfPlay_step 3 (Game.mk [[Cell.X, Cell.X, Cell.O], [Cell.E 4, Cell.O, Cell.E 6], [Cell.X, Cell.E 8, Cell.E 9]] 5)
    rw [show (if ((Game.mk [[Cell.X, Cell.X, Cell.O], [Cell.E 4, Cell.O, Cell.E 6], [Cell.X, Cell.E 8, Cell.E 9]] 5) : Game).turn % 2 = 0 then Cell.X else Cell.O) = Cell.O from rfl,
      hb5] at hs
    rw [hs]
    exact t6
  have t4 : selfPlay 5 (Game.mk [[Cell.X, Cell.X, Cell.O], [Cell.E 4, Cell.O, Cell.E 6], [Cell.E 7, Cell.E 8, Cell.E 9]] 4) = some Outcome.tie := by
    have hs := selfPlay_step 4 (Game.mk [[Cell.X, Cell.X, Cell.O], [Cell.E 4, Cell.O, Cell.E 6], [Cell.E 7, Cell.E 8, Cell.E 9]] 4)
    rw [show (if ((Game.mk [[Cell.X, Cell.X, Cell.O], [Cell.E 4, Cell.O, Cell.E 6], [Cell.E 7, Cell.E 8, Cell.E 9]] 4) : Game).turn % 2 = 0 then Cell.X else Cell.O) = Cell.X from rfl,
      hb4] at hs
    rw [hs]
    exact t5
  have t3 : selfPlay 6 (Game.mk [[Cell.X, Cell.X, Cell.E 3], [Cell.E 4, Cell.O, Cell.E 6], [Cell.E 7, Cell.E 8, Cell.E 9]] 3) = some Outcome.tie := by
    have hs := selfPlay_step 5 (Game.mk [[Cell.X, Cell.X, Cell.E 3], [Cell.E 4, Cell.O, Cell.E 6], [Cell.E 7, Cell.E 8, Cell.E 9]] 3)
    rw [show (if ((Game.mk [[Cell.X, Cell.X, Cell.E 3], [Cell.E 4, Cell.O, Cell.E 6], [Cell.E 7, Cell.E 8, Cell.E 9]] 3) : Game).turn % 2 = 0 then Cell.X else Cell.O) = Cell.O from rfl,
      hb3] at hs
    rw [hs]
    exact t4
  have t2 : selfPlay 7 (Game.mk [[Cell.X, Cell.E 2, Cell.E 3], [Cell.E 4, Cell.O, Cell.E 6], [Cell.E 7, Cell.E 8, Cell.E 9]] 2) = some Outcome.tie := by
    have hs := selfPlay_step 6 (Game.mk [[Cell.X, Cell.E 2, Cell.E 3], [Cell.E 4, Cell.O, Cell.E 6], [Cell.E 7, Cell.E 8, Cell.E 9]] 2)
    rw [show (if ((Game.mk [[Cell.X, Cell.E 2, Cell.E 3], [Cell.E 4, Cell.O, Cell.E 6], [Cell.E 7, Cell.E 8, Cell.E 9]] 2) : Game).turn % 2 = 0 then Cell.X else Cell.O) = Cell.X from rfl,
      hb2] at hs
    rw [hs]
    exact t3
  have t1 : selfPlay 8 (Game.mk [[Cell.X, Cell.E 2, Cell.E 3], [Cell.E 4, Cell.E 5, Cell.E 6], [Cell.E 7, Cell.E 8, Cell.E 9]] 1) = some Outcome.tie := by
    have hs := selfPlay_step 7 (Game.mk [[Cell.X, Cell.E 2, Cell.E 3], [Cell.E 4, Cell.E 5, Cell.E 6], [Cell.E 7, Cell.E 8, Cell.E 9]] 1)
    rw [show (if ((Game.mk [[Cell.X, Cell.E 2, Cell.E 3], [Cell.E 4, Cell.E 5, Cell.E 6], [Cell.E 7, Cell.E 8, Cell.E 9]] 1) : Game).turn % 2 = 0 then Cell.X else Cell.O) = Cell.O from rfl,
      hb1] at hs
    rw [hs]
    exact t2
  have t0 : selfPlay 9 Game.init = some Outcome.tie := by
    have hs := selfPlay_step 8 Game.init
    rw [show (if (Game.init : Game).turn % 2 = 0 then Cell.X else Cell.O) = Cell.X from rfl,
      hb0] at hs
    rw [hs]
    exact t1
  exact t0

/-- A concrete five-move game: the bot as X against the opponent moves
`[2, 5]`, ending in a win for X. -/
theorem runX25_aux (hT : ∀ m, m < 19683 → checkStep tXval tOval m = true) :
    runGame Cell.X 9 Game.init [2, 5] = some (Outcome.winner Cell.X) := by
  have hb0 : MinimaxBot.move Cell.X Game.init = some 1 := by
    rw [botMove_by_table hT Cell.X (Or.inl rfl) Game.init (by decide) (by decide) (by decide)]
    decide
  have hb2 : MinimaxBot.move Cell.X (Game.mk [[Cell.X, Cell.O, Cell.E 3], [Cell.E 4, Cell.E 5, Cell.E 6], [Cell.E 7, Cell.E 8, Cell.E 9]] 2) = some 4 := by
    rw [botMove_by_table hT Cell.X (Or.inl rfl) (Game.mk [[Cell.X, Cell.O, Cell.E 3], [Cell.E 4, Cell.E 5, Cell.E 6], [Cell.E 7, Cell.E 8, Cell.E 9]] 2) (by decide) (by decide) (by decide)]
    decide
  have hb4 : MinimaxBot.move Cell.X (Game.mk [[Cell.X, Cell.O, Cell.E 3], [Cell.X, Cell.O, Cell.E 6], [Cell.E 7, Cell.E 8, Cell.E 9]] 4) = some 7 := by
    rw [botMove_by_table hT Cell.X (Or.inl rfl) (Game.mk [[Cell.X, Cell.O, Cell.E 3], [Cell.X, Cell.O, Cell.E 6], [Cell.E 7, Cell.E 8, Cell.E 9]] 4) (by decide) (by decide) (by decide)]
    decide
  have r4 : runGame Cell.X 5 (Game.mk [[Cell.X, Cell.O, Cell.E 3], [Cell.X, Cell.O, Cell.E 6], [Cell.E 7, Cell.E 8, Cell.E 9]] 4) [] = some (Outcome.winner Cell.X) := by
    have hs := runGame_step Cell.X 4 (Game.mk [[Cell.X, Cell.O, Cell.E 3], [Cell.X, Cell.O, Cell.E 6], [Cell.E 7, Cell.E 8, Cell.E 9]] 4) []
    rw [show (if ((Game.mk [[Cell.X, Cell.O, Cell.E 3], [Cell.X, Cell.O, Cell.E 6], [Cell.E 7, Cell.E 8, Cell.E 9]] 4) : Game).turn % 2 = 0 then Cell.X else Cell.O) = Cell.X from rfl] at hs
    rw [if_pos rfl, hb4] at hs
    rw [hs]
    rfl
  have r3 : runGame Cell.X 6 (Game.mk [[Cell.X, Cell.O, Cell.E 3], [Cell.X, Cell.E 5, Cell.E 6], [Cell.E 7, Cell.E 8, Cell.E 9]] 3) [5] = some (Outcome.winner Cell.X) := by
    have hs := runGame_step Cell.X 5 (Game.mk [[Cell.X, Cell.O, Cell.E 3], [Cell.X, Cell.E 5, Cell.E 6], [Cell.E 7, Cell.E 8, Cell.E 9]] 3) [5]
    rw [show (if ((Game.mk [[Cell.X, Cell.O, Cell.E 3], [Cell.X, Cell.E 5, Cell.E 6], [Cell.E 7, Cell.E 8, Cell.E 9]] 3) : Game).turn % 2 = 0 then Cell.X else Cell.O) = Cell.O from rfl] at hs
    rw [if_neg (by decide)] at hs
    rw [hs]
    exact r4
  have r2 : runGame Cell.X 7 (Game.mk [[Cell.X, Cell.O, Cell.E 3], [Cell.E 4, Cell.E 5, Cell.E 6], [Cell.E 7, Cell.E 8, Cell.E 9]] 2) [5] = some (Outcome.winner Cell.X) := by
    have hs := runGame_step Cell.X 6 (Game.mk [[Cell.X, Cell.O, Cell.E 3], [Cell.E 4, Cell.E 5, Cell.E 6], [Cell.E 7, Cell.E 8, Cell.E 9]] 2) [5]
    rw [show (if ((Game.mk [[Cell.X, Cell.O, Cell.E 3], [Cell.E 4, Cell.E 5, Cell.E 6], [Cell.E 7, Cell.E 8, Cell.E 9]] 2) : Game).turn % 2 = 0 then Cell.X else Cell.O) = Cell.X from rfl] at hs
    rw [if_pos rfl, hb2] at hs
    rw [hs]
    exact r3
  have r1 : runGame Cell.X 8 (Game.mk [[Cell.X, Cell.E 2, Cell.E 3], [Cell.E 4, Cell.E 5, Cell.E 6], [Cell.E 7, Cell.E 8, Cell.E 9]] 1) [2, 5] = some (Outcome.winner Cell.X) := by
    have hs := runGame_step Cell.X 7 (Game.mk [[Cell.X, Cell.E 2, Cell.E 3], [Cell.E 4, Cell.E 5, Cell.E 6], [Cell.E 7, Cell.E 8, Cell.E 9]] 1) [2, 5]
    rw [show (if ((Game.mk [[Cell.X, Cell.E 2, Cell.E 3], [Cell.E 4, Cell.E 5, Cell.E 6], [Cell.E 7, Cell.E 8, Cell.E 9]] 1) : Game).turn % 2 = 0 then Cell.X else Cell.O) = Cell.O from rfl] at hs
    rw [if_neg (by decide)] at hs
    rw [hs]
    exact r2
  have r0 : runGame Cell.X 9 Game.init [2, 5] = some (Outcome.winner Cell.X) := by
    have hs := runGame_step Cell.X 8 Game.init [2, 5]
    rw [show (if (Game.init : Game).turn % 2 = 0 then Cell.X else Cell.O) = Cell.X from rfl] at hs
    rw [if_pos rfl, hb0] at hs
    rw [hs]
    exact r1
  exact r0

/-- C1: With both players choosing every move through `MinimaxBot.move`
starting from the fresh board of `Game.__init__`, and each chosen box applied
with `Game.move` until a terminal outcome, the final outcome is `Tie`; since
both bots run the identical algorithm, the same sequence of positions arises
for either assignment of X and O to the two bots, so the result covers both
assignments. -/
theorem selfplay_tie : selfPlay 9 Game.init = some Outcome.tie :=
  selfplay_tie_aux tables_pass

/-- C2: In any game from the fresh board in which the minimax bot with
symbol `sym` (X or O) chooses all of its own moves via `MinimaxBot.move` and
the opponent submits an arbitrary sequence of moves, a terminal outcome is
never a win for the opponent: it is a tie or a win for the bot. -/
theorem minimax_never_loses (sym : Cell) (hsym : sym = Cell.X ∨ sym = Cell.O)
    (fuel : Nat) (ms : List Int) (o : Outcome)
    (hrun : runGame sym fuel Game.init ms = some o) :
    o = Outcome.tie ∨ o = Outcome.winner sym := by
  rcases hsym with rfl | rfl
  · exact runGame_safe tables_pass Cell.X (Or.inl rfl) fuel Game.init ms o (by decide)
      (by decide) (by decide) (by decide) (by decide) (by decide) (by decide) hrun
  · exact runGame_safe tables_pass Cell.O (Or.inr rfl) fuel Game.init ms o (by decide)
      (by decide) (by decide) (by decide) (by decide) (by decide) (by decide) hrun

/-- Witness for C2 at a concrete game: the bot as X, an opponent playing
boxes 2 then 5, a bot win as the recorded outcome. -/
theorem minimax_never_loses_witness :
    (Cell.X = Cell.X ∨ Cell.X = Cell.O) ∧
      (Outcome.winner Cell.X = Outcome.tie ∨
        Outcome.winner Cell.X = Outcome.winner Cell.X) :=
  ⟨Or.inl rfl, minimax_never_loses Cell.X (Or.inl rfl) 9 [2, 5] (Outcome.winner Cell.X)
    (runX25_aux tables_pass)⟩
